import Mathlib

set_option maxRecDepth 40000

/-!
Shallow embedding of `base/gsflip.c` (ghostpdl 10.02.1): the planar-to-chunky
sample transcoder.  Planes are modelled as total functions from a plane index
and a byte index to a byte value; every read masks with `% 256` because the C
code reads through `const byte *` pointers.  Each routine returns the pair of
its C `int` return code and the list of bytes it wrote to the output buffer,
in order.  `nbytes` is kept as `Int` because the C parameter is a signed
`int` and the loops only run while it is positive.
-/

namespace GSFlip

/-- A family of input planes: plane index → byte index → byte value. -/
abbrev Planes := Nat → Nat → Nat

/-- Modelled from the spec: the 256-entry bit-expansion table generator
`bit_table_8` of `gsbittab.h` (that header is not in src).  Entry `b` is the
sum of the given values over the set bits of `b`, relocating each sample bit
of the input byte to its output position (§4.2 of the spec: a precomputed
256-entry expansion table maps an input byte to a 24-bit value with each
sample bit relocated to its final position). -/
def bit_table_8 (v80 v40 v20 v10 v8 v4 v2 v1 b : Nat) : Nat :=
  (if b.testBit 7 then v80 else 0) +
  (if b.testBit 6 then v40 else 0) +
  (if b.testBit 5 then v20 else 0) +
  (if b.testBit 4 then v10 else 0) +
  (if b.testBit 3 then v8 else 0) +
  (if b.testBit 2 then v4 else 0) +
  (if b.testBit 1 then v2 else 0) +
  (if b.testBit 0 then v1 else 0)

/-- The `tab3x1` table of `flip3x1`:
`VTAB(0x800000, 0x100000, 0x20000, 0x4000, 0x800, 0x100, 0x20, 4)`. -/
def tab3x1 (b : Nat) : Nat :=
  bit_table_8 0x800000 0x100000 0x20000 0x4000 0x800 0x100 0x20 4 b

/-- The `tab3x2` table of `flip3x2`:
`VTAB(0x800000, 0x400000, 0x20000, 0x10000, 0x800, 0x400, 0x20, 0x10)`. -/
def tab3x2 (b : Nat) : Nat :=
  bit_table_8 0x800000 0x400000 0x20000 0x10000 0x800 0x400 0x20 0x10 b

/-- Loop body of `flip3x1`: one iteration per remaining count, reading byte
`i` of each plane and emitting three output bytes. -/
def flip3x1_loop (in1 in2 in3 : Nat → Nat) : Nat → Nat → List Nat
  | _, 0 => []
  | i, n + 1 =>
    let b24 := tab3x1 (in1 i % 256) ||| (tab3x1 (in2 i % 256) >>> 1) |||
               (tab3x1 (in3 i % 256) >>> 2)
    ((b24 >>> 16) % 256) :: ((b24 >>> 8) % 256) :: (b24 % 256) ::
      flip3x1_loop in1 in2 in3 (i + 1) n

/-- `flip3x1`: convert 3Mx1 to 3x1. -/
def flip3x1 (planes : Planes) (offset : Nat) (nbytes : Int) : Int × List Nat :=
  (0, flip3x1_loop (planes 0) (planes 1) (planes 2) offset nbytes.toNat)

/-- Loop body of `flip3x2`. -/
def flip3x2_loop (in1 in2 in3 : Nat → Nat) : Nat → Nat → List Nat
  | _, 0 => []
  | i, n + 1 =>
    let b24 := tab3x2 (in1 i % 256) ||| (tab3x2 (in2 i % 256) >>> 2) |||
               (tab3x2 (in3 i % 256) >>> 4)
    ((b24 >>> 16) % 256) :: ((b24 >>> 8) % 256) :: (b24 % 256) ::
      flip3x2_loop in1 in2 in3 (i + 1) n

/-- `flip3x2`: convert 3Mx2 to 3x2. -/
def flip3x2 (planes : Planes) (offset : Nat) (nbytes : Int) : Int × List Nat :=
  (0, flip3x2_loop (planes 0) (planes 1) (planes 2) offset nbytes.toNat)

/-- Loop body of `flip3x4`. -/
def flip3x4_loop (in1 in2 in3 : Nat → Nat) : Nat → Nat → List Nat
  | _, 0 => []
  | i, n + 1 =>
    let b1 := in1 i % 256
    let b2 := in2 i % 256
    let b3 := in3 i % 256
    ((b1 &&& 0xf0) ||| (b2 >>> 4)) ::
    ((b3 &&& 0xf0) ||| (b1 &&& 0xf)) ::
    (((b2 <<< 4) % 256) ||| (b3 &&& 0xf)) ::
      flip3x4_loop in1 in2 in3 (i + 1) n

/-- `flip3x4`: convert 3Mx4 to 3x4. -/
def flip3x4 (planes : Planes) (offset : Nat) (nbytes : Int) : Int × List Nat :=
  (0, flip3x4_loop (planes 0) (planes 1) (planes 2) offset nbytes.toNat)

/-- Loop body of `flip3x8`. -/
def flip3x8_loop (in1 in2 in3 : Nat → Nat) : Nat → Nat → List Nat
  | _, 0 => []
  | i, n + 1 =>
    (in1 i % 256) :: (in2 i % 256) :: (in3 i % 256) ::
      flip3x8_loop in1 in2 in3 (i + 1) n

/-- `flip3x8`: convert 3Mx8 to 3x8. -/
def flip3x8 (planes : Planes) (offset : Nat) (nbytes : Int) : Int × List Nat :=
  (0, flip3x8_loop (planes 0) (planes 1) (planes 2) offset nbytes.toNat)

/-- Loop body of `flip3x12`: the C loop steps `n` down by 3 and the byte
index up by 3, so the count argument here is the number of iterations. -/
def flip3x12_loop (pa pb pc : Nat → Nat) : Nat → Nat → List Nat
  | _, 0 => []
  | i, n + 1 =>
    let a1 := pa (i + 1) % 256
    let b0 := pb i % 256
    let b1 := pb (i + 1) % 256
    let b2 := pb (i + 2) % 256
    let c1 := pc (i + 1) % 256
    (pa i % 256) ::
    ((a1 &&& 0xf0) ||| (b0 >>> 4)) ::
    (((b0 <<< 4) ||| (b1 >>> 4)) % 256) ::
    (pc i % 256) ::
    ((c1 &&& 0xf0) ||| (a1 &&& 0xf)) ::
    (pa (i + 2) % 256) ::
    (((b1 <<< 4) ||| (b2 >>> 4)) % 256) ::
    (((b2 <<< 4) ||| (c1 &&& 0xf)) % 256) ::
    (pc (i + 2) % 256) ::
      flip3x12_loop pa pb pc (i + 3) n

/-- `flip3x12`: convert 3Mx12 to 3x12.  The C loop decrements `n` by 3 while
`n > 0`, i.e. it rounds `nbytes` up to a multiple of 3 and runs
`⌈nbytes/3⌉` iterations. -/
def flip3x12 (planes : Planes) (offset : Nat) (nbytes : Int) : Int × List Nat :=
  (0, flip3x12_loop (planes 0) (planes 1) (planes 2) offset ((nbytes.toNat + 2) / 3))

/-- Loop body of `flip3x16`: steps `n` down by 2; count is iterations. -/
def flip3x16_loop (pa pb pc : Nat → Nat) : Nat → Nat → List Nat
  | _, 0 => []
  | i, n + 1 =>
    (pa i % 256) :: (pa (i + 1) % 256) ::
    (pb i % 256) :: (pb (i + 1) % 256) ::
    (pc i % 256) :: (pc (i + 1) % 256) ::
      flip3x16_loop pa pb pc (i + 2) n

/-- `flip3x16`: convert 3Mx16 to 3x16; `⌈nbytes/2⌉` iterations. -/
def flip3x16 (planes : Planes) (offset : Nat) (nbytes : Int) : Int × List Nat :=
  (0, flip3x16_loop (planes 0) (planes 1) (planes 2) offset ((nbytes.toNat + 1) / 2))

/-- The `TRANSPOSE(r,s,mask,shift)` macro on 8-bit `byte_var` temporaries:
`temp = ((s >> shift) ^ r) & mask; r ^= temp; s ^= temp << shift`, the store
back into a byte truncating to 8 bits. -/
def transposeBits (r s mask shift : Nat) : Nat × Nat :=
  let temp := ((s >>> shift) ^^^ r) &&& mask
  (r ^^^ temp, (s ^^^ (temp <<< shift)) % 256)

/-- Loop body of `flip4x1`. -/
def flip4x1_loop (in1 in2 in3 in4 : Nat → Nat) : Nat → Nat → List Nat
  | _, 0 => []
  | i, n + 1 =>
    let p12 := transposeBits (in1 i % 256) (in2 i % 256) 0x55 1
    let p34 := transposeBits (in3 i % 256) (in4 i % 256) 0x55 1
    let p13 := transposeBits p12.1 p34.1 0x33 2
    let p24 := transposeBits p12.2 p34.2 0x33 2
    let b1 := p13.1
    let b2 := p24.1
    let b3 := p13.2
    let b4 := p24.2
    ((b1 &&& 0xf0) ||| (b2 >>> 4)) ::
    ((b3 &&& 0xf0) ||| (b4 >>> 4)) ::
    (((b1 <<< 4) ||| (b2 &&& 0xf)) % 256) ::
    (((b3 <<< 4) ||| (b4 &&& 0xf)) % 256) ::
      flip4x1_loop in1 in2 in3 in4 (i + 1) n

/-- `flip4x1`: convert 4Mx1 to 4x1. -/
def flip4x1 (planes : Planes) (offset : Nat) (nbytes : Int) : Int × List Nat :=
  (0, flip4x1_loop (planes 0) (planes 1) (planes 2) (planes 3) offset nbytes.toNat)

/-- Loop body of `flip4x2`. -/
def flip4x2_loop (in1 in2 in3 in4 : Nat → Nat) : Nat → Nat → List Nat
  | _, 0 => []
  | i, n + 1 =>
    let p13 := transposeBits (in1 i % 256) (in3 i % 256) 0x0f 4
    let p24 := transposeBits (in2 i % 256) (in4 i % 256) 0x0f 4
    let p12 := transposeBits p13.1 p24.1 0x33 2
    let p34 := transposeBits p13.2 p24.2 0x33 2
    p12.1 :: p12.2 :: p34.1 :: p34.2 ::
      flip4x2_loop in1 in2 in3 in4 (i + 1) n

/-- `flip4x2`: convert 4Mx2 to 4x2. -/
def flip4x2 (planes : Planes) (offset : Nat) (nbytes : Int) : Int × List Nat :=
  (0, flip4x2_loop (planes 0) (planes 1) (planes 2) (planes 3) offset nbytes.toNat)

/-- Loop body of `flip4x4`. -/
def flip4x4_loop (in1 in2 in3 in4 : Nat → Nat) : Nat → Nat → List Nat
  | _, 0 => []
  | i, n + 1 =>
    let b1 := in1 i % 256
    let b2 := in2 i % 256
    let b3 := in3 i % 256
    let b4 := in4 i % 256
    ((b1 &&& 0xf0) ||| (b2 >>> 4)) ::
    ((b3 &&& 0xf0) ||| (b4 >>> 4)) ::
    (((b1 <<< 4) ||| (b2 &&& 0xf)) % 256) ::
    (((b3 <<< 4) ||| (b4 &&& 0xf)) % 256) ::
      flip4x4_loop in1 in2 in3 in4 (i + 1) n

/-- `flip4x4`: convert 4Mx4 to 4x4. -/
def flip4x4 (planes : Planes) (offset : Nat) (nbytes : Int) : Int × List Nat :=
  (0, flip4x4_loop (planes 0) (planes 1) (planes 2) (planes 3) offset nbytes.toNat)

/-- Loop body of `flip4x8`. -/
def flip4x8_loop (in1 in2 in3 in4 : Nat → Nat) : Nat → Nat → List Nat
  | _, 0 => []
  | i, n + 1 =>
    (in1 i % 256) :: (in2 i % 256) :: (in3 i % 256) :: (in4 i % 256) ::
      flip4x8_loop in1 in2 in3 in4 (i + 1) n

/-- `flip4x8`: convert 4Mx8 to 4x8. -/
def flip4x8 (planes : Planes) (offset : Nat) (nbytes : Int) : Int × List Nat :=
  (0, flip4x8_loop (planes 0) (planes 1) (planes 2) (planes 3) offset nbytes.toNat)

/-- Loop body of `flip4x12`: steps `n` down by 3; count is iterations. -/
def flip4x12_loop (pa pb pc pd : Nat → Nat) : Nat → Nat → List Nat
  | _, 0 => []
  | i, n + 1 =>
    let a1 := pa (i + 1) % 256
    let b1 := pb (i + 1) % 256
    let c1 := pc (i + 1) % 256
    let d1 := pd (i + 1) % 256
    let vb0 := pb i % 256
    let vd0 := pd i % 256
    let va2 := pa (i + 2) % 256
    let vc2 := pc (i + 2) % 256
    (pa i % 256) ::
    ((a1 &&& 0xf0) ||| (vb0 >>> 4)) ::
    (((vb0 <<< 4) ||| (b1 >>> 4)) % 256) ::
    (pc i % 256) ::
    ((c1 &&& 0xf0) ||| (vd0 >>> 4)) ::
    (((vd0 <<< 4) ||| (d1 >>> 4)) % 256) ::
    (((a1 <<< 4) ||| (va2 >>> 4)) % 256) ::
    (((va2 <<< 4) ||| (b1 &&& 0xf)) % 256) ::
    (pb (i + 2) % 256) ::
    (((c1 <<< 4) ||| (vc2 >>> 4)) % 256) ::
    (((vc2 <<< 4) ||| (d1 &&& 0xf)) % 256) ::
    (pd (i + 2) % 256) ::
      flip4x12_loop pa pb pc pd (i + 3) n

/-- `flip4x12`: convert 4Mx12 to 4x12; `⌈nbytes/3⌉` iterations. -/
def flip4x12 (planes : Planes) (offset : Nat) (nbytes : Int) : Int × List Nat :=
  (0, flip4x12_loop (planes 0) (planes 1) (planes 2) (planes 3) offset
        ((nbytes.toNat + 2) / 3))

/-- Loop body of `flip4x16`: steps `n` down by 2; count is iterations. -/
def flip4x16_loop (pa pb pc pd : Nat → Nat) : Nat → Nat → List Nat
  | _, 0 => []
  | i, n + 1 =>
    (pa i % 256) :: (pa (i + 1) % 256) ::
    (pb i % 256) :: (pb (i + 1) % 256) ::
    (pc i % 256) :: (pc (i + 1) % 256) ::
    (pd i % 256) :: (pd (i + 1) % 256) ::
      flip4x16_loop pa pb pc pd (i + 2) n

/-- `flip4x16`: convert 4Mx16 to 4x16; `⌈nbytes/2⌉` iterations. -/
def flip4x16 (planes : Planes) (offset : Nat) (nbytes : Int) : Int × List Nat :=
  (0, flip4x16_loop (planes 0) (planes 1) (planes 2) (planes 3) offset
        ((nbytes.toNat + 1) / 2))

/-- The output bit cursor of the generic path (§3 of the spec): bytes
emitted so far, the sub-byte bit offset `dbit`, and the accumulator byte
`dbbyte`. -/
structure BitCursor where
  out : List Nat
  dbit : Nat
  dbbyte : Nat
  deriving Repr, DecidableEq

/-- Modelled from the spec: `sample_store_next8` of `gsbitops.h` (that header
is not in src).  Appends a `dbits`-wide value to the bit cursor: shift it
into the accumulator, and when the accumulator fills a byte exactly, emit
that byte and reset; a field that would straddle the byte boundary makes the
store fail, which the caller turns into the RangeCheck failure of §7. -/
def sample_store_next8 (value : Nat) (c : BitCursor) (dbits : Nat) :
    Option BitCursor :=
  let bit := c.dbit + dbits
  if bit < 8 then
    some ⟨c.out, bit, c.dbbyte ||| ((value <<< (8 - bit)) % 256)⟩
  else if bit = 8 then
    some ⟨c.out ++ [(c.dbbyte ||| value) % 256], 0, 0⟩
  else none

/-- Modelled from the spec: `sample_store_flush` of `gsbitops.h` (not in
src).  After the last sample, flush any partially filled accumulator byte
(its unwritten low bits zero) to the output. -/
def sample_store_flush (c : BitCursor) : List Nat :=
  if c.dbit = 0 then c.out else c.out ++ [c.dbbyte % 256]

/-- The sample extraction of `flipNx1to8`: read the byte at bit position
`bi` of plane `pi` and extract the `bps`-wide field, MSB first:
`(*sptr >> (8 - (bi & 7) - bits_per_sample)) & mask`. -/
def flipN_extract (planes : Planes) (offset bps bi pi : Nat) : Nat :=
  ((planes pi (offset + bi / 8) % 256) >>> (8 - bi % 8 - bps)) &&&
    ((1 <<< bps) - 1)

/-- Inner plane loop of `flipNx1to8` over a list of plane indices; on a
failed store it returns the bytes fully emitted so far. -/
def flipN_inner (planes : Planes) (offset bps bi : Nat) :
    List Nat → BitCursor → Except (List Nat) BitCursor
  | [], c => .ok c
  | pi :: rest, c =>
    match sample_store_next8 (flipN_extract planes offset bps bi pi) c bps with
    | none => .error c.out
    | some c2 => flipN_inner planes offset bps bi rest c2

/-- Outer sample loop of `flipNx1to8`: `k` iterations remaining, current
bit index `bi` advancing by `bps` each time. -/
def flipN_outer (planes : Planes) (offset bps np : Nat) :
    Nat → Nat → BitCursor → Except (List Nat) BitCursor
  | _, 0, c => .ok c
  | bi, k + 1, c =>
    match flipN_inner planes offset bps bi (List.range np) c with
    | .error out => .error out
    | .ok c2 => flipN_outer planes offset bps np (bi + bps) k c2

/-- Modelled from the spec: `gs_error_rangecheck` of `gserrors.h` (not in
src), the distinct error code of the generic packer's RangeCheck failure. -/
def gs_error_rangecheck : Int := -15

/-- `flipNx1to8`: convert NMx{1,2,4,8} to Nx{1,2,4,8}.  The C loop
`for (bi = 0; bi < nbytes*8; bi += bps)` runs `⌈8·nbytes/bps⌉` times (for
`bps = 0` the C loop would not terminate, but dispatch never passes 0). -/
def flipNx1to8 (planes : Planes) (offset : Nat) (nbytes : Int) (np bps : Nat) :
    Int × List Nat :=
  match flipN_outer planes offset bps np 0 ((8 * nbytes.toNat + (bps - 1)) / bps)
      ⟨[], 0, 0⟩ with
  | .ok c => (0, sample_store_flush c)
  | .error out => (gs_error_rangecheck, out)

/-- Modelled from the spec: `sample_store_next_12` of `gsbitops.h` (not in
src), the bit cursor specialized for 12-bit fields (§4.4): at a byte-aligned
cursor emit the high byte and hold the low nibble; at a half-byte cursor
merge the held nibble with the high nibble and emit two bytes. -/
def sample_store_next_12 (value : Nat) (c : BitCursor) : BitCursor :=
  if c.dbit = 0 then
    ⟨c.out ++ [(value >>> 4) % 256], 4, ((value <<< 4) % 256)⟩
  else
    ⟨c.out ++ [(c.dbbyte ||| (value >>> 8)) % 256, value % 256], 0, 0⟩

/-- The 12-bit sample extraction of `flipNx12`: alternating nibble
alignment by `bi & 4`. -/
def flipNx12_extract (planes : Planes) (offset bi pi : Nat) : Nat :=
  let s0 := planes pi (offset + bi / 8) % 256
  let s1 := planes pi (offset + bi / 8 + 1) % 256
  if bi &&& 4 ≠ 0 then ((s0 &&& 0xf) <<< 8) ||| s1
  else (s0 <<< 4) ||| (s1 >>> 4)

/-- Inner plane loop of `flipNx12`. -/
def flipNx12_inner (planes : Planes) (offset bi : Nat) :
    List Nat → BitCursor → BitCursor
  | [], c => c
  | pi :: rest, c =>
    flipNx12_inner planes offset bi rest
      (sample_store_next_12 (flipNx12_extract planes offset bi pi) c)

/-- Outer sample loop of `flipNx12`: bit index advances by 12. -/
def flipNx12_outer (planes : Planes) (offset np : Nat) :
    Nat → Nat → BitCursor → BitCursor
  | _, 0, c => c
  | bi, k + 1, c =>
    flipNx12_outer planes offset np (bi + 12) k
      (flipNx12_inner planes offset bi (List.range np) c)

/-- `flipNx12`: convert NMx12 to Nx12; `⌈8·nbytes/12⌉` outer iterations. -/
def flipNx12 (planes : Planes) (offset : Nat) (nbytes : Int) (np : Nat) :
    Int × List Nat :=
  (0, sample_store_flush
        (flipNx12_outer planes offset np 0 ((8 * nbytes.toNat + 11) / 12) ⟨[], 0, 0⟩))

/-- Loop of `flipNx16`: `bi` advances by 2 while `bi < nbytes`; each plane
contributes its 2 bytes in order. -/
def flipNx16_loop (planes : Planes) (offset np : Nat) : Nat → Nat → List Nat
  | _, 0 => []
  | bi, k + 1 =>
    (List.range np).flatMap
      (fun pi => [planes pi (offset + bi) % 256, planes pi (offset + bi + 1) % 256]) ++
      flipNx16_loop planes offset np (bi + 2) k

/-- `flipNx16`: convert NMx16 to Nx16; `⌈nbytes/2⌉` iterations. -/
def flipNx16 (planes : Planes) (offset : Nat) (nbytes : Int) (np : Nat) :
    Int × List Nat :=
  (0, flipNx16_loop planes offset np 0 ((nbytes.toNat + 1) / 2))

/-- The `image_flip3_procs` dispatch table (indices 1..16; `flip_fail`,
which returns -1 and writes nothing, fills the unsupported slots). -/
def image_flip3_procs (bps : Nat) (planes : Planes) (offset : Nat)
    (nbytes : Int) : Int × List Nat :=
  match bps with
  | 1 => flip3x1 planes offset nbytes
  | 2 => flip3x2 planes offset nbytes
  | 4 => flip3x4 planes offset nbytes
  | 8 => flip3x8 planes offset nbytes
  | 12 => flip3x12 planes offset nbytes
  | 16 => flip3x16 planes offset nbytes
  | _ => (-1, [])

/-- The `image_flip4_procs` dispatch table. -/
def image_flip4_procs (bps : Nat) (planes : Planes) (offset : Nat)
    (nbytes : Int) : Int × List Nat :=
  match bps with
  | 1 => flip4x1 planes offset nbytes
  | 2 => flip4x2 planes offset nbytes
  | 4 => flip4x4 planes offset nbytes
  | 8 => flip4x8 planes offset nbytes
  | 12 => flip4x12 planes offset nbytes
  | 16 => flip4x16 planes offset nbytes
  | _ => (-1, [])

/-- The `image_flipN_procs` dispatch table (`flipN_fail` fills the
unsupported slots). -/
def image_flipN_procs (bps : Nat) (planes : Planes) (offset : Nat)
    (nbytes : Int) (np : Nat) : Int × List Nat :=
  match bps with
  | 1 => flipNx1to8 planes offset nbytes np 1
  | 2 => flipNx1to8 planes offset nbytes np 2
  | 4 => flipNx1to8 planes offset nbytes np 4
  | 8 => flipNx1to8 planes offset nbytes np 8
  | 12 => flipNx12 planes offset nbytes np
  | 16 => flipNx16 planes offset nbytes np
  | _ => (-1, [])

/-- `image_flip_planes`, the public interface: validate
`bits_per_sample ∈ [1,16]`, then switch on `num_planes` (3, 4, negative,
generic). -/
def image_flip_planes (planes : Planes) (offset : Nat) (nbytes : Int)
    (num_planes bits_per_sample : Int) : Int × List Nat :=
  if bits_per_sample < 1 ∨ 16 < bits_per_sample then (-1, [])
  else if num_planes = 3 then
    image_flip3_procs bits_per_sample.toNat planes offset nbytes
  else if num_planes = 4 then
    image_flip4_procs bits_per_sample.toNat planes offset nbytes
  else if num_planes < 0 then (-1, [])
  else image_flipN_procs bits_per_sample.toNat planes offset nbytes num_planes.toNat

end GSFlip

namespace GSFlip

/-! ## Bit-manipulation helper lemmas -/

theorem or_shiftRight (a b n : Nat) :
    (a ||| b) >>> n = (a >>> n) ||| (b >>> n) := by
  apply Nat.eq_of_testBit_eq
  intro i
  simp

theorem and_shiftRight (a b n : Nat) :
    (a &&& b) >>> n = (a >>> n) &&& (b >>> n) := by
  apply Nat.eq_of_testBit_eq
  intro i
  simp

theorem or_mod_two_pow (a b k : Nat) :
    (a ||| b) % 2 ^ k = (a % 2 ^ k) ||| (b % 2 ^ k) := by
  apply Nat.eq_of_testBit_eq
  intro i
  simp [Nat.testBit_mod_two_pow, Bool.and_or_distrib_left]

theorem or_mod256 (a b : Nat) : (a ||| b) % 256 = (a % 256) ||| (b % 256) := by
  have h : (256 : Nat) = 2 ^ 8 := by norm_num
  rw [h, or_mod_two_pow]

/-- Disjoint `Nat` or is addition. -/
theorem or_eq_add_of_and (a : Nat) : ∀ b, a &&& b = 0 → a ||| b = a + b := by
  induction a using Nat.strong_induction_on with
  | _ a ih =>
    intro b h
    rcases Nat.eq_zero_or_pos a with ha | ha
    · simp [ha]
    · have h2 : a / 2 &&& b / 2 = 0 := by rw [← Nat.and_div_two, h]
      have ihh := ih (a / 2) (Nat.div_lt_self ha (by norm_num)) (b / 2) h2
      have hm : (a &&& b) % 2 = 0 := by rw [h]
      have hmor : (a ||| b) % 2 = a % 2 + b % 2 := by
        rcases Nat.mod_two_eq_zero_or_one a with ha2 | ha2 <;>
          rcases Nat.mod_two_eq_zero_or_one b with hb2 | hb2
        · rcases Nat.mod_two_eq_zero_or_one (a ||| b) with hor | hor
          · omega
          · rw [Nat.or_mod_two_eq_one] at hor
            omega
        · have : (a ||| b) % 2 = 1 := Nat.or_mod_two_eq_one.mpr (Or.inr hb2)
          omega
        · have : (a ||| b) % 2 = 1 := Nat.or_mod_two_eq_one.mpr (Or.inl ha2)
          omega
        · have : (a &&& b) % 2 = 1 := Nat.and_mod_two_eq_one.mpr ⟨ha2, hb2⟩
          omega
      have hdiv : (a ||| b) / 2 = a / 2 + b / 2 := by
        rw [Nat.or_div_two, ihh]
      have e1 := Nat.div_add_mod (a ||| b) 2
      have e2 := Nat.div_add_mod a 2
      have e3 := Nat.div_add_mod b 2
      omega

end GSFlip

namespace GSFlip

/-! ## C3, C4, C8, C9: dispatch-level behaviour -/

/-- C3: for every `bits_per_sample` outside [1,16] (and any `num_planes`,
planes, offset, nbytes), `image_flip_planes` fails with -1 before any
dispatch and writes no output bytes. -/
theorem C3_invalid_depth_fails (planes : Planes) (offset : Nat) (nbytes : Int)
    (num_planes bits_per_sample : Int)
    (h : bits_per_sample < 1 ∨ 16 < bits_per_sample) :
    image_flip_planes planes offset nbytes num_planes bits_per_sample = (-1, []) := by
  unfold image_flip_planes
  rw [if_pos h]

/-- Witness for C3 at `bits_per_sample = 17`. -/
theorem C3_invalid_depth_fails_witness :
    image_flip_planes (fun _ _ => 0) 0 5 3 17 = (-1, []) :=
  C3_invalid_depth_fails (fun _ _ => 0) 0 5 3 17 (Or.inr (by norm_num))

/-- C4: for `num_planes ∈ {3,4}` and `bits_per_sample` in [1,16] but not in
{1,2,4,8,12,16}, `image_flip_planes` fails with no bytes written (the
`flip_fail` slot of the fixed tables is hit; the generic routines are not
involved). -/
theorem C4_unsupported_fixed_combo_fails (planes : Planes) (offset : Nat)
    (nbytes : Int) (np bps : Int) (hnp : np = 3 ∨ np = 4)
    (h1 : 1 ≤ bps) (h2 : bps ≤ 16)
    (hbad : bps ≠ 1 ∧ bps ≠ 2 ∧ bps ≠ 4 ∧ bps ≠ 8 ∧ bps ≠ 12 ∧ bps ≠ 16) :
    image_flip_planes planes offset nbytes np bps = (-1, []) := by
  obtain ⟨u1, u2, u4, u8, u12, u16⟩ := hbad
  have hr : ¬(bps < 1 ∨ 16 < bps) := by omega
  unfold image_flip_planes
  rw [if_neg hr]
  rcases hnp with rfl | rfl <;>
    · simp only [if_pos, if_neg, reduceIte]
      interval_cases bps <;>
        simp_all [image_flip3_procs, image_flip4_procs]

/-- Witness for C4 at `num_planes = 3`, `bits_per_sample = 5`. -/
theorem C4_unsupported_fixed_combo_fails_witness :
    image_flip_planes (fun _ _ => 0) 0 5 3 5 = (-1, []) :=
  C4_unsupported_fixed_combo_fails (fun _ _ => 0) 0 5 3 5 (Or.inl rfl)
    (by norm_num) (by norm_num)
    (by refine ⟨?_, ?_, ?_, ?_, ?_, ?_⟩ <;> norm_num)

/-- C8: for every `(num_planes, bits_per_sample)` combination accepted by
dispatch, a call with `nbytes = 0` succeeds and writes zero bytes. -/
theorem C8_zero_length_noop (planes : Planes) (offset : Nat) (np bps : Int)
    (hnp : 0 ≤ np)
    (hbps : bps = 1 ∨ bps = 2 ∨ bps = 4 ∨ bps = 8 ∨ bps = 12 ∨ bps = 16) :
    image_flip_planes planes offset 0 np bps = (0, []) := by
  have hr : ¬(bps < 1 ∨ 16 < bps) := by rcases hbps with rfl|rfl|rfl|rfl|rfl|rfl <;> norm_num
  unfold image_flip_planes
  rw [if_neg hr]
  by_cases h3 : np = 3
  · rw [if_pos h3]
    rcases hbps with rfl|rfl|rfl|rfl|rfl|rfl <;>
      simp [image_flip3_procs, flip3x1, flip3x2, flip3x4, flip3x8, flip3x12,
            flip3x16, flip3x1_loop, flip3x2_loop, flip3x4_loop, flip3x8_loop,
            flip3x12_loop, flip3x16_loop]
  · rw [if_neg h3]
    by_cases h4 : np = 4
    · rw [if_pos h4]
      rcases hbps with rfl|rfl|rfl|rfl|rfl|rfl <;>
        simp [image_flip4_procs, flip4x1, flip4x2, flip4x4, flip4x8, flip4x12,
              flip4x16, flip4x1_loop, flip4x2_loop, flip4x4_loop, flip4x8_loop,
              flip4x12_loop, flip4x16_loop]
    · rw [if_neg h4, if_neg (by omega : ¬ np < 0)]
      rcases hbps with rfl|rfl|rfl|rfl|rfl|rfl <;>
        simp [image_flipN_procs, flipNx1to8, flipNx12, flipNx16, flipN_outer,
              flipNx12_outer, flipNx16_loop, sample_store_flush]

/-- Witness for C8 at `num_planes = 7`, `bits_per_sample = 12`. -/
theorem C8_zero_length_noop_witness :
    image_flip_planes (fun _ _ => 0) 3 0 7 12 = (0, []) :=
  C8_zero_length_noop (fun _ _ => 0) 3 7 12 (by norm_num)
    (by norm_num)

end GSFlip

namespace GSFlip

/-- C9: every pre-execution failure of `image_flip_planes` — depth outside
[1,16], negative plane count, or an unsupported (plane count, depth)
combination — returns the same value -1, indistinguishable at the interface;
only the generic packer's RangeCheck failure carries a different code. -/
theorem C9_uniform_error_code :
    (∀ (planes : Planes) (offset : Nat) (nbytes : Int) (np bps : Int),
      (np < 0 ∨ (bps ≠ 1 ∧ bps ≠ 2 ∧ bps ≠ 4 ∧ bps ≠ 8 ∧ bps ≠ 12 ∧ bps ≠ 16)) →
      (image_flip_planes planes offset nbytes np bps).1 = -1) ∧
    gs_error_rangecheck ≠ -1 := by
  constructor
  · intro planes offset nbytes np bps h
    by_cases hr : bps < 1 ∨ 16 < bps
    · unfold image_flip_planes
      rw [if_pos hr]
    · unfold image_flip_planes
      rw [if_neg hr]
      push_neg at hr
      obtain ⟨hl, hu⟩ := hr
      rcases h with hneg | ⟨u1, u2, u4, u8, u12, u16⟩
      · rw [if_neg (by omega : ¬ np = 3), if_neg (by omega : ¬ np = 4),
            if_pos hneg]
      · by_cases h3 : np = 3
        · rw [if_pos h3]
          interval_cases bps <;> simp_all [image_flip3_procs]
        · rw [if_neg h3]
          by_cases h4 : np = 4
          · rw [if_pos h4]
            interval_cases bps <;> simp_all [image_flip4_procs]
          · rw [if_neg h4]
            by_cases hneg : np < 0
            · rw [if_pos hneg]
            · rw [if_neg hneg]
              interval_cases bps <;> simp_all [image_flipN_procs]
  · unfold gs_error_rangecheck
    norm_num

/-- Witness for C9: a negative plane count returns -1, and the RangeCheck
code differs from -1. -/
theorem C9_uniform_error_code_witness :
    (image_flip_planes (fun _ _ => 0) 0 5 (-2) 8).1 = -1 ∧
    gs_error_rangecheck ≠ -1 :=
  ⟨C9_uniform_error_code.1 (fun _ _ => 0) 0 5 (-2) 8 (Or.inl (by norm_num)),
   C9_uniform_error_code.2⟩

end GSFlip

namespace GSFlip

/-! ## C10: the fixed depth-12 routines round `nbytes` up to a multiple of 3 -/

theorem flip3x12_loop_length (pa pb pc : Nat → Nat) (i n : Nat) :
    (flip3x12_loop pa pb pc i n).length = 9 * n := by
  induction n generalizing i with
  | zero => rfl
  | succ n ih =>
    simp only [flip3x12_loop, List.length_cons, ih]
    ring

theorem flip4x12_loop_length (pa pb pc pd : Nat → Nat) (i n : Nat) :
    (flip4x12_loop pa pb pc pd i n).length = 12 * n := by
  induction n generalizing i with
  | zero => rfl
  | succ n ih =>
    simp only [flip4x12_loop, List.length_cons, ih]
    ring

theorem flip3x12_loop_congr (pa pb pc qa qb qc : Nat → Nat) (i n : Nat)
    (h : ∀ j, j < 3 * n →
      pa (i + j) = qa (i + j) ∧ pb (i + j) = qb (i + j) ∧ pc (i + j) = qc (i + j)) :
    flip3x12_loop pa pb pc i n = flip3x12_loop qa qb qc i n := by
  induction n generalizing i with
  | zero => rfl
  | succ n ih =>
    have h0 := h 0 (by omega)
    have h1 := h 1 (by omega)
    have h2 := h 2 (by omega)
    simp only [Nat.add_zero] at h0
    simp only [flip3x12_loop, h0.1, h0.2.1, h0.2.2, h1.1, h1.2.1, h1.2.2,
               h2.1, h2.2.1, h2.2.2]
    rw [ih (i + 3) (fun j hj => by
      have := h (j + 3) (by omega)
      constructor
      · rw [show i + 3 + j = i + (j + 3) by omega]
        exact this.1
      constructor
      · rw [show i + 3 + j = i + (j + 3) by omega]
        exact this.2.1
      · rw [show i + 3 + j = i + (j + 3) by omega]
        exact this.2.2)]

theorem flip4x12_loop_congr (pa pb pc pd qa qb qc qd : Nat → Nat) (i n : Nat)
    (h : ∀ j, j < 3 * n →
      pa (i + j) = qa (i + j) ∧ pb (i + j) = qb (i + j) ∧
      pc (i + j) = qc (i + j) ∧ pd (i + j) = qd (i + j)) :
    flip4x12_loop pa pb pc pd i n = flip4x12_loop qa qb qc qd i n := by
  induction n generalizing i with
  | zero => rfl
  | succ n ih =>
    have h0 := h 0 (by omega)
    have h1 := h 1 (by omega)
    have h2 := h 2 (by omega)
    simp only [Nat.add_zero] at h0
    simp only [flip4x12_loop, h0.1, h0.2.1, h0.2.2.1, h0.2.2.2,
               h1.1, h1.2.1, h1.2.2.1, h1.2.2.2,
               h2.1, h2.2.1, h2.2.2.1, h2.2.2.2]
    rw [ih (i + 3) (fun j hj => by
      have := h (j + 3) (by omega)
      refine ⟨?_, ?_, ?_, ?_⟩ <;>
        · rw [show i + 3 + j = i + (j + 3) by omega]
          tauto)]

/-- C10: for every `nbytes > 0` (in particular one that is not a multiple of
3), `flip3x12` and `flip4x12` succeed, process `⌈nbytes/3⌉` two-pixel
groups, write exactly `9·⌈nbytes/3⌉` resp. `12·⌈nbytes/3⌉` output bytes,
and read only the `3·⌈nbytes/3⌉` input bytes per plane from `offset` on. -/
theorem C10_depth12_rounds_up (planes planes2 : Planes) (offset : Nat)
    (nbytes : Int) (hpos : 0 < nbytes) :
    (flip3x12 planes offset nbytes).1 = 0 ∧
    (flip4x12 planes offset nbytes).1 = 0 ∧
    (flip3x12 planes offset nbytes).2.length = 9 * ((nbytes.toNat + 2) / 3) ∧
    (flip4x12 planes offset nbytes).2.length = 12 * ((nbytes.toNat + 2) / 3) ∧
    ((∀ pi j, j < 3 * ((nbytes.toNat + 2) / 3) →
        planes pi (offset + j) = planes2 pi (offset + j)) →
      flip3x12 planes offset nbytes = flip3x12 planes2 offset nbytes ∧
      flip4x12 planes offset nbytes = flip4x12 planes2 offset nbytes) := by
  refine ⟨rfl, rfl, ?_, ?_, ?_⟩
  · exact flip3x12_loop_length _ _ _ _ _
  · exact flip4x12_loop_length _ _ _ _ _ _
  · intro h
    constructor
    · unfold flip3x12
      rw [flip3x12_loop_congr (planes 0) (planes 1) (planes 2)
            (planes2 0) (planes2 1) (planes2 2) offset _
            (fun j hj => ⟨h 0 j hj, h 1 j hj, h 2 j hj⟩)]
    · unfold flip4x12
      rw [flip4x12_loop_congr (planes 0) (planes 1) (planes 2) (planes 3)
            (planes2 0) (planes2 1) (planes2 2) (planes2 3) offset _
            (fun j hj => ⟨h 0 j hj, h 1 j hj, h 2 j hj, h 3 j hj⟩)]

/-- Witness for C10 at `nbytes = 4` (not a multiple of 3): two groups. -/
theorem C10_depth12_rounds_up_witness :
    (flip3x12 (fun p i => p + i) 0 4).1 = 0 ∧
    (flip4x12 (fun p i => p + i) 0 4).1 = 0 ∧
    (flip3x12 (fun p i => p + i) 0 4).2.length = 9 * (((4 : Int).toNat + 2) / 3) ∧
    (flip4x12 (fun p i => p + i) 0 4).2.length = 12 * (((4 : Int).toNat + 2) / 3) ∧
    ((∀ pi j, j < 3 * (((4 : Int).toNat + 2) / 3) →
        (fun p i => p + i : Planes) pi (0 + j) = (fun p i => p + i : Planes) pi (0 + j)) →
      flip3x12 (fun p i => p + i) 0 4 = flip3x12 (fun p i => p + i) 0 4 ∧
      flip4x12 (fun p i => p + i) 0 4 = flip4x12 (fun p i => p + i) 0 4) :=
  C10_depth12_rounds_up (fun p i => p + i) (fun p i => p + i) 0 4 (by norm_num)

end GSFlip

namespace GSFlip

/-! ## C5: bit layout of the 3-plane depth-1 routine -/

/-- Big-endian byte concatenation of a byte list. -/
def bytesBE : List Nat → Nat
  | [] => 0
  | b :: rest => b * 2 ^ (8 * rest.length) + bytesBE rest

theorem tab3x1_lt : ∀ b < 256, tab3x1 b < 2 ^ 24 := by decide

theorem tab3x1_bits : ∀ b < 256, ∀ k < 8,
    (tab3x1 b).testBit (23 - 3 * k) = b.testBit (7 - k) ∧
    (tab3x1 b).testBit (22 - 3 * k) = false ∧
    (tab3x1 b).testBit (21 - 3 * k) = false ∧
    (tab3x1 b).testBit (24 - 3 * k) = false ∧
    (tab3x1 b).testBit (25 - 3 * k) = false := by decide

theorem bytesBE_three (B : Nat) (h : B < 2 ^ 24) :
    bytesBE [(B >>> 16) % 256, (B >>> 8) % 256, B % 256] = B := by
  simp only [bytesBE, List.length_cons, List.length_nil,
             Nat.shiftRight_eq_div_pow]
  norm_num
  omega

/-- C5: in `flip3x1`, for every input byte triple and every sample index
`k < 8` (MSB first), sample `k` of plane 0 lands at bit `23 - 3k` of the
24-bit output group (emitted high byte first), plane 1's at `22 - 3k`,
plane 2's at `21 - 3k`; the group is exactly the OR of the 256-entry table
at plane 0 with plane 1's entry shifted right 1 and plane 2's shifted
right 2. -/
theorem C5_flip3x1_bit_layout (b1 b2 b3 : Nat) (h1 : b1 < 256) (h2 : b2 < 256)
    (h3 : b3 < 256) (k : Nat) (hk : k < 8) :
    bytesBE (flip3x1_loop (fun _ => b1) (fun _ => b2) (fun _ => b3) 0 1) =
      (tab3x1 b1 ||| (tab3x1 b2 >>> 1) ||| (tab3x1 b3 >>> 2)) ∧
    (bytesBE (flip3x1_loop (fun _ => b1) (fun _ => b2) (fun _ => b3) 0 1)).testBit
        (23 - 3 * k) = b1.testBit (7 - k) ∧
    (bytesBE (flip3x1_loop (fun _ => b1) (fun _ => b2) (fun _ => b3) 0 1)).testBit
        (22 - 3 * k) = b2.testBit (7 - k) ∧
    (bytesBE (flip3x1_loop (fun _ => b1) (fun _ => b2) (fun _ => b3) 0 1)).testBit
        (21 - 3 * k) = b3.testBit (7 - k) := by
  have e1 : b1 % 256 = b1 := Nat.mod_eq_of_lt h1
  have e2 : b2 % 256 = b2 := Nat.mod_eq_of_lt h2
  have e3 : b3 % 256 = b3 := Nat.mod_eq_of_lt h3
  have hB : tab3x1 b1 ||| (tab3x1 b2 >>> 1) ||| (tab3x1 b3 >>> 2) < 2 ^ 24 := by
    have t1 := tab3x1_lt b1 h1
    have t2 : tab3x1 b2 >>> 1 < 2 ^ 24 := by
      rw [Nat.shiftRight_eq_div_pow]
      exact Nat.lt_of_le_of_lt (Nat.div_le_self _ _) (tab3x1_lt b2 h2)
    have t3 : tab3x1 b3 >>> 2 < 2 ^ 24 := by
      rw [Nat.shiftRight_eq_div_pow]
      exact Nat.lt_of_le_of_lt (Nat.div_le_self _ _) (tab3x1_lt b3 h3)
    exact Nat.or_lt_two_pow (Nat.or_lt_two_pow t1 t2) t3
  have hout : flip3x1_loop (fun _ => b1) (fun _ => b2) (fun _ => b3) 0 1 =
      [((tab3x1 b1 ||| (tab3x1 b2 >>> 1) ||| (tab3x1 b3 >>> 2)) >>> 16) % 256,
       ((tab3x1 b1 ||| (tab3x1 b2 >>> 1) ||| (tab3x1 b3 >>> 2)) >>> 8) % 256,
       (tab3x1 b1 ||| (tab3x1 b2 >>> 1) ||| (tab3x1 b3 >>> 2)) % 256] := by
    simp [flip3x1_loop, e1, e2, e3]
  rw [hout, bytesBE_three _ hB]
  obtain ⟨f1a, f1b, f1c, f1d, f1e⟩ := tab3x1_bits b1 h1 k hk
  obtain ⟨f2a, f2b, f2c, f2d, f2e⟩ := tab3x1_bits b2 h2 k hk
  obtain ⟨f3a, f3b, f3c, f3d, f3e⟩ := tab3x1_bits b3 h3 k hk
  refine ⟨rfl, ?_, ?_, ?_⟩
  · simp only [Nat.testBit_or, Nat.testBit_shiftRight,
               show 1 + (23 - 3 * k) = 24 - 3 * k from by omega,
               show 2 + (23 - 3 * k) = 25 - 3 * k from by omega,
               f1a, f2d, f3e]
    simp
  · simp only [Nat.testBit_or, Nat.testBit_shiftRight,
               show 1 + (22 - 3 * k) = 23 - 3 * k from by omega,
               show 2 + (22 - 3 * k) = 24 - 3 * k from by omega,
               f1b, f2a, f3d]
    simp
  · simp only [Nat.testBit_or, Nat.testBit_shiftRight,
               show 1 + (21 - 3 * k) = 22 - 3 * k from by omega,
               show 2 + (21 - 3 * k) = 23 - 3 * k from by omega,
               f1c, f2b, f3a]
    simp

/-- Witness for C5 at `(b1,b2,b3) = (0x80, 0, 0)`, `k = 0`. -/
theorem C5_flip3x1_bit_layout_witness :
    bytesBE (flip3x1_loop (fun _ => 128) (fun _ => 0) (fun _ => 0) 0 1) =
      (tab3x1 128 ||| (tab3x1 0 >>> 1) ||| (tab3x1 0 >>> 2)) ∧
    (bytesBE (flip3x1_loop (fun _ => 128) (fun _ => 0) (fun _ => 0) 0 1)).testBit
        (23 - 3 * 0) = (128 : Nat).testBit (7 - 0) ∧
    (bytesBE (flip3x1_loop (fun _ => 128) (fun _ => 0) (fun _ => 0) 0 1)).testBit
        (22 - 3 * 0) = (0 : Nat).testBit (7 - 0) ∧
    (bytesBE (flip3x1_loop (fun _ => 128) (fun _ => 0) (fun _ => 0) 0 1)).testBit
        (21 - 3 * 0) = (0 : Nat).testBit (7 - 0) :=
  C5_flip3x1_bit_layout 128 0 0 (by norm_num) (by norm_num) (by norm_num) 0
    (by norm_num)

end GSFlip

namespace GSFlip

/-! ## C6: the 3-plane depth-12 group layout -/

theorem two_pow_mul_and_lt (k u v : Nat) (hv : v < 2 ^ k) :
    (u * 2 ^ k) &&& v = 0 := by
  apply Nat.eq_of_testBit_eq
  intro i
  simp only [Nat.testBit_and, Nat.zero_testBit]
  by_cases h : i < k
  · have hz : (u * 2 ^ k).testBit i = false := by
      rw [← Nat.shiftLeft_eq]
      simp only [Nat.testBit_shiftLeft]
      have : ¬ k ≤ i := by omega
      simp [this]
    simp [hz]
  · have hz : v.testBit i = false :=
      Nat.testBit_lt_two_pow
        (lt_of_lt_of_le hv (Nat.pow_le_pow_right (by norm_num) (by omega)))
    simp [hz]

theorem two_pow_mul_or_add (k u v : Nat) (hv : v < 2 ^ k) :
    (u * 2 ^ k) ||| v = u * 2 ^ k + v :=
  or_eq_add_of_and _ _ (two_pow_mul_and_lt k u v hv)

theorem or16_add (u v : Nat) (hv : v < 16) : (u * 16) ||| v = u * 16 + v := by
  have h := two_pow_mul_or_add 4 u v (by norm_num; omega)
  norm_num at h
  exact h

theorem or256_add (u v : Nat) (hv : v < 256) :
    (u * 256) ||| v = u * 256 + v := by
  have h := two_pow_mul_or_add 8 u v (by norm_num; omega)
  norm_num at h
  exact h

theorem shl4_eq (x : Nat) : x <<< 4 = x * 16 := by
  rw [Nat.shiftLeft_eq]

theorem shl8_eq (x : Nat) : x <<< 8 = x * 256 := by
  rw [Nat.shiftLeft_eq]

theorem shr4_eq (x : Nat) : x >>> 4 = x / 16 := by
  rw [Nat.shiftRight_eq_div_pow]

theorem and240_eq : ∀ x < 256, x &&& 240 = x / 16 * 16 := by decide

theorem and15_eq : ∀ x < 256, x &&& 15 = x % 16 := by decide

theorem shl4_mod256 : ∀ x < 256, (x <<< 4) % 256 = x % 16 * 16 := by decide

end GSFlip

namespace GSFlip

/-- The value of one 9-byte output group of `flip3x12` as a 72-bit number:
the two pixels' three 12-bit samples in pixel-then-channel order. -/
theorem group9_val (a0 a1 a2 b0 b1 b2 c0 c1 c2 : Nat)
    (ha0 : a0 < 256) (ha1 : a1 < 256) (ha2 : a2 < 256)
    (hb0 : b0 < 256) (hb1 : b1 < 256) (hb2 : b2 < 256)
    (hc0 : c0 < 256) (hc1 : c1 < 256) (hc2 : c2 < 256) :
    bytesBE [a0, (a1 &&& 0xf0) ||| (b0 >>> 4), ((b0 <<< 4) ||| (b1 >>> 4)) % 256,
             c0, (c1 &&& 0xf0) ||| (a1 &&& 0xf), a2,
             ((b1 <<< 4) ||| (b2 >>> 4)) % 256, ((b2 <<< 4) ||| (c1 &&& 0xf)) % 256,
             c2] =
      ((a0 <<< 4) ||| (a1 >>> 4)) * 2 ^ 60 + ((b0 <<< 4) ||| (b1 >>> 4)) * 2 ^ 48 +
      ((c0 <<< 4) ||| (c1 >>> 4)) * 2 ^ 36 + (((a1 &&& 0xf) <<< 8) ||| a2) * 2 ^ 24 +
      (((b1 &&& 0xf) <<< 8) ||| b2) * 2 ^ 12 + (((c1 &&& 0xf) <<< 8) ||| c2) := by
  have hA : (a1 &&& 0xf0) ||| (b0 >>> 4) = a1 / 16 * 16 + b0 / 16 := by
    rw [and240_eq a1 ha1, shr4_eq, or16_add _ _ (by omega)]
  have hB : ((b0 <<< 4) ||| (b1 >>> 4)) % 256 = b0 % 16 * 16 + b1 / 16 := by
    rw [or_mod256, shl4_mod256 b0 hb0, shr4_eq,
        Nat.mod_eq_of_lt (by omega : b1 / 16 < 256), or16_add _ _ (by omega)]
  have hC : (c1 &&& 0xf0) ||| (a1 &&& 0xf) = c1 / 16 * 16 + a1 % 16 := by
    rw [and240_eq c1 hc1, and15_eq a1 ha1, or16_add _ _ (by omega)]
  have hD : ((b1 <<< 4) ||| (b2 >>> 4)) % 256 = b1 % 16 * 16 + b2 / 16 := by
    rw [or_mod256, shl4_mod256 b1 hb1, shr4_eq,
        Nat.mod_eq_of_lt (by omega : b2 / 16 < 256), or16_add _ _ (by omega)]
  have hE : ((b2 <<< 4) ||| (c1 &&& 0xf)) % 256 = b2 % 16 * 16 + c1 % 16 := by
    rw [or_mod256, shl4_mod256 b2 hb2, and15_eq c1 hc1,
        Nat.mod_eq_of_lt (by omega : c1 % 16 < 256), or16_add _ _ (by omega)]
  have hF : (a0 <<< 4) ||| (a1 >>> 4) = a0 * 16 + a1 / 16 := by
    rw [shl4_eq, shr4_eq, or16_add _ _ (by omega)]
  have hG : (b0 <<< 4) ||| (b1 >>> 4) = b0 * 16 + b1 / 16 := by
    rw [shl4_eq, shr4_eq, or16_add _ _ (by omega)]
  have hH : (c0 <<< 4) ||| (c1 >>> 4) = c0 * 16 + c1 / 16 := by
    rw [shl4_eq, shr4_eq, or16_add _ _ (by omega)]
  have hI : ((a1 &&& 0xf) <<< 8) ||| a2 = a1 % 16 * 256 + a2 := by
    rw [and15_eq a1 ha1, shl8_eq, or256_add _ _ (by omega)]
  have hJ : ((b1 &&& 0xf) <<< 8) ||| b2 = b1 % 16 * 256 + b2 := by
    rw [and15_eq b1 hb1, shl8_eq, or256_add _ _ (by omega)]
  have hK : ((c1 &&& 0xf) <<< 8) ||| c2 = c1 % 16 * 256 + c2 := by
    rw [and15_eq c1 hc1, shl8_eq, or256_add _ _ (by omega)]
  rw [hA, hB, hC, hD, hE, hF, hG, hH, hI, hJ, hK]
  simp only [bytesBE, List.length_cons, List.length_nil]
  norm_num
  omega

end GSFlip

namespace GSFlip

/-- The first 12-bit sample of a plane's 3-byte group starting at byte `i`:
high byte then high nibble of the middle byte. -/
def sample12hi (p : Nat → Nat) (i : Nat) : Nat :=
  ((p i % 256) <<< 4) ||| ((p (i + 1) % 256) >>> 4)

/-- The second 12-bit sample of a plane's 3-byte group starting at byte `i`:
low nibble of the middle byte then the last byte. -/
def sample12lo (p : Nat → Nat) (i : Nat) : Nat :=
  ((p (i + 1) % 256 &&& 0xf) <<< 8) ||| (p (i + 2) % 256)

theorem flip3x12_loop_group (pa pb pc : Nat → Nat) (i m j : Nat) (hj : j < m) :
    ((flip3x12_loop pa pb pc i m).drop (9 * j)).take 9 =
      [pa (i + 3 * j) % 256,
       ((pa (i + 3 * j + 1) % 256) &&& 0xf0) ||| ((pb (i + 3 * j) % 256) >>> 4),
       (((pb (i + 3 * j) % 256) <<< 4) ||| ((pb (i + 3 * j + 1) % 256) >>> 4)) % 256,
       pc (i + 3 * j) % 256,
       ((pc (i + 3 * j + 1) % 256) &&& 0xf0) ||| ((pa (i + 3 * j + 1) % 256) &&& 0xf),
       pa (i + 3 * j + 2) % 256,
       (((pb (i + 3 * j + 1) % 256) <<< 4) ||| ((pb (i + 3 * j + 2) % 256) >>> 4)) % 256,
       (((pb (i + 3 * j + 2) % 256) <<< 4) ||| ((pc (i + 3 * j + 1) % 256) &&& 0xf)) % 256,
       pc (i + 3 * j + 2) % 256] := by
  induction m generalizing i j with
  | zero => omega
  | succ n ih =>
    cases j with
    | zero =>
      simp [flip3x12_loop, List.take]
    | succ j =>
      have h9 : 9 * (j + 1) = 9 + 9 * j := by ring
      have hdrop : (flip3x12_loop pa pb pc i (n + 1)).drop 9 =
          flip3x12_loop pa pb pc (i + 3) n := by
        simp [flip3x12_loop]
      rw [h9, ← List.drop_drop, hdrop, ih (i + 3) j (by omega)]
      simp only [show i + 3 + 3 * j = i + 3 * (j + 1) from by ring,
                 show i + 3 + 3 * j + 1 = i + 3 * (j + 1) + 1 from by ring,
                 show i + 3 + 3 * j + 2 = i + 3 * (j + 1) + 2 from by ring]

/-- C6: `flip3x12` on `nbytes = 3m` writes `m` consecutive 9-byte groups;
group `j` consumes input bytes `offset+3j .. offset+3j+2` of each of the
three planes (two 12-bit samples per plane) and its 72 bits are the two
pixels' samples with pixel order and channel order (plane 0, 1, 2)
preserved, the first pixel starting byte-aligned at the group's first byte
and the second at the following half-byte boundary. -/
theorem C6_flip3x12_two_pixel_groups (planes : Planes) (offset : Nat) (m : Nat) :
    (flip3x12 planes offset (3 * (m : Int))).1 = 0 ∧
    (flip3x12 planes offset (3 * (m : Int))).2.length = 9 * m ∧
    ∀ j < m,
      bytesBE ((((flip3x12 planes offset (3 * (m : Int))).2).drop (9 * j)).take 9) =
        sample12hi (planes 0) (offset + 3 * j) * 2 ^ 60 +
        sample12hi (planes 1) (offset + 3 * j) * 2 ^ 48 +
        sample12hi (planes 2) (offset + 3 * j) * 2 ^ 36 +
        sample12lo (planes 0) (offset + 3 * j) * 2 ^ 24 +
        sample12lo (planes 1) (offset + 3 * j) * 2 ^ 12 +
        sample12lo (planes 2) (offset + 3 * j) := by
  have hm : (3 * (m : Int)).toNat = 3 * m := by
    rw [show (3 : Int) * (m : Int) = ((3 * m : Nat) : Int) from by push_cast; ring,
        Int.toNat_natCast]
  have hcnt : ((3 * (m : Int)).toNat + 2) / 3 = m := by omega
  refine ⟨rfl, ?_, ?_⟩
  · simp only [flip3x12, hcnt]
    exact flip3x12_loop_length _ _ _ _ _
  · intro j hj
    simp only [flip3x12, hcnt]
    rw [flip3x12_loop_group (planes 0) (planes 1) (planes 2) offset m j hj]
    rw [group9_val _ _ _ _ _ _ _ _ _
          (Nat.mod_lt _ (by norm_num)) (Nat.mod_lt _ (by norm_num))
          (Nat.mod_lt _ (by norm_num)) (Nat.mod_lt _ (by norm_num))
          (Nat.mod_lt _ (by norm_num)) (Nat.mod_lt _ (by norm_num))
          (Nat.mod_lt _ (by norm_num)) (Nat.mod_lt _ (by norm_num))
          (Nat.mod_lt _ (by norm_num))]
    simp [sample12hi, sample12lo]

/-- Witness for C6: one group at concrete planes. -/
theorem C6_flip3x12_two_pixel_groups_witness :
    bytesBE ((((flip3x12 (fun p i => 17 * p + i) 0 (3 * ((1 : Nat) : Int))).2).drop
        (9 * 0)).take 9) =
      sample12hi ((fun p i => 17 * p + i) 0) (0 + 3 * 0) * 2 ^ 60 +
      sample12hi ((fun p i => 17 * p + i) 1) (0 + 3 * 0) * 2 ^ 48 +
      sample12hi ((fun p i => 17 * p + i) 2) (0 + 3 * 0) * 2 ^ 36 +
      sample12lo ((fun p i => 17 * p + i) 0) (0 + 3 * 0) * 2 ^ 24 +
      sample12lo ((fun p i => 17 * p + i) 1) (0 + 3 * 0) * 2 ^ 12 +
      sample12lo ((fun p i => 17 * p + i) 2) (0 + 3 * 0) :=
  (C6_flip3x12_two_pixel_groups (fun p i => 17 * p + i) 0 1).2.2 0 (by norm_num)

end GSFlip

namespace GSFlip

/-! ## C1: depth-8 calls interleave the planes byte for byte -/

/-- The plane-ordered byte interleave of `np` planes starting at `offset`,
for `n` pixels: `p0[offset], …, pN-1[offset], p0[offset+1], …`. -/
def interleave8 (planes : Planes) (offset np : Nat) : Nat → List Nat
  | 0 => []
  | n + 1 => (List.range np).map (fun pi => planes pi offset % 256) ++
      interleave8 planes (offset + 1) np n

theorem and255_eq_mod (x : Nat) : x &&& 255 = x % 256 := by
  have h := Nat.and_pow_two_sub_one_eq_mod x 8
  norm_num at h
  exact h

theorem flip3x8_loop_interleave (planes : Planes) (i n : Nat) :
    flip3x8_loop (planes 0) (planes 1) (planes 2) i n = interleave8 planes i 3 n := by
  induction n generalizing i with
  | zero => rfl
  | succ n ih =>
    have h3 : List.range 3 = [0, 1, 2] := rfl
    simp [flip3x8_loop, interleave8, h3, ih]

theorem flip4x8_loop_interleave (planes : Planes) (i n : Nat) :
    flip4x8_loop (planes 0) (planes 1) (planes 2) (planes 3) i n =
      interleave8 planes i 4 n := by
  induction n generalizing i with
  | zero => rfl
  | succ n ih =>
    have h4 : List.range 4 = [0, 1, 2, 3] := rfl
    simp [flip4x8_loop, interleave8, h4, ih]

theorem flipN_inner8 (planes : Planes) (offset bi : Nat) (l : List Nat) :
    ∀ out, flipN_inner planes offset 8 bi l ⟨out, 0, 0⟩ =
      .ok ⟨out ++ l.map (fun pi => planes pi (offset + bi / 8) % 256), 0, 0⟩ := by
  induction l with
  | nil => intro out; simp [flipN_inner]
  | cons pi rest ih =>
    intro out
    have hv : flipN_extract planes offset 8 bi pi =
        planes pi (offset + bi / 8) % 256 := by
      unfold flipN_extract
      have hs : 8 - bi % 8 - 8 = 0 := by omega
      rw [hs, Nat.shiftRight_zero,
          show (1 <<< 8 : Nat) - 1 = 255 from rfl, and255_eq_mod]
      omega
    simp only [flipN_inner, sample_store_next8, hv]
    norm_num
    rw [ih]
    have hmm : (planes pi (offset + bi / 8) % 256) % 256 =
        planes pi (offset + bi / 8) % 256 := by omega
    simp [hmm]

theorem flipN_outer8 (planes : Planes) (offset np n : Nat) :
    ∀ i out, flipN_outer planes offset 8 np (8 * i) n ⟨out, 0, 0⟩ =
      .ok ⟨out ++ interleave8 planes (offset + i) np n, 0, 0⟩ := by
  induction n with
  | zero => intro i out; simp [flipN_outer, interleave8]
  | succ n ih =>
    intro i out
    simp only [flipN_outer]
    rw [flipN_inner8]
    have hdiv : 8 * i / 8 = i := by omega
    rw [hdiv]
    show flipN_outer planes offset 8 np (8 * i + 8) n
        ⟨out ++ List.map (fun pi => planes pi (offset + i) % 256) (List.range np),
         0, 0⟩ = _
    rw [show 8 * i + 8 = 8 * (i + 1) from by ring, ih (i + 1)]
    simp [interleave8, show offset + i + 1 = offset + (i + 1) from by ring]

theorem flipNx1to8_depth8 (planes : Planes) (offset : Nat) (nbytes : Int)
    (np : Nat) :
    flipNx1to8 planes offset nbytes np 8 =
      (0, interleave8 planes offset np nbytes.toNat) := by
  unfold flipNx1to8
  have hcnt : (8 * nbytes.toNat + (8 - 1)) / 8 = nbytes.toNat := by omega
  rw [hcnt]
  have h := flipN_outer8 planes offset np nbytes.toNat 0 []
  simp only [Nat.mul_zero, Nat.add_zero, List.nil_append] at h
  rw [h]
  simp [sample_store_flush]

/-- C1: for every `num_planes ≥ 1` and `bits_per_sample = 8`, the call
succeeds and the output is the byte-exact plane-ordered interleave of the
input planes, pixel by pixel. -/
theorem C1_depth8_interleave (planes : Planes) (offset : Nat) (nbytes : Int)
    (np : Int) (hnp : 1 ≤ np) :
    image_flip_planes planes offset nbytes np 8 =
      (0, interleave8 planes offset np.toNat nbytes.toNat) := by
  unfold image_flip_planes
  rw [if_neg (by norm_num)]
  by_cases h3 : np = 3
  · rw [if_pos h3, h3]
    show image_flip3_procs 8 planes offset nbytes = _
    unfold image_flip3_procs flip3x8
    rw [flip3x8_loop_interleave]
    rfl
  · rw [if_neg h3]
    by_cases h4 : np = 4
    · rw [if_pos h4, h4]
      show image_flip4_procs 8 planes offset nbytes = _
      unfold image_flip4_procs flip4x8
      rw [flip4x8_loop_interleave]
      rfl
    · rw [if_neg h4, if_neg (by omega : ¬ np < 0)]
      show image_flipN_procs 8 planes offset nbytes np.toNat = _
      unfold image_flipN_procs
      exact flipNx1to8_depth8 planes offset nbytes np.toNat

/-- Witness for C1 at two planes, one pixel. -/
theorem C1_depth8_interleave_witness :
    image_flip_planes (fun p i => 100 * p + i) 5 1 2 8 =
      (0, interleave8 (fun p i => 100 * p + i) 5 ((2 : Int)).toNat
            ((1 : Int)).toNat) :=
  C1_depth8_interleave (fun p i => 100 * p + i) 5 1 2 (by norm_num)

end GSFlip

namespace GSFlip

/-! ## C7: the generic packer and RangeCheck -/

theorem flipN_inner_ok (planes : Planes) (offset bps bi : Nat)
    (hbps : bps = 1 ∨ bps = 2 ∨ bps = 4 ∨ bps = 8) (l : List Nat) :
    ∀ c : BitCursor, bps ∣ c.dbit → c.dbit < 8 →
    ∃ c2, flipN_inner planes offset bps bi l c = .ok c2 ∧
      bps ∣ c2.dbit ∧ c2.dbit < 8 := by
  induction l with
  | nil => exact fun c h1 h2 => ⟨c, rfl, h1, h2⟩
  | cons pi rest ih =>
    intro c h1 h2
    have hle : c.dbit + bps ≤ 8 := by rcases hbps with rfl | rfl | rfl | rfl <;> omega
    by_cases hlt : c.dbit + bps < 8
    · have hstep : sample_store_next8 (flipN_extract planes offset bps bi pi) c bps =
          some ⟨c.out, c.dbit + bps,
                c.dbbyte ||| ((flipN_extract planes offset bps bi pi <<<
                  (8 - (c.dbit + bps))) % 256)⟩ := by
        unfold sample_store_next8
        rw [if_pos hlt]
      obtain ⟨c2, e2, d2, l2⟩ := ih ⟨c.out, c.dbit + bps, _⟩
        (Nat.dvd_add h1 (dvd_refl bps)) hlt
      exact ⟨c2, by rw [flipN_inner, hstep]; exact e2, d2, l2⟩
    · have heq : c.dbit + bps = 8 := by omega
      have hstep : sample_store_next8 (flipN_extract planes offset bps bi pi) c bps =
          some ⟨c.out ++ [(c.dbbyte ||| flipN_extract planes offset bps bi pi) % 256],
                0, 0⟩ := by
        unfold sample_store_next8
        rw [if_neg hlt, if_pos heq]
      obtain ⟨c2, e2, d2, l2⟩ := ih ⟨c.out ++ _, 0, 0⟩ (Dvd.intro 0 rfl)
        (by norm_num)
      exact ⟨c2, by rw [flipN_inner, hstep]; exact e2, d2, l2⟩

theorem flipN_outer_ok (planes : Planes) (offset bps np : Nat)
    (hbps : bps = 1 ∨ bps = 2 ∨ bps = 4 ∨ bps = 8) :
    ∀ (k bi : Nat) (c : BitCursor), bps ∣ c.dbit → c.dbit < 8 →
    ∃ c2, flipN_outer planes offset bps np bi k c = .ok c2 := by
  intro k
  induction k with
  | zero => exact fun bi c _ _ => ⟨c, rfl⟩
  | succ k ih =>
    intro bi c h1 h2
    obtain ⟨c2, e2, d2, l2⟩ :=
      flipN_inner_ok planes offset bps bi hbps (List.range np) c h1 h2
    obtain ⟨c3, e3⟩ := ih (bi + bps) c2 d2 l2
    exact ⟨c3, by rw [flipN_outer, e2]; exact e3⟩

/-- C7: in the generic packer at the dispatched depths {1,2,4,8}, no sample
extraction ever reads past the bit stream implied by `nbytes` (every
in-range, aligned sample fits), and correspondingly the call never fails
with RangeCheck: it always returns 0. -/
theorem C7_generic_packer_no_rangecheck (planes : Planes) (offset : Nat)
    (nbytes : Int) (np bps : Nat)
    (hbps : bps = 1 ∨ bps = 2 ∨ bps = 4 ∨ bps = 8) :
    (∀ bi, bi < 8 * nbytes.toNat → bps ∣ bi →
      bi + bps ≤ 8 * nbytes.toNat) ∧
    (flipNx1to8 planes offset nbytes np bps).1 = 0 := by
  constructor
  · intro bi h1 h2
    rcases hbps with rfl | rfl | rfl | rfl <;> omega
  · unfold flipNx1to8
    obtain ⟨c2, e2⟩ := flipN_outer_ok planes offset bps np hbps
      ((8 * nbytes.toNat + (bps - 1)) / bps) 0 ⟨[], 0, 0⟩
      (Dvd.intro 0 rfl) (by norm_num)
    rw [e2]

/-- Witness for C7 at `bps = 4`, two planes. -/
theorem C7_generic_packer_no_rangecheck_witness :
    (∀ bi, bi < 8 * (3 : Int).toNat → 4 ∣ bi →
      bi + 4 ≤ 8 * (3 : Int).toNat) ∧
    (flipNx1to8 (fun p i => p + i) 0 3 2 4).1 = 0 :=
  C7_generic_packer_no_rangecheck (fun p i => p + i) 0 3 2 4
    (by norm_num)

end GSFlip

namespace GSFlip

/-! ## C2 framework: the generic packer as a runner over sample values -/

/-- Proof-layer view of the generic packer: store a list of already
extracted sample values through the bit cursor. -/
def storeVals (bps : Nat) : List Nat → BitCursor → Except (List Nat) BitCursor
  | [], c => .ok c
  | v :: rest, c =>
    match sample_store_next8 v c bps with
    | none => .error c.out
    | some c2 => storeVals bps rest c2

/-- The samples extracted by `flipNx1to8`, in order: `k` outer iterations
from bit index `bi`, each yielding one sample per plane. -/
def sampleVals (planes : Planes) (offset bps np : Nat) : Nat → Nat → List Nat
  | _, 0 => []
  | bi, k + 1 => (List.range np).map (flipN_extract planes offset bps bi) ++
      sampleVals planes offset bps np (bi + bps) k

theorem flipN_inner_eq_storeVals (planes : Planes) (offset bps bi : Nat) :
    ∀ (l : List Nat) (c : BitCursor),
      flipN_inner planes offset bps bi l c =
        storeVals bps (l.map (flipN_extract planes offset bps bi)) c := by
  intro l
  induction l with
  | nil => intro c; rfl
  | cons pi rest ih =>
    intro c
    simp only [flipN_inner, List.map_cons, storeVals]
    cases h : sample_store_next8 (flipN_extract planes offset bps bi pi) c bps with
    | none => rfl
    | some c2 => exact ih c2

theorem storeVals_append (bps : Nat) (xs ys : List Nat) :
    ∀ c, storeVals bps (xs ++ ys) c =
      match storeVals bps xs c with
      | .error e => .error e
      | .ok c2 => storeVals bps ys c2 := by
  induction xs with
  | nil => intro c; rfl
  | cons v rest ih =>
    intro c
    simp only [List.cons_append, storeVals]
    cases h : sample_store_next8 v c bps with
    | none => rfl
    | some c2 => exact ih c2

theorem flipN_outer_eq_storeVals (planes : Planes) (offset bps np : Nat) :
    ∀ (k bi : Nat) (c : BitCursor),
      flipN_outer planes offset bps np bi k c =
        storeVals bps (sampleVals planes offset bps np bi k) c := by
  intro k
  induction k with
  | zero => intro bi c; rfl
  | succ k ih =>
    intro bi c
    simp only [flipN_outer, sampleVals]
    rw [flipN_inner_eq_storeVals, storeVals_append]
    cases h : storeVals bps
        ((List.range np).map (flipN_extract planes offset bps bi)) c with
    | error e => rfl
    | ok c2 => exact ih (bi + bps) c2

theorem sampleVals_add (planes : Planes) (offset bps np : Nat) :
    ∀ (k1 k2 bi : Nat),
      sampleVals planes offset bps np bi (k1 + k2) =
        sampleVals planes offset bps np bi k1 ++
          sampleVals planes offset bps np (bi + bps * k1) k2 := by
  intro k1
  induction k1 with
  | zero =>
    intro k2 bi
    simp [sampleVals]
  | succ k1 ih =>
    intro k2 bi
    rw [show k1 + 1 + k2 = (k1 + k2) + 1 from by ring]
    simp only [sampleVals]
    rw [ih k2 (bi + bps), List.append_assoc,
        show bi + bps + bps * k1 = bi + bps * (k1 + 1) from by ring]

/-- Running one whole output byte's worth of values through an aligned
cursor: the invariant is that the accumulator holds the partial value `V`
shifted to the top of the byte. -/
theorem storeVals_run (bps : Nat) :
    ∀ (vs : List Nat) (out : List Nat) (dbit V : Nat),
      (∀ v ∈ vs, v < 2 ^ bps) → V < 2 ^ dbit → dbit < 8 →
      dbit + vs.length * bps = 8 →
      storeVals bps vs ⟨out, dbit, V * 2 ^ (8 - dbit)⟩ =
        .ok ⟨out ++ [vs.foldl (fun a v => a * 2 ^ bps + v) V], 0, 0⟩ := by
  intro vs
  induction vs with
  | nil =>
    intro out dbit V hv hV hd8 hlen
    simp at hlen
    omega
  | cons v rest ih =>
    intro out dbit V hv hV hd8 hlen
    simp only [List.length_cons, Nat.add_mul, Nat.one_mul] at hlen
    have hbps : 0 < bps := by
      rcases Nat.eq_zero_or_pos bps with h0 | h0
      · subst h0
        simp at hlen
        omega
      · exact h0
    have hvlt : v < 2 ^ bps := hv v (List.mem_cons_self v rest)
    have hVv : V * 2 ^ bps + v < 2 ^ (dbit + bps) := by
      calc V * 2 ^ bps + v < V * 2 ^ bps + 2 ^ bps := by omega
      _ = (V + 1) * 2 ^ bps := by ring
      _ ≤ 2 ^ dbit * 2 ^ bps := Nat.mul_le_mul_right _ (by omega)
      _ = 2 ^ (dbit + bps) := by rw [← Nat.pow_add]
    by_cases hrest : rest = []
    · subst hrest
      have hbit : dbit + bps = 8 := by simp at hlen; omega
      clear hbps
      have hstep : sample_store_next8 v ⟨out, dbit, V * 2 ^ (8 - dbit)⟩ bps =
          some ⟨out ++ [(V * 2 ^ (8 - dbit) ||| v) % 256], 0, 0⟩ := by
        unfold sample_store_next8
        rw [if_neg (by simp; omega), if_pos (by simp; omega)]
      have hbyte : (V * 2 ^ (8 - dbit) ||| v) % 256 = V * 2 ^ bps + v := by
        rw [show 8 - dbit = bps from by omega,
            two_pow_mul_or_add bps V v hvlt]
        rw [Nat.mod_eq_of_lt]
        rw [show (256 : Nat) = 2 ^ 8 from rfl, ← hbit]
        exact hVv
      simp only [storeVals, hstep, hbyte, List.foldl]
    · have hlen1 : 0 < rest.length := List.length_pos.mpr hrest
      have hmul : 0 < rest.length * bps := Nat.mul_pos hlen1 hbps
      have hbit : dbit + bps < 8 := by omega
      have hstep : sample_store_next8 v ⟨out, dbit, V * 2 ^ (8 - dbit)⟩ bps =
          some ⟨out, dbit + bps,
            V * 2 ^ (8 - dbit) ||| ((v <<< (8 - (dbit + bps))) % 256)⟩ := by
        unfold sample_store_next8
        rw [if_pos (by simp; omega)]
      have hsm : (v <<< (8 - (dbit + bps))) % 256 = v * 2 ^ (8 - dbit - bps) := by
        rw [Nat.shiftLeft_eq, show 8 - (dbit + bps) = 8 - dbit - bps from by omega]
        apply Nat.mod_eq_of_lt
        calc v * 2 ^ (8 - dbit - bps) < 2 ^ bps * 2 ^ (8 - dbit - bps) :=
              (Nat.mul_lt_mul_right (Nat.two_pow_pos _)).mpr hvlt
        _ = 2 ^ (bps + (8 - dbit - bps)) := by rw [← Nat.pow_add]
        _ ≤ 2 ^ 8 := Nat.pow_le_pow_right (by norm_num) (by omega)
        _ = 256 := rfl
      have hacc : V * 2 ^ (8 - dbit) ||| v * 2 ^ (8 - dbit - bps) =
          (V * 2 ^ bps + v) * 2 ^ (8 - (dbit + bps)) := by
        have hw : v * 2 ^ (8 - dbit - bps) < 2 ^ (8 - dbit) := by
          calc v * 2 ^ (8 - dbit - bps) < 2 ^ bps * 2 ^ (8 - dbit - bps) :=
                (Nat.mul_lt_mul_right (Nat.two_pow_pos _)).mpr hvlt
          _ = 2 ^ (bps + (8 - dbit - bps)) := by rw [← Nat.pow_add]
          _ = 2 ^ (8 - dbit) := by congr 1; omega
        rw [two_pow_mul_or_add (8 - dbit) V _ hw]
        have h2 : 8 - dbit - bps = 8 - (dbit + bps) := by omega
        have h1 : 8 - dbit = bps + (8 - (dbit + bps)) := by omega
        rw [h2, h1, Nat.pow_add]
        ring
      have hres := ih out (dbit + bps) (V * 2 ^ bps + v)
        (fun w hw => hv w (List.mem_cons_of_mem v hw)) hVv hbit (by omega)
      simp only [storeVals, hstep, hsm, hacc]
      exact hres

end GSFlip

namespace GSFlip

theorem storeVals_byte (bps : Nat) (vs out : List Nat)
    (hv : ∀ v ∈ vs, v < 2 ^ bps) (hlen : vs.length * bps = 8) :
    storeVals bps vs ⟨out, 0, 0⟩ =
      .ok ⟨out ++ [vs.foldl (fun a v => a * 2 ^ bps + v) 0], 0, 0⟩ := by
  have h := storeVals_run bps vs out 0 0 hv (by norm_num) (by norm_num) (by omega)
  simpa using h

theorem storeVals_byte_step (bps : Nat) (vs ys out : List Nat)
    (hv : ∀ v ∈ vs, v < 2 ^ bps) (hlen : vs.length * bps = 8) :
    storeVals bps (vs ++ ys) ⟨out, 0, 0⟩ =
      storeVals bps ys ⟨out ++ [vs.foldl (fun a v => a * 2 ^ bps + v) 0], 0, 0⟩ := by
  rw [storeVals_append, storeVals_byte bps vs out hv hlen]

theorem flipN_extract_arith (planes : Planes) (offset bps bi pi : Nat) :
    flipN_extract planes offset bps bi pi =
      planes pi (offset + bi / 8) % 256 / 2 ^ (8 - bi % 8 - bps) % 2 ^ bps := by
  unfold flipN_extract
  rw [Nat.shiftRight_eq_div_pow, Nat.one_shiftLeft, Nat.and_pow_two_sub_one_eq_mod]

theorem byteStep4 (v1 v2 : Nat) (ys out : List Nat) (h1 : v1 < 16) (h2 : v2 < 16) :
    storeVals 4 ([v1, v2] ++ ys) ⟨out, 0, 0⟩ =
      storeVals 4 ys ⟨out ++ [v1 * 16 + v2], 0, 0⟩ := by
  rw [storeVals_byte_step 4 [v1, v2] ys out
        (by intro v hv; simp at hv; rcases hv with rfl | rfl <;> omega)
        (by norm_num)]
  have h : List.foldl (fun a v => a * 2 ^ 4 + v) 0 [v1, v2] = v1 * 16 + v2 := by
    simp [List.foldl]
  rw [h]

theorem byteStep2 (v1 v2 v3 v4 : Nat) (ys out : List Nat)
    (h1 : v1 < 4) (h2 : v2 < 4) (h3 : v3 < 4) (h4 : v4 < 4) :
    storeVals 2 ([v1, v2, v3, v4] ++ ys) ⟨out, 0, 0⟩ =
      storeVals 2 ys ⟨out ++ [v1 * 64 + v2 * 16 + v3 * 4 + v4], 0, 0⟩ := by
  rw [storeVals_byte_step 2 [v1, v2, v3, v4] ys out
        (by intro v hv; simp at hv; rcases hv with rfl | rfl | rfl | rfl <;> omega)
        (by norm_num)]
  have h : List.foldl (fun a v => a * 2 ^ 2 + v) 0 [v1, v2, v3, v4] =
      v1 * 64 + v2 * 16 + v3 * 4 + v4 := by
    simp [List.foldl]
    ring
  rw [h]

theorem byteStep1 (v1 v2 v3 v4 v5 v6 v7 v8 : Nat) (ys out : List Nat)
    (h1 : v1 < 2) (h2 : v2 < 2) (h3 : v3 < 2) (h4 : v4 < 2)
    (h5 : v5 < 2) (h6 : v6 < 2) (h7 : v7 < 2) (h8 : v8 < 2) :
    storeVals 1 ([v1, v2, v3, v4, v5, v6, v7, v8] ++ ys) ⟨out, 0, 0⟩ =
      storeVals 1 ys ⟨out ++ [v1 * 128 + v2 * 64 + v3 * 32 + v4 * 16 +
        v5 * 8 + v6 * 4 + v7 * 2 + v8], 0, 0⟩ := by
  rw [storeVals_byte_step 1 [v1, v2, v3, v4, v5, v6, v7, v8] ys out
        (by intro v hv; simp at hv
            rcases hv with rfl | rfl | rfl | rfl | rfl | rfl | rfl | rfl <;> omega)
        (by norm_num)]
  have h : List.foldl (fun a v => a * 2 ^ 1 + v) 0 [v1, v2, v3, v4, v5, v6, v7, v8] =
      v1 * 128 + v2 * 64 + v3 * 32 + v4 * 16 + v5 * 8 + v6 * 4 + v7 * 2 + v8 := by
    simp [List.foldl]
    ring
  rw [h]

end GSFlip

namespace GSFlip

/-! ### C2, combo (3 planes, depth 4) -/

theorem chunk3x4 (planes : Planes) (offset i : Nat) (out : List Nat) :
    storeVals 4 (sampleVals planes offset 4 3 (8 * i) 2) ⟨out, 0, 0⟩ =
      .ok ⟨out ++ [((planes 0 (offset + i) % 256) &&& 0xf0) |||
                     ((planes 1 (offset + i) % 256) >>> 4),
                   ((planes 2 (offset + i) % 256) &&& 0xf0) |||
                     ((planes 0 (offset + i) % 256) &&& 0xf),
                   (((planes 1 (offset + i) % 256) <<< 4) % 256) |||
                     ((planes 2 (offset + i) % 256) &&& 0xf)], 0, 0⟩ := by
  have hd : 8 * i / 8 = i := by omega
  have hd4 : (8 * i + 4) / 8 = i := by omega
  have hm : 8 * i % 8 = 0 := by omega
  have hm4 : (8 * i + 4) % 8 = 4 := by omega
  have h0 : ∀ pi, flipN_extract planes offset 4 (8 * i) pi =
      planes pi (offset + i) % 256 / 16 % 16 := by
    intro pi
    rw [flipN_extract_arith, hd, hm]
    norm_num
  have h1 : ∀ pi, flipN_extract planes offset 4 (8 * i + 4) pi =
      planes pi (offset + i) % 256 % 16 := by
    intro pi
    rw [flipN_extract_arith, hd4, hm4]
    norm_num
  have hexp : sampleVals planes offset 4 3 (8 * i) 2 =
      [flipN_extract planes offset 4 (8 * i) 0,
       flipN_extract planes offset 4 (8 * i) 1,
       flipN_extract planes offset 4 (8 * i) 2] ++
      ([flipN_extract planes offset 4 (8 * i + 4) 0,
        flipN_extract planes offset 4 (8 * i + 4) 1,
        flipN_extract planes offset 4 (8 * i + 4) 2] ++ []) := rfl
  rw [hexp]
  simp only [h0, h1, List.append_nil]
  rw [show ([planes 0 (offset + i) % 256 / 16 % 16,
            planes 1 (offset + i) % 256 / 16 % 16,
            planes 2 (offset + i) % 256 / 16 % 16] ++
           [planes 0 (offset + i) % 256 % 16,
            planes 1 (offset + i) % 256 % 16,
            planes 2 (offset + i) % 256 % 16] : List Nat) =
      [planes 0 (offset + i) % 256 / 16 % 16,
       planes 1 (offset + i) % 256 / 16 % 16] ++
      ([planes 2 (offset + i) % 256 / 16 % 16,
        planes 0 (offset + i) % 256 % 16] ++
       ([planes 1 (offset + i) % 256 % 16,
         planes 2 (offset + i) % 256 % 16] ++ [])) from rfl]
  rw [byteStep4 _ _ _ _ (by omega) (by omega),
      byteStep4 _ _ _ _ (by omega) (by omega),
      byteStep4 _ _ _ _ (by omega) (by omega)]
  have hB0 : planes 0 (offset + i) % 256 < 256 := Nat.mod_lt _ (by norm_num)
  have hB1 : planes 1 (offset + i) % 256 < 256 := Nat.mod_lt _ (by norm_num)
  have hB2 : planes 2 (offset + i) % 256 < 256 := Nat.mod_lt _ (by norm_num)
  have e0 : ((planes 0 (offset + i) % 256) &&& 0xf0) |||
      ((planes 1 (offset + i) % 256) >>> 4) =
      planes 0 (offset + i) % 256 / 16 % 16 * 16 +
        planes 1 (offset + i) % 256 / 16 % 16 := by
    rw [and240_eq _ hB0, shr4_eq, or16_add _ _ (by omega)]
    omega
  have e1 : ((planes 2 (offset + i) % 256) &&& 0xf0) |||
      ((planes 0 (offset + i) % 256) &&& 0xf) =
      planes 2 (offset + i) % 256 / 16 % 16 * 16 +
        planes 0 (offset + i) % 256 % 16 := by
    rw [and240_eq _ hB2, and15_eq _ hB0, or16_add _ _ (by omega)]
    omega
  have e2 : (((planes 1 (offset + i) % 256) <<< 4) % 256) |||
      ((planes 2 (offset + i) % 256) &&& 0xf) =
      planes 1 (offset + i) % 256 % 16 * 16 +
        planes 2 (offset + i) % 256 % 16 := by
    rw [shl4_mod256 _ hB1, and15_eq _ hB2, or16_add _ _ (by omega)]
  rw [e0, e1, e2]
  simp [storeVals]

end GSFlip

namespace GSFlip

theorem storeVals_append_ok (bps : Nat) (xs ys : List Nat) (c c2 : BitCursor)
    (h : storeVals bps xs c = .ok c2) :
    storeVals bps (xs ++ ys) c = storeVals bps ys c2 := by
  rw [storeVals_append, h]

theorem loop3x4 (planes : Planes) (offset : Nat) :
    ∀ (n i : Nat) (out : List Nat),
      storeVals 4 (sampleVals planes offset 4 3 (8 * i) (2 * n)) ⟨out, 0, 0⟩ =
        .ok ⟨out ++ flip3x4_loop (planes 0) (planes 1) (planes 2) (offset + i) n,
             0, 0⟩ := by
  intro n
  induction n with
  | zero => intro i out; simp [sampleVals, storeVals, flip3x4_loop]
  | succ n ih =>
    intro i out
    rw [show 2 * (n + 1) = 2 + 2 * n from by ring, sampleVals_add,
        storeVals_append_ok 4 _ _ _ _ (chunk3x4 planes offset i out),
        show 8 * i + 4 * 2 = 8 * (i + 1) from by ring, ih (i + 1)]
    simp only [flip3x4_loop, List.append_assoc, List.cons_append, List.nil_append,
               show offset + (i + 1) = offset + i + 1 from by ring]

theorem flipNx1to8_eq_flip3x4 (planes : Planes) (offset : Nat) (nbytes : Int) :
    flipNx1to8 planes offset nbytes 3 4 = flip3x4 planes offset nbytes := by
  unfold flipNx1to8
  rw [flipN_outer_eq_storeVals]
  have hcnt : (8 * nbytes.toNat + (4 - 1)) / 4 = 2 * nbytes.toNat := by omega
  rw [hcnt]
  have h := loop3x4 planes offset nbytes.toNat 0 []
  simp only [Nat.mul_zero, Nat.add_zero, List.nil_append] at h
  rw [h]
  simp [flip3x4, sample_store_flush]

theorem flipNx1to8_eq_flip3x8 (planes : Planes) (offset : Nat) (nbytes : Int) :
    flipNx1to8 planes offset nbytes 3 8 = flip3x8 planes offset nbytes := by
  rw [flipNx1to8_depth8]
  unfold flip3x8
  rw [flip3x8_loop_interleave]

theorem flipNx1to8_eq_flip4x8 (planes : Planes) (offset : Nat) (nbytes : Int) :
    flipNx1to8 planes offset nbytes 4 8 = flip4x8 planes offset nbytes := by
  rw [flipNx1to8_depth8]
  unfold flip4x8
  rw [flip4x8_loop_interleave]

end GSFlip

namespace GSFlip

/-! ### C2, combo (4 planes, depth 4) -/

theorem chunk4x4 (planes : Planes) (offset i : Nat) (out : List Nat) :
    storeVals 4 (sampleVals planes offset 4 4 (8 * i) 2) ⟨out, 0, 0⟩ =
      .ok ⟨out ++ [((planes 0 (offset + i) % 256) &&& 0xf0) |||
                     ((planes 1 (offset + i) % 256) >>> 4),
                   ((planes 2 (offset + i) % 256) &&& 0xf0) |||
                     ((planes 3 (offset + i) % 256) >>> 4),
                   (((planes 0 (offset + i) % 256) <<< 4) |||
                     ((planes 1 (offset + i) % 256) &&& 0xf)) % 256,
                   (((planes 2 (offset + i) % 256) <<< 4) |||
                     ((planes 3 (offset + i) % 256) &&& 0xf)) % 256], 0, 0⟩ := by
  have hd : 8 * i / 8 = i := by omega
  have hd4 : (8 * i + 4) / 8 = i := by omega
  have hm : 8 * i % 8 = 0 := by omega
  have hm4 : (8 * i + 4) % 8 = 4 := by omega
  have h0 : ∀ pi, flipN_extract planes offset 4 (8 * i) pi =
      planes pi (offset + i) % 256 / 16 % 16 := by
    intro pi
    rw [flipN_extract_arith, hd, hm]
    norm_num
  have h1 : ∀ pi, flipN_extract planes offset 4 (8 * i + 4) pi =
      planes pi (offset + i) % 256 % 16 := by
    intro pi
    rw [flipN_extract_arith, hd4, hm4]
    norm_num
  have hexp : sampleVals planes offset 4 4 (8 * i) 2 =
      [flipN_extract planes offset 4 (8 * i) 0,
       flipN_extract planes offset 4 (8 * i) 1,
       flipN_extract planes offset 4 (8 * i) 2,
       flipN_extract planes offset 4 (8 * i) 3] ++
      ([flipN_extract planes offset 4 (8 * i + 4) 0,
        flipN_extract planes offset 4 (8 * i + 4) 1,
        flipN_extract planes offset 4 (8 * i + 4) 2,
        flipN_extract planes offset 4 (8 * i + 4) 3] ++ []) := rfl
  rw [hexp]
  simp only [h0, h1, List.append_nil]
  rw [show ([planes 0 (offset + i) % 256 / 16 % 16,
            planes 1 (offset + i) % 256 / 16 % 16,
            planes 2 (offset + i) % 256 / 16 % 16,
            planes 3 (offset + i) % 256 / 16 % 16] ++
           [planes 0 (offset + i) % 256 % 16,
            planes 1 (offset + i) % 256 % 16,
            planes 2 (offset + i) % 256 % 16,
            planes 3 (offset + i) % 256 % 16] : List Nat) =
      [planes 0 (offset + i) % 256 / 16 % 16,
       planes 1 (offset + i) % 256 / 16 % 16] ++
      ([planes 2 (offset + i) % 256 / 16 % 16,
        planes 3 (offset + i) % 256 / 16 % 16] ++
       ([planes 0 (offset + i) % 256 % 16,
         planes 1 (offset + i) % 256 % 16] ++
        ([planes 2 (offset + i) % 256 % 16,
          planes 3 (offset + i) % 256 % 16] ++ []))) from rfl]
  rw [byteStep4 _ _ _ _ (by omega) (by omega),
      byteStep4 _ _ _ _ (by omega) (by omega),
      byteStep4 _ _ _ _ (by omega) (by omega),
      byteStep4 _ _ _ _ (by omega) (by omega)]
  have hB0 : planes 0 (offset + i) % 256 < 256 := Nat.mod_lt _ (by norm_num)
  have hB1 : planes 1 (offset + i) % 256 < 256 := Nat.mod_lt _ (by norm_num)
  have hB2 : planes 2 (offset + i) % 256 < 256 := Nat.mod_lt _ (by norm_num)
  have hB3 : planes 3 (offset + i) % 256 < 256 := Nat.mod_lt _ (by norm_num)
  have e0 : ((planes 0 (offset + i) % 256) &&& 0xf0) |||
      ((planes 1 (offset + i) % 256) >>> 4) =
      planes 0 (offset + i) % 256 / 16 % 16 * 16 +
        planes 1 (offset + i) % 256 / 16 % 16 := by
    rw [and240_eq _ hB0, shr4_eq, or16_add _ _ (by omega)]
    omega
  have e1 : ((planes 2 (offset + i) % 256) &&& 0xf0) |||
      ((planes 3 (offset + i) % 256) >>> 4) =
      planes 2 (offset + i) % 256 / 16 % 16 * 16 +
        planes 3 (offset + i) % 256 / 16 % 16 := by
    rw [and240_eq _ hB2, shr4_eq, or16_add _ _ (by omega)]
    omega
  have e2 : (((planes 0 (offset + i) % 256) <<< 4) |||
      ((planes 1 (offset + i) % 256) &&& 0xf)) % 256 =
      planes 0 (offset + i) % 256 % 16 * 16 +
        planes 1 (offset + i) % 256 % 16 := by
    rw [or_mod256, shl4_mod256 _ hB0, and15_eq _ hB1,
        Nat.mod_eq_of_lt (by omega : planes 1 (offset + i) % 256 % 16 < 256),
        or16_add _ _ (by omega)]
  have e3 : (((planes 2 (offset + i) % 256) <<< 4) |||
      ((planes 3 (offset + i) % 256) &&& 0xf)) % 256 =
      planes 2 (offset + i) % 256 % 16 * 16 +
        planes 3 (offset + i) % 256 % 16 := by
    rw [or_mod256, shl4_mod256 _ hB2, and15_eq _ hB3,
        Nat.mod_eq_of_lt (by omega : planes 3 (offset + i) % 256 % 16 < 256),
        or16_add _ _ (by omega)]
  rw [e0, e1, e2, e3]
  simp [storeVals]

theorem loop4x4 (planes : Planes) (offset : Nat) :
    ∀ (n i : Nat) (out : List Nat),
      storeVals 4 (sampleVals planes offset 4 4 (8 * i) (2 * n)) ⟨out, 0, 0⟩ =
        .ok ⟨out ++ flip4x4_loop (planes 0) (planes 1) (planes 2) (planes 3)
              (offset + i) n, 0, 0⟩ := by
  intro n
  induction n with
  | zero => intro i out; simp [sampleVals, storeVals, flip4x4_loop]
  | succ n ih =>
    intro i out
    rw [show 2 * (n + 1) = 2 + 2 * n from by ring, sampleVals_add,
        storeVals_append_ok 4 _ _ _ _ (chunk4x4 planes offset i out),
        show 8 * i + 4 * 2 = 8 * (i + 1) from by ring, ih (i + 1)]
    simp only [flip4x4_loop, List.append_assoc, List.cons_append, List.nil_append,
               show offset + (i + 1) = offset + i + 1 from by ring]

theorem flipNx1to8_eq_flip4x4 (planes : Planes) (offset : Nat) (nbytes : Int) :
    flipNx1to8 planes offset nbytes 4 4 = flip4x4 planes offset nbytes := by
  unfold flipNx1to8
  rw [flipN_outer_eq_storeVals]
  have hcnt : (8 * nbytes.toNat + (4 - 1)) / 4 = 2 * nbytes.toNat := by omega
  rw [hcnt]
  have h := loop4x4 planes offset nbytes.toNat 0 []
  simp only [Nat.mul_zero, Nat.add_zero, List.nil_append] at h
  rw [h]
  simp [flip4x4, sample_store_flush]

/-! ### Disjoint-mask sums for the depth-1 and depth-2 table routines -/

theorem and_disjoint_masks (x y mx my : Nat) (hx : x &&& mx = x)
    (hy : y &&& my = y) (hm : mx &&& my = 0) : x &&& y = 0 := by
  apply Nat.eq_of_testBit_eq
  intro i
  have hxi := congrArg (fun t => t.testBit i) hx
  have hyi := congrArg (fun t => t.testBit i) hy
  have hmi := congrArg (fun t => t.testBit i) hm
  simp only [Nat.testBit_and, Nat.zero_testBit] at hxi hyi hmi ⊢
  cases hb : mx.testBit i with
  | false =>
    rw [hb] at hxi
    simp at hxi
    simp [hxi]
  | true =>
    cases hb2 : my.testBit i with
    | false =>
      rw [hb2] at hyi
      simp at hyi
      simp [hyi]
    | true => rw [hb, hb2] at hmi; simp at hmi

theorem or_subset_mask (x y mx my : Nat) (hx : x &&& mx = x) (hy : y &&& my = y) :
    (x ||| y) &&& (mx ||| my) = x ||| y := by
  apply Nat.eq_of_testBit_eq
  intro i
  have hxi := congrArg (fun t => t.testBit i) hx
  have hyi := congrArg (fun t => t.testBit i) hy
  simp only [Nat.testBit_and, Nat.testBit_or] at hxi hyi ⊢
  cases hx1 : x.testBit i <;> cases hy1 : y.testBit i <;>
    simp_all <;> cases hxi <;> cases hyi <;> simp_all

theorem or3_add (x y z mx my mz : Nat) (hx : x &&& mx = x) (hy : y &&& my = y)
    (hz : z &&& mz = z) (hxy : mx &&& my = 0) (hxz : mx &&& mz = 0)
    (hyz : my &&& mz = 0) : x ||| y ||| z = x + y + z := by
  have hxy0 : x &&& y = 0 := and_disjoint_masks x y mx my hx hy hxy
  have hor : (x ||| y) &&& (mx ||| my) = x ||| y := or_subset_mask x y mx my hx hy
  have hmz : (mx ||| my) &&& mz = 0 := by
    rw [Nat.and_distrib_right, hxz, hyz]
    simp
  have hz0 : (x ||| y) &&& z = 0 :=
    and_disjoint_masks _ _ (mx ||| my) mz hor hz hmz
  rw [or_eq_add_of_and _ _ hz0, or_eq_add_of_and _ _ hxy0]

theorem or4_add (w x y z mw mx my mz : Nat) (hw : w &&& mw = w)
    (hx : x &&& mx = x) (hy : y &&& my = y) (hz : z &&& mz = z)
    (hwx : mw &&& mx = 0) (hwy : mw &&& my = 0) (hwz : mw &&& mz = 0)
    (hxy : mx &&& my = 0) (hxz : mx &&& mz = 0) (hyz : my &&& mz = 0) :
    w ||| x ||| y ||| z = w + x + y + z := by
  have h3 : w ||| x ||| y = w + x + y := or3_add w x y mw mx my hw hx hy hwx hwy hxy
  have hor : (w ||| x) &&& (mw ||| mx) = w ||| x := or_subset_mask w x mw mx hw hx
  have hor3 : (w ||| x ||| y) &&& (mw ||| mx ||| my) = w ||| x ||| y :=
    or_subset_mask _ y (mw ||| mx) my hor hy
  have hmz : (mw ||| mx ||| my) &&& mz = 0 := by
    rw [Nat.and_distrib_right, Nat.and_distrib_right, hwz, hxz, hyz]
    simp
  have hz0 : (w ||| x ||| y) &&& z = 0 :=
    and_disjoint_masks _ _ (mw ||| mx ||| my) mz hor3 hz hmz
  rw [or_eq_add_of_and _ _ hz0, h3]

end GSFlip

namespace GSFlip

/-! ### C2, combo (3 planes, depth 2) -/

theorem tab3x2_facts : ∀ b < 256,
    (tab3x2 b >>> 16) % 256 = b / 64 % 4 * 64 + b / 16 % 4 ∧
    (tab3x2 b >>> 16) % 256 &&& 0xC3 = (tab3x2 b >>> 16) % 256 ∧
    (tab3x2 b >>> 18) % 256 = b / 64 % 4 * 16 ∧
    (tab3x2 b >>> 18) % 256 &&& 0x30 = (tab3x2 b >>> 18) % 256 ∧
    (tab3x2 b >>> 20) % 256 = b / 64 % 4 * 4 ∧
    (tab3x2 b >>> 20) % 256 &&& 0x0C = (tab3x2 b >>> 20) % 256 ∧
    (tab3x2 b >>> 8) % 256 = b / 4 % 4 * 4 ∧
    (tab3x2 b >>> 8) % 256 &&& 0x0C = (tab3x2 b >>> 8) % 256 ∧
    (tab3x2 b >>> 10) % 256 = b / 16 % 4 * 64 + b / 4 % 4 ∧
    (tab3x2 b >>> 10) % 256 &&& 0xC3 = (tab3x2 b >>> 10) % 256 ∧
    (tab3x2 b >>> 12) % 256 = b / 16 % 4 * 16 ∧
    (tab3x2 b >>> 12) % 256 &&& 0x30 = (tab3x2 b >>> 12) % 256 ∧
    tab3x2 b % 256 = b % 4 * 16 ∧
    tab3x2 b % 256 &&& 0x30 = tab3x2 b % 256 ∧
    (tab3x2 b >>> 2) % 256 = b % 4 * 4 ∧
    (tab3x2 b >>> 2) % 256 &&& 0x0C = (tab3x2 b >>> 2) % 256 ∧
    (tab3x2 b >>> 4) % 256 = b / 4 % 4 * 64 + b % 4 ∧
    (tab3x2 b >>> 4) % 256 &&& 0xC3 = (tab3x2 b >>> 4) % 256 := by decide

theorem chunk3x2 (planes : Planes) (offset i : Nat) (out : List Nat) :
    storeVals 2 (sampleVals planes offset 2 3 (8 * i) 4) ⟨out, 0, 0⟩ =
      .ok ⟨out ++ [((tab3x2 (planes 0 (offset + i) % 256) |||
                     (tab3x2 (planes 1 (offset + i) % 256) >>> 2) |||
                     (tab3x2 (planes 2 (offset + i) % 256) >>> 4)) >>> 16) % 256,
                   ((tab3x2 (planes 0 (offset + i) % 256) |||
                     (tab3x2 (planes 1 (offset + i) % 256) >>> 2) |||
                     (tab3x2 (planes 2 (offset + i) % 256) >>> 4)) >>> 8) % 256,
                   (tab3x2 (planes 0 (offset + i) % 256) |||
                     (tab3x2 (planes 1 (offset + i) % 256) >>> 2) |||
                     (tab3x2 (planes 2 (offset + i) % 256) >>> 4)) % 256],
           0, 0⟩ := by
  have ha0 : (8 * i) / 8 = i := by omega
  have ha1 : (8 * i + 2) / 8 = i := by omega
  have ha2 : (8 * i + 2 + 2) / 8 = i := by omega
  have ha3 : (8 * i + 2 + 2 + 2) / 8 = i := by omega
  have hm0 : (8 * i) % 8 = 0 := by omega
  have hm1 : (8 * i + 2) % 8 = 2 := by omega
  have hm2 : (8 * i + 2 + 2) % 8 = 4 := by omega
  have hm3 : (8 * i + 2 + 2 + 2) % 8 = 6 := by omega
  have h0 : ∀ pi, flipN_extract planes offset 2 (8 * i) pi =
      planes pi (offset + i) % 256 / 64 % 4 := by
    intro pi
    rw [flipN_extract_arith, ha0, hm0]
    norm_num
  have h1 : ∀ pi, flipN_extract planes offset 2 (8 * i + 2) pi =
      planes pi (offset + i) % 256 / 16 % 4 := by
    intro pi
    rw [flipN_extract_arith, ha1, hm1]
    norm_num
  have h2 : ∀ pi, flipN_extract planes offset 2 (8 * i + 2 + 2) pi =
      planes pi (offset + i) % 256 / 4 % 4 := by
    intro pi
    rw [flipN_extract_arith, ha2, hm2]
    norm_num
  have h3 : ∀ pi, flipN_extract planes offset 2 (8 * i + 2 + 2 + 2) pi =
      planes pi (offset + i) % 256 % 4 := by
    intro pi
    rw [flipN_extract_arith, ha3, hm3]
    norm_num
  have hexp : sampleVals planes offset 2 3 (8 * i) 4 =
      [flipN_extract planes offset 2 (8 * i) 0,
       flipN_extract planes offset 2 (8 * i) 1,
       flipN_extract planes offset 2 (8 * i) 2,
       flipN_extract planes offset 2 (8 * i + 2) 0,
       flipN_extract planes offset 2 (8 * i + 2) 1,
       flipN_extract planes offset 2 (8 * i + 2) 2,
       flipN_extract planes offset 2 (8 * i + 2 + 2) 0,
       flipN_extract planes offset 2 (8 * i + 2 + 2) 1,
       flipN_extract planes offset 2 (8 * i + 2 + 2) 2,
       flipN_extract planes offset 2 (8 * i + 2 + 2 + 2) 0,
       flipN_extract planes offset 2 (8 * i + 2 + 2 + 2) 1,
       flipN_extract planes offset 2 (8 * i + 2 + 2 + 2) 2] := by
    simp [sampleVals, List.range_succ]
  rw [hexp]
  simp only [h0, h1, h2, h3]
  rw [show ([planes 0 (offset + i) % 256 / 64 % 4,
            planes 1 (offset + i) % 256 / 64 % 4,
            planes 2 (offset + i) % 256 / 64 % 4,
            planes 0 (offset + i) % 256 / 16 % 4,
            planes 1 (offset + i) % 256 / 16 % 4,
            planes 2 (offset + i) % 256 / 16 % 4,
            planes 0 (offset + i) % 256 / 4 % 4,
            planes 1 (offset + i) % 256 / 4 % 4,
            planes 2 (offset + i) % 256 / 4 % 4,
            planes 0 (offset + i) % 256 % 4,
            planes 1 (offset + i) % 256 % 4,
            planes 2 (offset + i) % 256 % 4] : List Nat) =
      [planes 0 (offset + i) % 256 / 64 % 4,
       planes 1 (offset + i) % 256 / 64 % 4,
       planes 2 (offset + i) % 256 / 64 % 4,
       planes 0 (offset + i) % 256 / 16 % 4] ++
      ([planes 1 (offset + i) % 256 / 16 % 4,
        planes 2 (offset + i) % 256 / 16 % 4,
        planes 0 (offset + i) % 256 / 4 % 4,
        planes 1 (offset + i) % 256 / 4 % 4] ++
       ([planes 2 (offset + i) % 256 / 4 % 4,
         planes 0 (offset + i) % 256 % 4,
         planes 1 (offset + i) % 256 % 4,
         planes 2 (offset + i) % 256 % 4] ++ [])) from rfl]
  rw [byteStep2 _ _ _ _ _ _ (by omega) (by omega) (by omega) (by omega),
      byteStep2 _ _ _ _ _ _ (by omega) (by omega) (by omega) (by omega),
      byteStep2 _ _ _ _ _ _ (by omega) (by omega) (by omega) (by omega)]
  have hB0 : planes 0 (offset + i) % 256 < 256 := Nat.mod_lt _ (by norm_num)
  have hB1 : planes 1 (offset + i) % 256 < 256 := Nat.mod_lt _ (by norm_num)
  have hB2 : planes 2 (offset + i) % 256 < 256 := Nat.mod_lt _ (by norm_num)
  obtain ⟨a1, a2, a3, a4, a5, a6, a7, a8, a9, a10, a11, a12, a13, a14, a15, a16,
          a17, a18⟩ := tab3x2_facts _ hB0
  obtain ⟨b1, b2, b3, b4, b5, b6, b7, b8, b9, b10, b11, b12, b13, b14, b15, b16,
          b17, b18⟩ := tab3x2_facts _ hB1
  obtain ⟨c1, c2, c3, c4, c5, c6, c7, c8, c9, c10, c11, c12, c13, c14, c15, c16,
          c17, c18⟩ := tab3x2_facts _ hB2
  have e0 : ((tab3x2 (planes 0 (offset + i) % 256) |||
      (tab3x2 (planes 1 (offset + i) % 256) >>> 2) |||
      (tab3x2 (planes 2 (offset + i) % 256) >>> 4)) >>> 16) % 256 =
      planes 0 (offset + i) % 256 / 64 % 4 * 64 +
      planes 1 (offset + i) % 256 / 64 % 4 * 16 +
      planes 2 (offset + i) % 256 / 64 % 4 * 4 +
      planes 0 (offset + i) % 256 / 16 % 4 := by
    rw [or_shiftRight, or_shiftRight, ← Nat.shiftRight_add, ← Nat.shiftRight_add]
    norm_num
    rw [or_mod256, or_mod256,
        or3_add _ _ _ 0xC3 0x30 0x0C a2 b4 c6 (by decide) (by decide) (by decide),
        a1, b3, c5]
    ring
  have e1 : ((tab3x2 (planes 0 (offset + i) % 256) |||
      (tab3x2 (planes 1 (offset + i) % 256) >>> 2) |||
      (tab3x2 (planes 2 (offset + i) % 256) >>> 4)) >>> 8) % 256 =
      planes 1 (offset + i) % 256 / 16 % 4 * 64 +
      planes 2 (offset + i) % 256 / 16 % 4 * 16 +
      planes 0 (offset + i) % 256 / 4 % 4 * 4 +
      planes 1 (offset + i) % 256 / 4 % 4 := by
    rw [or_shiftRight, or_shiftRight, ← Nat.shiftRight_add, ← Nat.shiftRight_add]
    norm_num
    rw [or_mod256, or_mod256,
        or3_add _ _ _ 0x0C 0xC3 0x30 a8 b10 c12 (by decide) (by decide) (by decide),
        a7, b9, c11]
    ring
  have e2 : (tab3x2 (planes 0 (offset + i) % 256) |||
      (tab3x2 (planes 1 (offset + i) % 256) >>> 2) |||
      (tab3x2 (planes 2 (offset + i) % 256) >>> 4)) % 256 =
      planes 2 (offset + i) % 256 / 4 % 4 * 64 +
      planes 0 (offset + i) % 256 % 4 * 16 +
      planes 1 (offset + i) % 256 % 4 * 4 +
      planes 2 (offset + i) % 256 % 4 := by
    rw [or_mod256, or_mod256,
        or3_add _ _ _ 0x30 0x0C 0xC3 a14 b16 c18 (by decide) (by decide) (by decide),
        a13, b15, c17]
    ring
  rw [e0, e1, e2]
  simp [storeVals]

theorem loop3x2 (planes : Planes) (offset : Nat) :
    ∀ (n i : Nat) (out : List Nat),
      storeVals 2 (sampleVals planes offset 2 3 (8 * i) (4 * n)) ⟨out, 0, 0⟩ =
        .ok ⟨out ++ flip3x2_loop (planes 0) (planes 1) (planes 2) (offset + i) n,
             0, 0⟩ := by
  intro n
  induction n with
  | zero => intro i out; simp [sampleVals, storeVals, flip3x2_loop]
  | succ n ih =>
    intro i out
    rw [show 4 * (n + 1) = 4 + 4 * n from by ring, sampleVals_add,
        storeVals_append_ok 2 _ _ _ _ (chunk3x2 planes offset i out),
        show 8 * i + 2 * 4 = 8 * (i + 1) from by ring, ih (i + 1)]
    simp only [flip3x2_loop, List.append_assoc, List.cons_append, List.nil_append,
               show offset + (i + 1) = offset + i + 1 from by ring]

theorem flipNx1to8_eq_flip3x2 (planes : Planes) (offset : Nat) (nbytes : Int) :
    flipNx1to8 planes offset nbytes 3 2 = flip3x2 planes offset nbytes := by
  unfold flipNx1to8
  rw [flipN_outer_eq_storeVals]
  have hcnt : (8 * nbytes.toNat + (2 - 1)) / 2 = 4 * nbytes.toNat := by omega
  rw [hcnt]
  have h := loop3x2 planes offset nbytes.toNat 0 []
  simp only [Nat.mul_zero, Nat.add_zero, List.nil_append] at h
  rw [h]
  simp [flip3x2, sample_store_flush]

end GSFlip


namespace GSFlip

/-! ### C2, combo (3 planes, depth 1) -/

theorem tab3x1_facts : ∀ b < 256,
    (tab3x1 b >>> 16) % 256 = b / 128 % 2 * 128 + b / 64 % 2 * 16 + b / 32 % 2 * 2 ∧
    (tab3x1 b >>> 16) % 256 &&& 0x92 = (tab3x1 b >>> 16) % 256 ∧
    (tab3x1 b >>> 17) % 256 = b / 128 % 2 * 64 + b / 64 % 2 * 8 + b / 32 % 2 ∧
    (tab3x1 b >>> 17) % 256 &&& 0x49 = (tab3x1 b >>> 17) % 256 ∧
    (tab3x1 b >>> 18) % 256 = b / 128 % 2 * 32 + b / 64 % 2 * 4 ∧
    (tab3x1 b >>> 18) % 256 &&& 0x24 = (tab3x1 b >>> 18) % 256 ∧
    (tab3x1 b >>> 8) % 256 = b / 16 % 2 * 64 + b / 8 % 2 * 8 + b / 4 % 2 ∧
    (tab3x1 b >>> 8) % 256 &&& 0x49 = (tab3x1 b >>> 8) % 256 ∧
    (tab3x1 b >>> 9) % 256 = b / 16 % 2 * 32 + b / 8 % 2 * 4 ∧
    (tab3x1 b >>> 9) % 256 &&& 0x24 = (tab3x1 b >>> 9) % 256 ∧
    (tab3x1 b >>> 10) % 256 = b / 32 % 2 * 128 + b / 16 % 2 * 16 + b / 8 % 2 * 2 ∧
    (tab3x1 b >>> 10) % 256 &&& 0x92 = (tab3x1 b >>> 10) % 256 ∧
    tab3x1 b % 256 = b / 2 % 2 * 32 + b % 2 * 4 ∧
    tab3x1 b % 256 &&& 0x24 = tab3x1 b % 256 ∧
    (tab3x1 b >>> 1) % 256 = b / 4 % 2 * 128 + b / 2 % 2 * 16 + b % 2 * 2 ∧
    (tab3x1 b >>> 1) % 256 &&& 0x92 = (tab3x1 b >>> 1) % 256 ∧
    (tab3x1 b >>> 2) % 256 = b / 4 % 2 * 64 + b / 2 % 2 * 8 + b % 2 ∧
    (tab3x1 b >>> 2) % 256 &&& 0x49 = (tab3x1 b >>> 2) % 256 := by decide

theorem chunk3x1 (planes : Planes) (offset i : Nat) (out : List Nat) :
    storeVals 1 (sampleVals planes offset 1 3 (8 * i) 8) ⟨out, 0, 0⟩ =
      .ok ⟨out ++ [((tab3x1 (planes 0 (offset + i) % 256) |||
                     (tab3x1 (planes 1 (offset + i) % 256) >>> 1) |||
                     (tab3x1 (planes 2 (offset + i) % 256) >>> 2)) >>> 16) % 256,
                   ((tab3x1 (planes 0 (offset + i) % 256) |||
                     (tab3x1 (planes 1 (offset + i) % 256) >>> 1) |||
                     (tab3x1 (planes 2 (offset + i) % 256) >>> 2)) >>> 8) % 256,
                   (tab3x1 (planes 0 (offset + i) % 256) |||
                     (tab3x1 (planes 1 (offset + i) % 256) >>> 1) |||
                     (tab3x1 (planes 2 (offset + i) % 256) >>> 2)) % 256],
           0, 0⟩ := by
  have g1 : ∀ pi, flipN_extract planes offset 1 (8 * i) pi =
      planes pi (offset + i) % 256 / 128 % 2 := by
    intro pi
    rw [flipN_extract_arith, show 8 * i / 8 = i from by omega,
        show 8 * i % 8 = 0 from by omega]
    norm_num
  have g2 : ∀ pi, flipN_extract planes offset 1 (8 * i + 1) pi =
      planes pi (offset + i) % 256 / 64 % 2 := by
    intro pi
    rw [flipN_extract_arith, show (8 * i + 1) / 8 = i from by omega,
        show (8 * i + 1) % 8 = 1 from by omega]
    norm_num
  have g3 : ∀ pi, flipN_extract planes offset 1 (8 * i + 1 + 1) pi =
      planes pi (offset + i) % 256 / 32 % 2 := by
    intro pi
    rw [flipN_extract_arith, show (8 * i + 1 + 1) / 8 = i from by omega,
        show (8 * i + 1 + 1) % 8 = 2 from by omega]
    norm_num
  have g4 : ∀ pi, flipN_extract planes offset 1 (8 * i + 1 + 1 + 1) pi =
      planes pi (offset + i) % 256 / 16 % 2 := by
    intro pi
    rw [flipN_extract_arith, show (8 * i + 1 + 1 + 1) / 8 = i from by omega,
        show (8 * i + 1 + 1 + 1) % 8 = 3 from by omega]
    norm_num
  have g5 : ∀ pi, flipN_extract planes offset 1 (8 * i + 1 + 1 + 1 + 1) pi =
      planes pi (offset + i) % 256 / 8 % 2 := by
    intro pi
    rw [flipN_extract_arith, show (8 * i + 1 + 1 + 1 + 1) / 8 = i from by omega,
        show (8 * i + 1 + 1 + 1 + 1) % 8 = 4 from by omega]
    norm_num
  have g6 : ∀ pi, flipN_extract planes offset 1 (8 * i + 1 + 1 + 1 + 1 + 1) pi =
      planes pi (offset + i) % 256 / 4 % 2 := by
    intro pi
    rw [flipN_extract_arith,
        show (8 * i + 1 + 1 + 1 + 1 + 1) / 8 = i from by omega,
        show (8 * i + 1 + 1 + 1 + 1 + 1) % 8 = 5 from by omega]
    norm_num
  have g7 : ∀ pi, flipN_extract planes offset 1 (8 * i + 1 + 1 + 1 + 1 + 1 + 1) pi =
      planes pi (offset + i) % 256 / 2 % 2 := by
    intro pi
    rw [flipN_extract_arith,
        show (8 * i + 1 + 1 + 1 + 1 + 1 + 1) / 8 = i from by omega,
        show (8 * i + 1 + 1 + 1 + 1 + 1 + 1) % 8 = 6 from by omega]
    norm_num
  have g8 : ∀ pi,
      flipN_extract planes offset 1 (8 * i + 1 + 1 + 1 + 1 + 1 + 1 + 1) pi =
      planes pi (offset + i) % 256 % 2 := by
    intro pi
    rw [flipN_extract_arith,
        show (8 * i + 1 + 1 + 1 + 1 + 1 + 1 + 1) / 8 = i from by omega,
        show (8 * i + 1 + 1 + 1 + 1 + 1 + 1 + 1) % 8 = 7 from by omega]
    norm_num
  have hexp : sampleVals planes offset 1 3 (8 * i) 8 =
      [flipN_extract planes offset 1 (8 * i) 0,
       flipN_extract planes offset 1 (8 * i) 1,
       flipN_extract planes offset 1 (8 * i) 2,
       flipN_extract planes offset 1 (8 * i + 1) 0,
       flipN_extract planes offset 1 (8 * i + 1) 1,
       flipN_extract planes offset 1 (8 * i + 1) 2,
       flipN_extract planes offset 1 (8 * i + 1 + 1) 0,
       flipN_extract planes offset 1 (8 * i + 1 + 1) 1,
       flipN_extract planes offset 1 (8 * i + 1 + 1) 2,
       flipN_extract planes offset 1 (8 * i + 1 + 1 + 1) 0,
       flipN_extract planes offset 1 (8 * i + 1 + 1 + 1) 1,
       flipN_extract planes offset 1 (8 * i + 1 + 1 + 1) 2,
       flipN_extract planes offset 1 (8 * i + 1 + 1 + 1 + 1) 0,
       flipN_extract planes offset 1 (8 * i + 1 + 1 + 1 + 1) 1,
       flipN_extract planes offset 1 (8 * i + 1 + 1 + 1 + 1) 2,
       flipN_extract planes offset 1 (8 * i + 1 + 1 + 1 + 1 + 1) 0,
       flipN_extract planes offset 1 (8 * i + 1 + 1 + 1 + 1 + 1) 1,
       flipN_extract planes offset 1 (8 * i + 1 + 1 + 1 + 1 + 1) 2,
       flipN_extract planes offset 1 (8 * i + 1 + 1 + 1 + 1 + 1 + 1) 0,
       flipN_extract planes offset 1 (8 * i + 1 + 1 + 1 + 1 + 1 + 1) 1,
       flipN_extract planes offset 1 (8 * i + 1 + 1 + 1 + 1 + 1 + 1) 2,
       flipN_extract planes offset 1 (8 * i + 1 + 1 + 1 + 1 + 1 + 1 + 1) 0,
       flipN_extract planes offset 1 (8 * i + 1 + 1 + 1 + 1 + 1 + 1 + 1) 1,
       flipN_extract planes offset 1 (8 * i + 1 + 1 + 1 + 1 + 1 + 1 + 1) 2] := rfl
  rw [hexp]
  simp only [g1, g2, g3, g4, g5, g6, g7, g8]
  rw [show ([planes 0 (offset + i) % 256 / 128 % 2,
            planes 1 (offset + i) % 256 / 128 % 2,
            planes 2 (offset + i) % 256 / 128 % 2,
            planes 0 (offset + i) % 256 / 64 % 2,
            planes 1 (offset + i) % 256 / 64 % 2,
            planes 2 (offset + i) % 256 / 64 % 2,
            planes 0 (offset + i) % 256 / 32 % 2,
            planes 1 (offset + i) % 256 / 32 % 2,
            planes 2 (offset + i) % 256 / 32 % 2,
            planes 0 (offset + i) % 256 / 16 % 2,
            planes 1 (offset + i) % 256 / 16 % 2,
            planes 2 (offset + i) % 256 / 16 % 2,
            planes 0 (offset + i) % 256 / 8 % 2,
            planes 1 (offset + i) % 256 / 8 % 2,
            planes 2 (offset + i) % 256 / 8 % 2,
            planes 0 (offset + i) % 256 / 4 % 2,
            planes 1 (offset + i) % 256 / 4 % 2,
            planes 2 (offset + i) % 256 / 4 % 2,
            planes 0 (offset + i) % 256 / 2 % 2,
            planes 1 (offset + i) % 256 / 2 % 2,
            planes 2 (offset + i) % 256 / 2 % 2,
            planes 0 (offset + i) % 256 % 2,
            planes 1 (offset + i) % 256 % 2,
            planes 2 (offset + i) % 256 % 2] : List Nat) =
      [planes 0 (offset + i) % 256 / 128 % 2,
       planes 1 (offset + i) % 256 / 128 % 2,
       planes 2 (offset + i) % 256 / 128 % 2,
       planes 0 (offset + i) % 256 / 64 % 2,
       planes 1 (offset + i) % 256 / 64 % 2,
       planes 2 (offset + i) % 256 / 64 % 2,
       planes 0 (offset + i) % 256 / 32 % 2,
       planes 1 (offset + i) % 256 / 32 % 2] ++
      ([planes 2 (offset + i) % 256 / 32 % 2,
        planes 0 (offset + i) % 256 / 16 % 2,
        planes 1 (offset + i) % 256 / 16 % 2,
        planes 2 (offset + i) % 256 / 16 % 2,
        planes 0 (offset + i) % 256 / 8 % 2,
        planes 1 (offset + i) % 256 / 8 % 2,
        planes 2 (offset + i) % 256 / 8 % 2,
        planes 0 (offset + i) % 256 / 4 % 2] ++
       ([planes 1 (offset + i) % 256 / 4 % 2,
         planes 2 (offset + i) % 256 / 4 % 2,
         planes 0 (offset + i) % 256 / 2 % 2,
         planes 1 (offset + i) % 256 / 2 % 2,
         planes 2 (offset + i) % 256 / 2 % 2,
         planes 0 (offset + i) % 256 % 2,
         planes 1 (offset + i) % 256 % 2,
         planes 2 (offset + i) % 256 % 2] ++ [])) from rfl]
  rw [byteStep1 _ _ _ _ _ _ _ _ _ _ (by omega) (by omega) (by omega) (by omega)
        (by omega) (by omega) (by omega) (by omega),
      byteStep1 _ _ _ _ _ _ _ _ _ _ (by omega) (by omega) (by omega) (by omega)
        (by omega) (by omega) (by omega) (by omega),
      byteStep1 _ _ _ _ _ _ _ _ _ _ (by omega) (by omega) (by omega) (by omega)
        (by omega) (by omega) (by omega) (by omega)]
  have hB0 : planes 0 (offset + i) % 256 < 256 := Nat.mod_lt _ (by norm_num)
  have hB1 : planes 1 (offset + i) % 256 < 256 := Nat.mod_lt _ (by norm_num)
  have hB2 : planes 2 (offset + i) % 256 < 256 := Nat.mod_lt _ (by norm_num)
  obtain ⟨a1, a2, a3, a4, a5, a6, a7, a8, a9, a10, a11, a12, a13, a14, a15, a16,
          a17, a18⟩ := tab3x1_facts _ hB0
  obtain ⟨b1, b2, b3, b4, b5, b6, b7, b8, b9, b10, b11, b12, b13, b14, b15, b16,
          b17, b18⟩ := tab3x1_facts _ hB1
  obtain ⟨c1, c2, c3, c4, c5, c6, c7, c8, c9, c10, c11, c12, c13, c14, c15, c16,
          c17, c18⟩ := tab3x1_facts _ hB2
  have e0 : ((tab3x1 (planes 0 (offset + i) % 256) |||
      (tab3x1 (planes 1 (offset + i) % 256) >>> 1) |||
      (tab3x1 (planes 2 (offset + i) % 256) >>> 2)) >>> 16) % 256 =
      planes 0 (offset + i) % 256 / 128 % 2 * 128 +
      planes 1 (offset + i) % 256 / 128 % 2 * 64 +
      planes 2 (offset + i) % 256 / 128 % 2 * 32 +
      planes 0 (offset + i) % 256 / 64 % 2 * 16 +
      planes 1 (offset + i) % 256 / 64 % 2 * 8 +
      planes 2 (offset + i) % 256 / 64 % 2 * 4 +
      planes 0 (offset + i) % 256 / 32 % 2 * 2 +
      planes 1 (offset + i) % 256 / 32 % 2 := by
    rw [or_shiftRight, or_shiftRight, ← Nat.shiftRight_add, ← Nat.shiftRight_add]
    norm_num
    rw [or_mod256, or_mod256,
        or3_add _ _ _ 0x92 0x49 0x24 a2 b4 c6 (by decide) (by decide) (by decide),
        a1, b3, c5]
    ring
  have e1 : ((tab3x1 (planes 0 (offset + i) % 256) |||
      (tab3x1 (planes 1 (offset + i) % 256) >>> 1) |||
      (tab3x1 (planes 2 (offset + i) % 256) >>> 2)) >>> 8) % 256 =
      planes 2 (offset + i) % 256 / 32 % 2 * 128 +
      planes 0 (offset + i) % 256 / 16 % 2 * 64 +
      planes 1 (offset + i) % 256 / 16 % 2 * 32 +
      planes 2 (offset + i) % 256 / 16 % 2 * 16 +
      planes 0 (offset + i) % 256 / 8 % 2 * 8 +
      planes 1 (offset + i) % 256 / 8 % 2 * 4 +
      planes 2 (offset + i) % 256 / 8 % 2 * 2 +
      planes 0 (offset + i) % 256 / 4 % 2 := by
    rw [or_shiftRight, or_shiftRight, ← Nat.shiftRight_add, ← Nat.shiftRight_add]
    norm_num
    rw [or_mod256, or_mod256,
        or3_add _ _ _ 0x49 0x24 0x92 a8 b10 c12 (by decide) (by decide) (by decide),
        a7, b9, c11]
    ring
  have e2 : (tab3x1 (planes 0 (offset + i) % 256) |||
      (tab3x1 (planes 1 (offset + i) % 256) >>> 1) |||
      (tab3x1 (planes 2 (offset + i) % 256) >>> 2)) % 256 =
      planes 1 (offset + i) % 256 / 4 % 2 * 128 +
      planes 2 (offset + i) % 256 / 4 % 2 * 64 +
      planes 0 (offset + i) % 256 / 2 % 2 * 32 +
      planes 1 (offset + i) % 256 / 2 % 2 * 16 +
      planes 2 (offset + i) % 256 / 2 % 2 * 8 +
      planes 0 (offset + i) % 256 % 2 * 4 +
      planes 1 (offset + i) % 256 % 2 * 2 +
      planes 2 (offset + i) % 256 % 2 := by
    rw [or_mod256, or_mod256,
        or3_add _ _ _ 0x24 0x92 0x49 a14 b16 c18 (by decide) (by decide) (by decide),
        a13, b15, c17]
    ring
  rw [e0, e1, e2]
  simp [storeVals]

theorem loop3x1 (planes : Planes) (offset : Nat) :
    ∀ (n i : Nat) (out : List Nat),
      storeVals 1 (sampleVals planes offset 1 3 (8 * i) (8 * n)) ⟨out, 0, 0⟩ =
        .ok ⟨out ++ flip3x1_loop (planes 0) (planes 1) (planes 2) (offset + i) n,
             0, 0⟩ := by
  intro n
  induction n with
  | zero => intro i out; simp [sampleVals, storeVals, flip3x1_loop]
  | succ n ih =>
    intro i out
    rw [show 8 * (n + 1) = 8 + 8 * n from by ring, sampleVals_add,
        storeVals_append_ok 1 _ _ _ _ (chunk3x1 planes offset i out),
        show 8 * i + 1 * 8 = 8 * (i + 1) from by ring, ih (i + 1)]
    simp only [flip3x1_loop, List.append_assoc, List.cons_append, List.nil_append,
               show offset + (i + 1) = offset + i + 1 from by ring]

theorem flipNx1to8_eq_flip3x1 (planes : Planes) (offset : Nat) (nbytes : Int) :
    flipNx1to8 planes offset nbytes 3 1 = flip3x1 planes offset nbytes := by
  unfold flipNx1to8
  rw [flipN_outer_eq_storeVals]
  have hcnt : (8 * nbytes.toNat + (1 - 1)) / 1 = 8 * nbytes.toNat := by omega
  rw [hcnt]
  have h := loop3x1 planes offset nbytes.toNat 0 []
  simp only [Nat.mul_zero, Nat.add_zero, List.nil_append] at h
  rw [h]
  simp [flip3x1, sample_store_flush]

end GSFlip

namespace GSFlip

/-! ### The TRANSPOSE macro in closed form -/

theorem or_shiftLeft (a b n : Nat) :
    (a ||| b) <<< n = (a <<< n) ||| (b <<< n) := by
  apply Nat.eq_of_testBit_eq
  intro i
  simp [Nat.testBit_shiftLeft, Bool.and_or_distrib_left]

theorem and_shiftLeft (a b n : Nat) :
    (a &&& b) <<< n = (a <<< n) &&& (b <<< n) := by
  apply Nat.eq_of_testBit_eq
  intro i
  simp [Nat.testBit_shiftLeft, Bool.and_assoc, Bool.and_left_comm, Bool.and_comm]

theorem shl_shr_le (x a b : Nat) (h : a ≤ b) :
    (x <<< a) >>> b = x >>> (b - a) := by
  rw [Nat.shiftLeft_eq, Nat.shiftRight_eq_div_pow, Nat.shiftRight_eq_div_pow]
  have hb : (2 : Nat) ^ b = 2 ^ a * 2 ^ (b - a) := by
    rw [← Nat.pow_add]
    congr 1
    omega
  rw [hb, ← Nat.div_div_eq_div_mul, Nat.mul_div_cancel _ (Nat.two_pow_pos a)]

theorem shl_shr_ge (x a b : Nat) (h : b ≤ a) :
    (x <<< a) >>> b = x <<< (a - b) := by
  rw [Nat.shiftLeft_eq, Nat.shiftLeft_eq, Nat.shiftRight_eq_div_pow]
  have ha : (2 : Nat) ^ a = 2 ^ (a - b) * 2 ^ b := by
    rw [← Nat.pow_add]
    congr 1
    omega
  rw [ha, ← Nat.mul_assoc, Nat.mul_div_cancel _ (Nat.two_pow_pos b)]

theorem and_mask_idem (x m : Nat) : (x &&& m) &&& m = x &&& m := by
  rw [Nat.and_assoc, Nat.and_self]

theorem testBit_ge_256 (x i : Nat) (hx : x < 256) (hi : 8 ≤ i) :
    x.testBit i = false := by
  apply Nat.testBit_lt_two_pow
  calc x < 256 := hx
  _ = 2 ^ 8 := rfl
  _ ≤ 2 ^ i := Nat.pow_le_pow_right (by norm_num) hi

/-- The `TRANSPOSE(r,s,mask,shift)` macro exchanges the masked bits of `r`
with the correspondingly shifted bits of `s`. -/
theorem transposeBits_spec (r s m k : Nat) (hr : r < 256) (hs : s < 256)
    (hm : m < 256) (hmk : m <<< k < 256) :
    transposeBits r s m k =
      ((r &&& (255 ^^^ m)) ||| ((s >>> k) &&& m),
       (s &&& (255 ^^^ (m <<< k))) ||| ((r <<< k) &&& (m <<< k))) := by
  unfold transposeBits
  simp only [Prod.mk.injEq]
  constructor
  · apply Nat.eq_of_testBit_eq
    intro i
    by_cases h8 : i < 8
    · have h255 : (255 : Nat).testBit i = true := by
        rw [show (255 : Nat) = 2 ^ 8 - 1 from rfl, Nat.testBit_two_pow_sub_one]
        simp [h8]
      simp only [Nat.testBit_xor, Nat.testBit_and, Nat.testBit_or,
                 Nat.testBit_shiftRight, h255]
      cases hm1 : m.testBit i <;> cases hr1 : r.testBit i <;>
        cases hs1 : s.testBit (k + i) <;> simp [hm1, hr1, hs1]
    · have hrb := testBit_ge_256 r i hr (by omega)
      have hmb := testBit_ge_256 m i hm (by omega)
      simp [Nat.testBit_xor, Nat.testBit_and, Nat.testBit_or, hrb, hmb]
  · apply Nat.eq_of_testBit_eq
    intro i
    rw [show (256 : Nat) = 2 ^ 8 from rfl]
    by_cases h8 : i < 8
    · have h255 : (255 : Nat).testBit i = true := by
        rw [show (255 : Nat) = 2 ^ 8 - 1 from rfl, Nat.testBit_two_pow_sub_one]
        simp [h8]
      by_cases hk : k ≤ i
      · have hik : k + (i - k) = i := by omega
        simp only [Nat.testBit_mod_two_pow, Nat.testBit_xor, Nat.testBit_and,
                   Nat.testBit_or, Nat.testBit_shiftLeft, Nat.testBit_shiftRight,
                   h255, hik]
        simp only [h8, hk, decide_eq_true_eq]
        simp
        cases hm1 : m.testBit (i - k) <;> cases hr1 : r.testBit (i - k) <;>
          cases hs1 : s.testBit i <;> simp [hm1, hr1, hs1]
      · simp only [Nat.testBit_mod_two_pow, Nat.testBit_xor, Nat.testBit_and,
                   Nat.testBit_or, Nat.testBit_shiftLeft, h255]
        simp [h8, hk]
    · have hsb := testBit_ge_256 s i hs (by omega)
      have hmkb := testBit_ge_256 (m <<< k) i hmk (by omega)
      simp only [Nat.testBit_mod_two_pow, Nat.testBit_xor, Nat.testBit_and,
                 Nat.testBit_or, Nat.testBit_shiftLeft, hsb, hmkb, h8]
      simp

theorem transpose_55 (r s : Nat) (hr : r < 256) (hs : s < 256) :
    transposeBits r s 0x55 1 =
      ((r &&& 0xAA) ||| ((s >>> 1) &&& 0x55),
       (s &&& 0x55) ||| ((r <<< 1) &&& 0xAA)) := by
  rw [transposeBits_spec r s 0x55 1 hr hs (by norm_num) (by decide),
      show ((0x55 : Nat) <<< 1) = 0xAA from rfl,
      show ((255 : Nat) ^^^ 0x55) = 0xAA from rfl,
      show ((255 : Nat) ^^^ 0xAA) = 0x55 from rfl]

theorem transpose_33 (r s : Nat) (hr : r < 256) (hs : s < 256) :
    transposeBits r s 0x33 2 =
      ((r &&& 0xCC) ||| ((s >>> 2) &&& 0x33),
       (s &&& 0x33) ||| ((r <<< 2) &&& 0xCC)) := by
  rw [transposeBits_spec r s 0x33 2 hr hs (by norm_num) (by decide),
      show ((0x33 : Nat) <<< 2) = 0xCC from rfl,
      show ((255 : Nat) ^^^ 0x33) = 0xCC from rfl,
      show ((255 : Nat) ^^^ 0xCC) = 0x33 from rfl]

theorem transpose_0f (r s : Nat) (hr : r < 256) (hs : s < 256) :
    transposeBits r s 0x0f 4 =
      ((r &&& 0xf0) ||| ((s >>> 4) &&& 0x0f),
       (s &&& 0x0f) ||| ((r <<< 4) &&& 0xf0)) := by
  rw [transposeBits_spec r s 0x0f 4 hr hs (by norm_num) (by decide),
      show ((0x0f : Nat) <<< 4) = 0xf0 from rfl,
      show ((255 : Nat) ^^^ 0x0f) = 0xf0 from rfl,
      show ((255 : Nat) ^^^ 0xf0) = 0x0f from rfl]

end GSFlip

namespace GSFlip

/-! ### C2, combo (4 planes, depth 2) -/

theorem or22_add (w x y z mw mx my mz : Nat) (hw : w &&& mw = w)
    (hx : x &&& mx = x) (hy : y &&& my = y) (hz : z &&& mz = z)
    (hwx : mw &&& mx = 0) (hwy : mw &&& my = 0) (hwz : mw &&& mz = 0)
    (hxy : mx &&& my = 0) (hxz : mx &&& mz = 0) (hyz : my &&& mz = 0) :
    (w ||| x) ||| (y ||| z) = w + x + y + z := by
  have h1 : w ||| x = w + x :=
    or_eq_add_of_and _ _ (and_disjoint_masks w x mw mx hw hx hwx)
  have h2 : y ||| z = y + z :=
    or_eq_add_of_and _ _ (and_disjoint_masks y z my mz hy hz hyz)
  have hor1 : (w ||| x) &&& (mw ||| mx) = w ||| x := or_subset_mask w x mw mx hw hx
  have hor2 : (y ||| z) &&& (my ||| mz) = y ||| z := or_subset_mask y z my mz hy hz
  have hd : (mw ||| mx) &&& (my ||| mz) = 0 := by
    rw [Nat.and_distrib_right, Nat.and_or_distrib_left, Nat.and_or_distrib_left,
        hwy, hwz, hxy, hxz]
    simp
  have h0 : (w ||| x) &&& (y ||| z) = 0 :=
    and_disjoint_masks _ _ (mw ||| mx) (my ||| mz) hor1 hor2 hd
  rw [or_eq_add_of_and _ _ h0, h1, h2]
  ring

theorem atoms4x2 : ∀ b < 256,
    b &&& 0xC0 = b / 64 % 4 * 64 ∧
    (b >>> 2) &&& 0x30 = b / 64 % 4 * 16 ∧
    (b >>> 4) &&& 0x0C = b / 64 % 4 * 4 ∧
    (b >>> 6) &&& 0x03 = b / 64 % 4 ∧
    (b <<< 2) &&& 0xC0 = b / 16 % 4 * 64 ∧
    b &&& 0x30 = b / 16 % 4 * 16 ∧
    (b >>> 2) &&& 0x0C = b / 16 % 4 * 4 ∧
    (b >>> 4) &&& 0x03 = b / 16 % 4 ∧
    (b <<< 4) &&& 0xC0 = b / 4 % 4 * 64 ∧
    (b <<< 2) &&& 0x30 = b / 4 % 4 * 16 ∧
    b &&& 0x0C = b / 4 % 4 * 4 ∧
    (b >>> 2) &&& 0x03 = b / 4 % 4 ∧
    (b <<< 6) &&& 0xC0 = b % 4 * 64 ∧
    (b <<< 4) &&& 0x30 = b % 4 * 16 ∧
    (b <<< 2) &&& 0x0C = b % 4 * 4 ∧
    b &&& 0x03 = b % 4 := by decide

end GSFlip

namespace GSFlip

theorem atoms4x2b : ∀ b < 256,
    ((b >>> 4) <<< 2) &&& 0x0C = b / 16 % 4 * 4 := by decide

theorem chunk4x2 (planes : Planes) (offset i : Nat) (out : List Nat) :
    storeVals 2 (sampleVals planes offset 2 4 (8 * i) 4) ⟨out, 0, 0⟩ =
      .ok ⟨out ++
        [(transposeBits (transposeBits (planes 0 (offset + i) % 256)
            (planes 2 (offset + i) % 256) 0x0f 4).1
           (transposeBits (planes 1 (offset + i) % 256)
            (planes 3 (offset + i) % 256) 0x0f 4).1 0x33 2).1,
         (transposeBits (transposeBits (planes 0 (offset + i) % 256)
            (planes 2 (offset + i) % 256) 0x0f 4).1
           (transposeBits (planes 1 (offset + i) % 256)
            (planes 3 (offset + i) % 256) 0x0f 4).1 0x33 2).2,
         (transposeBits (transposeBits (planes 0 (offset + i) % 256)
            (planes 2 (offset + i) % 256) 0x0f 4).2
           (transposeBits (planes 1 (offset + i) % 256)
            (planes 3 (offset + i) % 256) 0x0f 4).2 0x33 2).1,
         (transposeBits (transposeBits (planes 0 (offset + i) % 256)
            (planes 2 (offset + i) % 256) 0x0f 4).2
           (transposeBits (planes 1 (offset + i) % 256)
            (planes 3 (offset + i) % 256) 0x0f 4).2 0x33 2).2], 0, 0⟩ := by
  have ha0 : (8 * i) / 8 = i := by omega
  have ha1 : (8 * i + 2) / 8 = i := by omega
  have ha2 : (8 * i + 2 + 2) / 8 = i := by omega
  have ha3 : (8 * i + 2 + 2 + 2) / 8 = i := by omega
  have hm0 : (8 * i) % 8 = 0 := by omega
  have hm1 : (8 * i + 2) % 8 = 2 := by omega
  have hm2 : (8 * i + 2 + 2) % 8 = 4 := by omega
  have hm3 : (8 * i + 2 + 2 + 2) % 8 = 6 := by omega
  have h0 : ∀ pi, flipN_extract planes offset 2 (8 * i) pi =
      planes pi (offset + i) % 256 / 64 % 4 := by
    intro pi
    rw [flipN_extract_arith, ha0, hm0]
    norm_num
  have h1 : ∀ pi, flipN_extract planes offset 2 (8 * i + 2) pi =
      planes pi (offset + i) % 256 / 16 % 4 := by
    intro pi
    rw [flipN_extract_arith, ha1, hm1]
    norm_num
  have h2 : ∀ pi, flipN_extract planes offset 2 (8 * i + 2 + 2) pi =
      planes pi (offset + i) % 256 / 4 % 4 := by
    intro pi
    rw [flipN_extract_arith, ha2, hm2]
    norm_num
  have h3 : ∀ pi, flipN_extract planes offset 2 (8 * i + 2 + 2 + 2) pi =
      planes pi (offset + i) % 256 % 4 := by
    intro pi
    rw [flipN_extract_arith, ha3, hm3]
    norm_num
  have hexp : sampleVals planes offset 2 4 (8 * i) 4 =
      [flipN_extract planes offset 2 (8 * i) 0,
       flipN_extract planes offset 2 (8 * i) 1,
       flipN_extract planes offset 2 (8 * i) 2,
       flipN_extract planes offset 2 (8 * i) 3,
       flipN_extract planes offset 2 (8 * i + 2) 0,
       flipN_extract planes offset 2 (8 * i + 2) 1,
       flipN_extract planes offset 2 (8 * i + 2) 2,
       flipN_extract planes offset 2 (8 * i + 2) 3,
       flipN_extract planes offset 2 (8 * i + 2 + 2) 0,
       flipN_extract planes offset 2 (8 * i + 2 + 2) 1,
       flipN_extract planes offset 2 (8 * i + 2 + 2) 2,
       flipN_extract planes offset 2 (8 * i + 2 + 2) 3,
       flipN_extract planes offset 2 (8 * i + 2 + 2 + 2) 0,
       flipN_extract planes offset 2 (8 * i + 2 + 2 + 2) 1,
       flipN_extract planes offset 2 (8 * i + 2 + 2 + 2) 2,
       flipN_extract planes offset 2 (8 * i + 2 + 2 + 2) 3] := rfl
  rw [hexp]
  simp only [h0, h1, h2, h3]
  rw [show ([planes 0 (offset + i) % 256 / 64 % 4,
            planes 1 (offset + i) % 256 / 64 % 4,
            planes 2 (offset + i) % 256 / 64 % 4,
            planes 3 (offset + i) % 256 / 64 % 4,
            planes 0 (offset + i) % 256 / 16 % 4,
            planes 1 (offset + i) % 256 / 16 % 4,
            planes 2 (offset + i) % 256 / 16 % 4,
            planes 3 (offset + i) % 256 / 16 % 4,
            planes 0 (offset + i) % 256 / 4 % 4,
            planes 1 (offset + i) % 256 / 4 % 4,
            planes 2 (offset + i) % 256 / 4 % 4,
            planes 3 (offset + i) % 256 / 4 % 4,
            planes 0 (offset + i) % 256 % 4,
            planes 1 (offset + i) % 256 % 4,
            planes 2 (offset + i) % 256 % 4,
            planes 3 (offset + i) % 256 % 4] : List Nat) =
      [planes 0 (offset + i) % 256 / 64 % 4,
       planes 1 (offset + i) % 256 / 64 % 4,
       planes 2 (offset + i) % 256 / 64 % 4,
       planes 3 (offset + i) % 256 / 64 % 4] ++
      ([planes 0 (offset + i) % 256 / 16 % 4,
        planes 1 (offset + i) % 256 / 16 % 4,
        planes 2 (offset + i) % 256 / 16 % 4,
        planes 3 (offset + i) % 256 / 16 % 4] ++
       ([planes 0 (offset + i) % 256 / 4 % 4,
         planes 1 (offset + i) % 256 / 4 % 4,
         planes 2 (offset + i) % 256 / 4 % 4,
         planes 3 (offset + i) % 256 / 4 % 4] ++
        ([planes 0 (offset + i) % 256 % 4,
          planes 1 (offset + i) % 256 % 4,
          planes 2 (offset + i) % 256 % 4,
          planes 3 (offset + i) % 256 % 4] ++ []))) from rfl]
  rw [byteStep2 _ _ _ _ _ _ (by omega) (by omega) (by omega) (by omega),
      byteStep2 _ _ _ _ _ _ (by omega) (by omega) (by omega) (by omega),
      byteStep2 _ _ _ _ _ _ (by omega) (by omega) (by omega) (by omega),
      byteStep2 _ _ _ _ _ _ (by omega) (by omega) (by omega) (by omega)]
  have hB0 : planes 0 (offset + i) % 256 < 256 := Nat.mod_lt _ (by norm_num)
  have hB1 : planes 1 (offset + i) % 256 < 256 := Nat.mod_lt _ (by norm_num)
  have hB2 : planes 2 (offset + i) % 256 < 256 := Nat.mod_lt _ (by norm_num)
  have hB3 : planes 3 (offset + i) % 256 < 256 := Nat.mod_lt _ (by norm_num)
  have hlt : ∀ x c : Nat, c < 256 → x &&& c < 256 := fun x c hc =>
    Nat.and_lt_two_pow x (show c < 2 ^ 8 from hc)
  have horlt : ∀ x y : Nat, x < 256 → y < 256 → (x ||| y) < 256 := fun x y hx hy =>
    Nat.or_lt_two_pow (show x < 2 ^ 8 from hx) (show y < 2 ^ 8 from hy)
  have t13a : (transposeBits (planes 0 (offset + i) % 256)
      (planes 2 (offset + i) % 256) 0x0f 4).1 =
      ((planes 0 (offset + i) % 256) &&& 0xf0) |||
        (((planes 2 (offset + i) % 256) >>> 4) &&& 0x0f) := by
    rw [transpose_0f _ _ hB0 hB2]
  have t13b : (transposeBits (planes 0 (offset + i) % 256)
      (planes 2 (offset + i) % 256) 0x0f 4).2 =
      ((planes 2 (offset + i) % 256) &&& 0x0f) |||
        (((planes 0 (offset + i) % 256) <<< 4) &&& 0xf0) := by
    rw [transpose_0f _ _ hB0 hB2]
  have t24a : (transposeBits (planes 1 (offset + i) % 256)
      (planes 3 (offset + i) % 256) 0x0f 4).1 =
      ((planes 1 (offset + i) % 256) &&& 0xf0) |||
        (((planes 3 (offset + i) % 256) >>> 4) &&& 0x0f) := by
    rw [transpose_0f _ _ hB1 hB3]
  have t24b : (transposeBits (planes 1 (offset + i) % 256)
      (planes 3 (offset + i) % 256) 0x0f 4).2 =
      ((planes 3 (offset + i) % 256) &&& 0x0f) |||
        (((planes 1 (offset + i) % 256) <<< 4) &&& 0xf0) := by
    rw [transpose_0f _ _ hB1 hB3]
  obtain ⟨q1, q2, q3, q4, q5, q6, q7, q8, q9, q10, q11, q12, q13, q14, q15,
          q16⟩ := atoms4x2 _ hB0
  obtain ⟨r1, r2, r3, r4, r5, r6, r7, r8, r9, r10, r11, r12, r13, r14, r15,
          r16⟩ := atoms4x2 _ hB1
  obtain ⟨s1, s2, s3, s4, s5, s6, s7, s8, s9, s10, s11, s12, s13, s14, s15,
          s16⟩ := atoms4x2 _ hB2
  obtain ⟨u1, u2, u3, u4, u5, u6, u7, u8, u9, u10, u11, u12, u13, u14, u15,
          u16⟩ := atoms4x2 _ hB3
  have e0 : (transposeBits (transposeBits (planes 0 (offset + i) % 256)
      (planes 2 (offset + i) % 256) 0x0f 4).1
      (transposeBits (planes 1 (offset + i) % 256)
      (planes 3 (offset + i) % 256) 0x0f 4).1 0x33 2).1 =
      planes 0 (offset + i) % 256 / 64 % 4 * 64 +
      planes 1 (offset + i) % 256 / 64 % 4 * 16 +
      planes 2 (offset + i) % 256 / 64 % 4 * 4 +
      planes 3 (offset + i) % 256 / 64 % 4 := by
    rw [t13a, t24a,
        transpose_33 _ _ (horlt _ _ (hlt _ _ (by norm_num)) (hlt _ _ (by norm_num)))
          (horlt _ _ (hlt _ _ (by norm_num)) (hlt _ _ (by norm_num)))]
    show ((((planes 0 (offset + i) % 256) &&& 0xf0) |||
        (((planes 2 (offset + i) % 256) >>> 4) &&& 0x0f)) &&& 0xCC) |||
        (((((planes 1 (offset + i) % 256) &&& 0xf0) |||
        (((planes 3 (offset + i) % 256) >>> 4) &&& 0x0f)) >>> 2) &&& 0x33) = _
    rw [Nat.and_distrib_right, or_shiftRight, and_shiftRight, and_shiftRight,
        ← Nat.shiftRight_add, Nat.and_distrib_right, Nat.and_assoc, Nat.and_assoc,
        Nat.and_assoc, Nat.and_assoc,
        show (0xf0 &&& 0xCC : Nat) = 0xC0 from rfl,
        show (0x0f &&& 0xCC : Nat) = 0x0C from rfl,
        show ((0xf0 >>> 2 : Nat) &&& 0x33) = 0x30 from rfl,
        show ((0x0f >>> 2 : Nat) &&& 0x33) = 0x03 from rfl,
        show (4 + 2 : Nat) = 6 from rfl,
        or22_add _ _ _ _ 0xC0 0x0C 0x30 0x03 (and_mask_idem _ _)
          (and_mask_idem _ _) (and_mask_idem _ _) (and_mask_idem _ _)
          (by decide) (by decide) (by decide) (by decide) (by decide) (by decide),
        q1, r2, s3, u4]
    ring
  have e1 : (transposeBits (transposeBits (planes 0 (offset + i) % 256)
      (planes 2 (offset + i) % 256) 0x0f 4).1
      (transposeBits (planes 1 (offset + i) % 256)
      (planes 3 (offset + i) % 256) 0x0f 4).1 0x33 2).2 =
      planes 0 (offset + i) % 256 / 16 % 4 * 64 +
      planes 1 (offset + i) % 256 / 16 % 4 * 16 +
      planes 2 (offset + i) % 256 / 16 % 4 * 4 +
      planes 3 (offset + i) % 256 / 16 % 4 := by
    rw [t13a, t24a,
        transpose_33 _ _ (horlt _ _ (hlt _ _ (by norm_num)) (hlt _ _ (by norm_num)))
          (horlt _ _ (hlt _ _ (by norm_num)) (hlt _ _ (by norm_num)))]
    show ((((planes 1 (offset + i) % 256) &&& 0xf0) |||
        (((planes 3 (offset + i) % 256) >>> 4) &&& 0x0f)) &&& 0x33) |||
        (((((planes 0 (offset + i) % 256) &&& 0xf0) |||
        (((planes 2 (offset + i) % 256) >>> 4) &&& 0x0f)) <<< 2) &&& 0xCC) = _
    rw [Nat.and_distrib_right, or_shiftLeft, and_shiftLeft, and_shiftLeft,
        Nat.and_distrib_right, Nat.and_assoc, Nat.and_assoc, Nat.and_assoc,
        Nat.and_assoc,
        show (0xf0 &&& 0x33 : Nat) = 0x30 from rfl,
        show (0x0f &&& 0x33 : Nat) = 0x03 from rfl,
        show ((0xf0 <<< 2 : Nat) &&& 0xCC) = 0xC0 from rfl,
        show ((0x0f <<< 2 : Nat) &&& 0xCC) = 0x0C from rfl,
        or22_add _ _ _ _ 0x30 0x03 0xC0 0x0C (and_mask_idem _ _)
          (and_mask_idem _ _) (and_mask_idem _ _) (and_mask_idem _ _)
          (by decide) (by decide) (by decide) (by decide) (by decide) (by decide),
        r6, u8, q5, atoms4x2b _ hB2]
    ring
  have e2 : (transposeBits (transposeBits (planes 0 (offset + i) % 256)
      (planes 2 (offset + i) % 256) 0x0f 4).2
      (transposeBits (planes 1 (offset + i) % 256)
      (planes 3 (offset + i) % 256) 0x0f 4).2 0x33 2).1 =
      planes 0 (offset + i) % 256 / 4 % 4 * 64 +
      planes 1 (offset + i) % 256 / 4 % 4 * 16 +
      planes 2 (offset + i) % 256 / 4 % 4 * 4 +
      planes 3 (offset + i) % 256 / 4 % 4 := by
    rw [t13b, t24b,
        transpose_33 _ _ (horlt _ _ (hlt _ _ (by norm_num)) (hlt _ _ (by norm_num)))
          (horlt _ _ (hlt _ _ (by norm_num)) (hlt _ _ (by norm_num)))]
    show ((((planes 2 (offset + i) % 256) &&& 0x0f) |||
        (((planes 0 (offset + i) % 256) <<< 4) &&& 0xf0)) &&& 0xCC) |||
        (((((planes 3 (offset + i) % 256) &&& 0x0f) |||
        (((planes 1 (offset + i) % 256) <<< 4) &&& 0xf0)) >>> 2) &&& 0x33) = _
    rw [Nat.and_distrib_right, or_shiftRight, and_shiftRight, and_shiftRight,
        shl_shr_ge _ 4 2 (by norm_num), Nat.and_distrib_right, Nat.and_assoc,
        Nat.and_assoc, Nat.and_assoc, Nat.and_assoc,
        show (0x0f &&& 0xCC : Nat) = 0x0C from rfl,
        show (0xf0 &&& 0xCC : Nat) = 0xC0 from rfl,
        show ((0x0f >>> 2 : Nat) &&& 0x33) = 0x03 from rfl,
        show ((0xf0 >>> 2 : Nat) &&& 0x33) = 0x30 from rfl,
        show (4 - 2 : Nat) = 2 from rfl,
        or22_add _ _ _ _ 0x0C 0xC0 0x03 0x30 (and_mask_idem _ _)
          (and_mask_idem _ _) (and_mask_idem _ _) (and_mask_idem _ _)
          (by decide) (by decide) (by decide) (by decide) (by decide) (by decide),
        s11, q9, u12, r10]
    ring
  have e3 : (transposeBits (transposeBits (planes 0 (offset + i) % 256)
      (planes 2 (offset + i) % 256) 0x0f 4).2
      (transposeBits (planes 1 (offset + i) % 256)
      (planes 3 (offset + i) % 256) 0x0f 4).2 0x33 2).2 =
      planes 0 (offset + i) % 256 % 4 * 64 +
      planes 1 (offset + i) % 256 % 4 * 16 +
      planes 2 (offset + i) % 256 % 4 * 4 +
      planes 3 (offset + i) % 256 % 4 := by
    rw [t13b, t24b,
        transpose_33 _ _ (horlt _ _ (hlt _ _ (by norm_num)) (hlt _ _ (by norm_num)))
          (horlt _ _ (hlt _ _ (by norm_num)) (hlt _ _ (by norm_num)))]
    show ((((planes 3 (offset + i) % 256) &&& 0x0f) |||
        (((planes 1 (offset + i) % 256) <<< 4) &&& 0xf0)) &&& 0x33) |||
        (((((planes 2 (offset + i) % 256) &&& 0x0f) |||
        (((planes 0 (offset + i) % 256) <<< 4) &&& 0xf0)) <<< 2) &&& 0xCC) = _
    rw [Nat.and_distrib_right, or_shiftLeft, and_shiftLeft, and_shiftLeft,
        ← Nat.shiftLeft_add, Nat.and_distrib_right, Nat.and_assoc, Nat.and_assoc,
        Nat.and_assoc, Nat.and_assoc,
        show (0x0f &&& 0x33 : Nat) = 0x03 from rfl,
        show (0xf0 &&& 0x33 : Nat) = 0x30 from rfl,
        show ((0x0f <<< 2 : Nat) &&& 0xCC) = 0x0C from rfl,
        show ((0xf0 <<< 2 : Nat) &&& 0xCC) = 0xC0 from rfl,
        show (4 + 2 : Nat) = 6 from rfl,
        or22_add _ _ _ _ 0x03 0x30 0x0C 0xC0 (and_mask_idem _ _)
          (and_mask_idem _ _) (and_mask_idem _ _) (and_mask_idem _ _)
          (by decide) (by decide) (by decide) (by decide) (by decide) (by decide),
        u16, r14, s15, q13]
    ring
  rw [e0, e1, e2, e3]
  simp [storeVals]

end GSFlip

namespace GSFlip

theorem loop4x2 (planes : Planes) (offset : Nat) :
    ∀ (n i : Nat) (out : List Nat),
      storeVals 2 (sampleVals planes offset 2 4 (8 * i) (4 * n)) ⟨out, 0, 0⟩ =
        .ok ⟨out ++ flip4x2_loop (planes 0) (planes 1) (planes 2) (planes 3)
              (offset + i) n, 0, 0⟩ := by
  intro n
  induction n with
  | zero => intro i out; simp [sampleVals, storeVals, flip4x2_loop]
  | succ n ih =>
    intro i out
    rw [show 4 * (n + 1) = 4 + 4 * n from by ring, sampleVals_add,
        storeVals_append_ok 2 _ _ _ _ (chunk4x2 planes offset i out),
        show 8 * i + 2 * 4 = 8 * (i + 1) from by ring, ih (i + 1)]
    simp only [flip4x2_loop, List.append_assoc, List.cons_append, List.nil_append,
               show offset + (i + 1) = offset + i + 1 from by ring]

theorem flipNx1to8_eq_flip4x2 (planes : Planes) (offset : Nat) (nbytes : Int) :
    flipNx1to8 planes offset nbytes 4 2 = flip4x2 planes offset nbytes := by
  unfold flipNx1to8
  rw [flipN_outer_eq_storeVals]
  have hcnt : (8 * nbytes.toNat + (2 - 1)) / 2 = 4 * nbytes.toNat := by omega
  rw [hcnt]
  have h := loop4x2 planes offset nbytes.toNat 0 []
  simp only [Nat.mul_zero, Nat.add_zero, List.nil_append] at h
  rw [h]
  simp [flip4x2, sample_store_flush]

end GSFlip

namespace GSFlip

/-! ### C2, combo (4 planes, depth 1) -/

theorem atoms4x1_o0 : ∀ b < 256,
    (b &&& 0x88) &&& 0xf0 = b / 128 % 2 * 128 ∧
    ((b &&& 0x88) &&& 0xf0) &&& 0x80 = (b &&& 0x88) &&& 0xf0 ∧
    ((b >>> 1) &&& 0x44) &&& 0xf0 = b / 128 % 2 * 64 ∧
    (((b >>> 1) &&& 0x44) &&& 0xf0) &&& 0x40 = ((b >>> 1) &&& 0x44) &&& 0xf0 ∧
    ((b >>> 2) &&& 0x22) &&& 0xf0 = b / 128 % 2 * 32 ∧
    (((b >>> 2) &&& 0x22) &&& 0xf0) &&& 0x20 = ((b >>> 2) &&& 0x22) &&& 0xf0 ∧
    ((b >>> 3) &&& 0x11) &&& 0xf0 = b / 128 % 2 * 16 ∧
    (((b >>> 3) &&& 0x11) &&& 0xf0) &&& 0x10 = ((b >>> 3) &&& 0x11) &&& 0xf0 ∧
    (b &&& 0x44) >>> 4 = b / 64 % 2 * 4 ∧
    ((b &&& 0x44) >>> 4) &&& 0x04 = (b &&& 0x44) >>> 4 ∧
    ((b <<< 1) &&& 0x88) >>> 4 = b / 64 % 2 * 8 ∧
    (((b <<< 1) &&& 0x88) >>> 4) &&& 0x08 = ((b <<< 1) &&& 0x88) >>> 4 ∧
    ((b >>> 2) &&& 0x11) >>> 4 = b / 64 % 2 ∧
    (((b >>> 2) &&& 0x11) >>> 4) &&& 0x01 = ((b >>> 2) &&& 0x11) >>> 4 ∧
    ((b >>> 1) &&& 0x22) >>> 4 = b / 64 % 2 * 2 ∧
    (((b >>> 1) &&& 0x22) >>> 4) &&& 0x02 = ((b >>> 1) &&& 0x22) >>> 4 := by decide

theorem atoms4x1_o1 : ∀ b < 256,
    (b &&& 0x22) &&& 0xf0 = b / 32 % 2 * 32 ∧
    ((b &&& 0x22) &&& 0xf0) &&& 0x20 = (b &&& 0x22) &&& 0xf0 ∧
    ((b >>> 1) &&& 0x11) &&& 0xf0 = b / 32 % 2 * 16 ∧
    (((b >>> 1) &&& 0x11) &&& 0xf0) &&& 0x10 = ((b >>> 1) &&& 0x11) &&& 0xf0 ∧
    ((b <<< 2) &&& 0x88) &&& 0xf0 = b / 32 % 2 * 128 ∧
    (((b <<< 2) &&& 0x88) &&& 0xf0) &&& 0x80 = ((b <<< 2) &&& 0x88) &&& 0xf0 ∧
    (((b >>> 1) <<< 2) &&& 0x44) &&& 0xf0 = b / 32 % 2 * 64 ∧
    ((((b >>> 1) <<< 2) &&& 0x44) &&& 0xf0) &&& 0x40 =
      (((b >>> 1) <<< 2) &&& 0x44) &&& 0xf0 ∧
    (b &&& 0x11) >>> 4 = b / 16 % 2 ∧
    ((b &&& 0x11) >>> 4) &&& 0x01 = (b &&& 0x11) >>> 4 ∧
    ((b <<< 1) &&& 0x22) >>> 4 = b / 16 % 2 * 2 ∧
    (((b <<< 1) &&& 0x22) >>> 4) &&& 0x02 = ((b <<< 1) &&& 0x22) >>> 4 ∧
    ((b <<< 2) &&& 0x44) >>> 4 = b / 16 % 2 * 4 ∧
    (((b <<< 2) &&& 0x44) >>> 4) &&& 0x04 = ((b <<< 2) &&& 0x44) >>> 4 ∧
    ((b <<< 3) &&& 0x88) >>> 4 = b / 16 % 2 * 8 ∧
    (((b <<< 3) &&& 0x88) >>> 4) &&& 0x08 = ((b <<< 3) &&& 0x88) >>> 4 := by decide

theorem atoms4x1_o2 : ∀ b < 256,
    ((b &&& 0x88) <<< 4) % 256 = b / 8 % 2 * 128 ∧
    (((b &&& 0x88) <<< 4) % 256) &&& 0x80 = ((b &&& 0x88) <<< 4) % 256 ∧
    (((b >>> 1) &&& 0x44) <<< 4) % 256 = b / 8 % 2 * 64 ∧
    ((((b >>> 1) &&& 0x44) <<< 4) % 256) &&& 0x40 =
      (((b >>> 1) &&& 0x44) <<< 4) % 256 ∧
    (((b >>> 2) &&& 0x22) <<< 4) % 256 = b / 8 % 2 * 32 ∧
    ((((b >>> 2) &&& 0x22) <<< 4) % 256) &&& 0x20 =
      (((b >>> 2) &&& 0x22) <<< 4) % 256 ∧
    (((b >>> 3) &&& 0x11) <<< 4) % 256 = b / 8 % 2 * 16 ∧
    ((((b >>> 3) &&& 0x11) <<< 4) % 256) &&& 0x10 =
      (((b >>> 3) &&& 0x11) <<< 4) % 256 ∧
    ((b &&& 0x44) &&& 0xf) % 256 = b / 4 % 2 * 4 ∧
    (((b &&& 0x44) &&& 0xf) % 256) &&& 0x04 = ((b &&& 0x44) &&& 0xf) % 256 ∧
    (((b <<< 1) &&& 0x88) &&& 0xf) % 256 = b / 4 % 2 * 8 ∧
    ((((b <<< 1) &&& 0x88) &&& 0xf) % 256) &&& 0x08 =
      (((b <<< 1) &&& 0x88) &&& 0xf) % 256 ∧
    (((b >>> 2) &&& 0x11) &&& 0xf) % 256 = b / 4 % 2 ∧
    ((((b >>> 2) &&& 0x11) &&& 0xf) % 256) &&& 0x01 =
      (((b >>> 2) &&& 0x11) &&& 0xf) % 256 ∧
    (((b >>> 1) &&& 0x22) &&& 0xf) % 256 = b / 4 % 2 * 2 ∧
    ((((b >>> 1) &&& 0x22) &&& 0xf) % 256) &&& 0x02 =
      (((b >>> 1) &&& 0x22) &&& 0xf) % 256 := by decide

theorem atoms4x1_o3 : ∀ b < 256,
    ((b &&& 0x22) <<< 4) % 256 = b / 2 % 2 * 32 ∧
    (((b &&& 0x22) <<< 4) % 256) &&& 0x20 = ((b &&& 0x22) <<< 4) % 256 ∧
    (((b >>> 1) &&& 0x11) <<< 4) % 256 = b / 2 % 2 * 16 ∧
    ((((b >>> 1) &&& 0x11) <<< 4) % 256) &&& 0x10 =
      (((b >>> 1) &&& 0x11) <<< 4) % 256 ∧
    (((b <<< 2) &&& 0x88) <<< 4) % 256 = b / 2 % 2 * 128 ∧
    ((((b <<< 2) &&& 0x88) <<< 4) % 256) &&& 0x80 =
      (((b <<< 2) &&& 0x88) <<< 4) % 256 ∧
    ((((b >>> 1) <<< 2) &&& 0x44) <<< 4) % 256 = b / 2 % 2 * 64 ∧
    (((((b >>> 1) <<< 2) &&& 0x44) <<< 4) % 256) &&& 0x40 =
      ((((b >>> 1) <<< 2) &&& 0x44) <<< 4) % 256 ∧
    ((b &&& 0x11) &&& 0xf) % 256 = b % 2 ∧
    (((b &&& 0x11) &&& 0xf) % 256) &&& 0x01 = ((b &&& 0x11) &&& 0xf) % 256 ∧
    (((b <<< 1) &&& 0x22) &&& 0xf) % 256 = b % 2 * 2 ∧
    ((((b <<< 1) &&& 0x22) &&& 0xf) % 256) &&& 0x02 =
      (((b <<< 1) &&& 0x22) &&& 0xf) % 256 ∧
    (((b <<< 2) &&& 0x44) &&& 0xf) % 256 = b % 2 * 4 ∧
    ((((b <<< 2) &&& 0x44) &&& 0xf) % 256) &&& 0x04 =
      (((b <<< 2) &&& 0x44) &&& 0xf) % 256 ∧
    (((b <<< 3) &&& 0x88) &&& 0xf) % 256 = b % 2 * 8 ∧
    ((((b <<< 3) &&& 0x88) &&& 0xf) % 256) &&& 0x08 =
      (((b <<< 3) &&& 0x88) &&& 0xf) % 256 := by decide

end GSFlip

namespace GSFlip

theorem chunk4x1 (planes : Planes) (offset i : Nat) (out : List Nat) :
    storeVals 1 (sampleVals planes offset 1 4 (8 * i) 8) ⟨out, 0, 0⟩ =
      .ok ⟨out ++
        [((transposeBits (transposeBits (planes 0 (offset + i) % 256)
             (planes 1 (offset + i) % 256) 0x55 1).1
            (transposeBits (planes 2 (offset + i) % 256)
             (planes 3 (offset + i) % 256) 0x55 1).1 0x33 2).1 &&& 0xf0) |||
         ((transposeBits (transposeBits (planes 0 (offset + i) % 256)
             (planes 1 (offset + i) % 256) 0x55 1).2
            (transposeBits (planes 2 (offset + i) % 256)
             (planes 3 (offset + i) % 256) 0x55 1).2 0x33 2).1 >>> 4),
         ((transposeBits (transposeBits (planes 0 (offset + i) % 256)
             (planes 1 (offset + i) % 256) 0x55 1).1
            (transposeBits (planes 2 (offset + i) % 256)
             (planes 3 (offset + i) % 256) 0x55 1).1 0x33 2).2 &&& 0xf0) |||
         ((transposeBits (transposeBits (planes 0 (offset + i) % 256)
             (planes 1 (offset + i) % 256) 0x55 1).2
            (transposeBits (planes 2 (offset + i) % 256)
             (planes 3 (offset + i) % 256) 0x55 1).2 0x33 2).2 >>> 4),
         (((transposeBits (transposeBits (planes 0 (offset + i) % 256)
             (planes 1 (offset + i) % 256) 0x55 1).1
            (transposeBits (planes 2 (offset + i) % 256)
             (planes 3 (offset + i) % 256) 0x55 1).1 0x33 2).1 <<< 4) |||
          ((transposeBits (transposeBits (planes 0 (offset + i) % 256)
             (planes 1 (offset + i) % 256) 0x55 1).2
            (transposeBits (planes 2 (offset + i) % 256)
             (planes 3 (offset + i) % 256) 0x55 1).2 0x33 2).1 &&& 0xf)) % 256,
         (((transposeBits (transposeBits (planes 0 (offset + i) % 256)
             (planes 1 (offset + i) % 256) 0x55 1).1
            (transposeBits (planes 2 (offset + i) % 256)
             (planes 3 (offset + i) % 256) 0x55 1).1 0x33 2).2 <<< 4) |||
          ((transposeBits (transposeBits (planes 0 (offset + i) % 256)
             (planes 1 (offset + i) % 256) 0x55 1).2
            (transposeBits (planes 2 (offset + i) % 256)
             (planes 3 (offset + i) % 256) 0x55 1).2 0x33 2).2 &&& 0xf)) % 256],
        0, 0⟩ := by
  have g1 : ∀ pi, flipN_extract planes offset 1 (8 * i) pi =
      planes pi (offset + i) % 256 / 128 % 2 := by
    intro pi
    rw [flipN_extract_arith, show 8 * i / 8 = i from by omega,
        show 8 * i % 8 = 0 from by omega]
    norm_num
  have g2 : ∀ pi, flipN_extract planes offset 1 (8 * i + 1) pi =
      planes pi (offset + i) % 256 / 64 % 2 := by
    intro pi
    rw [flipN_extract_arith, show (8 * i + 1) / 8 = i from by omega,
        show (8 * i + 1) % 8 = 1 from by omega]
    norm_num
  have g3 : ∀ pi, flipN_extract planes offset 1 (8 * i + 1 + 1) pi =
      planes pi (offset + i) % 256 / 32 % 2 := by
    intro pi
    rw [flipN_extract_arith, show (8 * i + 1 + 1) / 8 = i from by omega,
        show (8 * i + 1 + 1) % 8 = 2 from by omega]
    norm_num
  have g4 : ∀ pi, flipN_extract planes offset 1 (8 * i + 1 + 1 + 1) pi =
      planes pi (offset + i) % 256 / 16 % 2 := by
    intro pi
    rw [flipN_extract_arith, show (8 * i + 1 + 1 + 1) / 8 = i from by omega,
        show (8 * i + 1 + 1 + 1) % 8 = 3 from by omega]
    norm_num
  have g5 : ∀ pi, flipN_extract planes offset 1 (8 * i + 1 + 1 + 1 + 1) pi =
      planes pi (offset + i) % 256 / 8 % 2 := by
    intro pi
    rw [flipN_extract_arith, show (8 * i + 1 + 1 + 1 + 1) / 8 = i from by omega,
        show (8 * i + 1 + 1 + 1 + 1) % 8 = 4 from by omega]
    norm_num
  have g6 : ∀ pi, flipN_extract planes offset 1 (8 * i + 1 + 1 + 1 + 1 + 1) pi =
      planes pi (offset + i) % 256 / 4 % 2 := by
    intro pi
    rw [flipN_extract_arith,
        show (8 * i + 1 + 1 + 1 + 1 + 1) / 8 = i from by omega,
        show (8 * i + 1 + 1 + 1 + 1 + 1) % 8 = 5 from by omega]
    norm_num
  have g7 : ∀ pi, flipN_extract planes offset 1 (8 * i + 1 + 1 + 1 + 1 + 1 + 1) pi =
      planes pi (offset + i) % 256 / 2 % 2 := by
    intro pi
    rw [flipN_extract_arith,
        show (8 * i + 1 + 1 + 1 + 1 + 1 + 1) / 8 = i from by omega,
        show (8 * i + 1 + 1 + 1 + 1 + 1 + 1) % 8 = 6 from by omega]
    norm_num
  have g8 : ∀ pi,
      flipN_extract planes offset 1 (8 * i + 1 + 1 + 1 + 1 + 1 + 1 + 1) pi =
      planes pi (offset + i) % 256 % 2 := by
    intro pi
    rw [flipN_extract_arith,
        show (8 * i + 1 + 1 + 1 + 1 + 1 + 1 + 1) / 8 = i from by omega,
        show (8 * i + 1 + 1 + 1 + 1 + 1 + 1 + 1) % 8 = 7 from by omega]
    norm_num
  have hexp : sampleVals planes offset 1 4 (8 * i) 8 =
      [flipN_extract planes offset 1 (8 * i) 0,
       flipN_extract planes offset 1 (8 * i) 1,
       flipN_extract planes offset 1 (8 * i) 2,
       flipN_extract planes offset 1 (8 * i) 3,
       flipN_extract planes offset 1 (8 * i + 1) 0,
       flipN_extract planes offset 1 (8 * i + 1) 1,
       flipN_extract planes offset 1 (8 * i + 1) 2,
       flipN_extract planes offset 1 (8 * i + 1) 3,
       flipN_extract planes offset 1 (8 * i + 1 + 1) 0,
       flipN_extract planes offset 1 (8 * i + 1 + 1) 1,
       flipN_extract planes offset 1 (8 * i + 1 + 1) 2,
       flipN_extract planes offset 1 (8 * i + 1 + 1) 3,
       flipN_extract planes offset 1 (8 * i + 1 + 1 + 1) 0,
       flipN_extract planes offset 1 (8 * i + 1 + 1 + 1) 1,
       flipN_extract planes offset 1 (8 * i + 1 + 1 + 1) 2,
       flipN_extract planes offset 1 (8 * i + 1 + 1 + 1) 3,
       flipN_extract planes offset 1 (8 * i + 1 + 1 + 1 + 1) 0,
       flipN_extract planes offset 1 (8 * i + 1 + 1 + 1 + 1) 1,
       flipN_extract planes offset 1 (8 * i + 1 + 1 + 1 + 1) 2,
       flipN_extract planes offset 1 (8 * i + 1 + 1 + 1 + 1) 3,
       flipN_extract planes offset 1 (8 * i + 1 + 1 + 1 + 1 + 1) 0,
       flipN_extract planes offset 1 (8 * i + 1 + 1 + 1 + 1 + 1) 1,
       flipN_extract planes offset 1 (8 * i + 1 + 1 + 1 + 1 + 1) 2,
       flipN_extract planes offset 1 (8 * i + 1 + 1 + 1 + 1 + 1) 3,
       flipN_extract planes offset 1 (8 * i + 1 + 1 + 1 + 1 + 1 + 1) 0,
       flipN_extract planes offset 1 (8 * i + 1 + 1 + 1 + 1 + 1 + 1) 1,
       flipN_extract planes offset 1 (8 * i + 1 + 1 + 1 + 1 + 1 + 1) 2,
       flipN_extract planes offset 1 (8 * i + 1 + 1 + 1 + 1 + 1 + 1) 3,
       flipN_extract planes offset 1 (8 * i + 1 + 1 + 1 + 1 + 1 + 1 + 1) 0,
       flipN_extract planes offset 1 (8 * i + 1 + 1 + 1 + 1 + 1 + 1 + 1) 1,
       flipN_extract planes offset 1 (8 * i + 1 + 1 + 1 + 1 + 1 + 1 + 1) 2,
       flipN_extract planes offset 1 (8 * i + 1 + 1 + 1 + 1 + 1 + 1 + 1) 3] := rfl
  rw [hexp]
  simp only [g1, g2, g3, g4, g5, g6, g7, g8]
  rw [show ([planes 0 (offset + i) % 256 / 128 % 2,
            planes 1 (offset + i) % 256 / 128 % 2,
            planes 2 (offset + i) % 256 / 128 % 2,
            planes 3 (offset + i) % 256 / 128 % 2,
            planes 0 (offset + i) % 256 / 64 % 2,
            planes 1 (offset + i) % 256 / 64 % 2,
            planes 2 (offset + i) % 256 / 64 % 2,
            planes 3 (offset + i) % 256 / 64 % 2,
            planes 0 (offset + i) % 256 / 32 % 2,
            planes 1 (offset + i) % 256 / 32 % 2,
            planes 2 (offset + i) % 256 / 32 % 2,
            planes 3 (offset + i) % 256 / 32 % 2,
            planes 0 (offset + i) % 256 / 16 % 2,
            planes 1 (offset + i) % 256 / 16 % 2,
            planes 2 (offset + i) % 256 / 16 % 2,
            planes 3 (offset + i) % 256 / 16 % 2,
            planes 0 (offset + i) % 256 / 8 % 2,
            planes 1 (offset + i) % 256 / 8 % 2,
            planes 2 (offset + i) % 256 / 8 % 2,
            planes 3 (offset + i) % 256 / 8 % 2,
            planes 0 (offset + i) % 256 / 4 % 2,
            planes 1 (offset + i) % 256 / 4 % 2,
            planes 2 (offset + i) % 256 / 4 % 2,
            planes 3 (offset + i) % 256 / 4 % 2,
            planes 0 (offset + i) % 256 / 2 % 2,
            planes 1 (offset + i) % 256 / 2 % 2,
            planes 2 (offset + i) % 256 / 2 % 2,
            planes 3 (offset + i) % 256 / 2 % 2,
            planes 0 (offset + i) % 256 % 2,
            planes 1 (offset + i) % 256 % 2,
            planes 2 (offset + i) % 256 % 2,
            planes 3 (offset + i) % 256 % 2] : List Nat) =
      [planes 0 (offset + i) % 256 / 128 % 2,
       planes 1 (offset + i) % 256 / 128 % 2,
       planes 2 (offset + i) % 256 / 128 % 2,
       planes 3 (offset + i) % 256 / 128 % 2,
       planes 0 (offset + i) % 256 / 64 % 2,
       planes 1 (offset + i) % 256 / 64 % 2,
       planes 2 (offset + i) % 256 / 64 % 2,
       planes 3 (offset + i) % 256 / 64 % 2] ++
      ([planes 0 (offset + i) % 256 / 32 % 2,
        planes 1 (offset + i) % 256 / 32 % 2,
        planes 2 (offset + i) % 256 / 32 % 2,
        planes 3 (offset + i) % 256 / 32 % 2,
        planes 0 (offset + i) % 256 / 16 % 2,
        planes 1 (offset + i) % 256 / 16 % 2,
        planes 2 (offset + i) % 256 / 16 % 2,
        planes 3 (offset + i) % 256 / 16 % 2] ++
       ([planes 0 (offset + i) % 256 / 8 % 2,
         planes 1 (offset + i) % 256 / 8 % 2,
         planes 2 (offset + i) % 256 / 8 % 2,
         planes 3 (offset + i) % 256 / 8 % 2,
         planes 0 (offset + i) % 256 / 4 % 2,
         planes 1 (offset + i) % 256 / 4 % 2,
         planes 2 (offset + i) % 256 / 4 % 2,
         planes 3 (offset + i) % 256 / 4 % 2] ++
        ([planes 0 (offset + i) % 256 / 2 % 2,
          planes 1 (offset + i) % 256 / 2 % 2,
          planes 2 (offset + i) % 256 / 2 % 2,
          planes 3 (offset + i) % 256 / 2 % 2,
          planes 0 (offset + i) % 256 % 2,
          planes 1 (offset + i) % 256 % 2,
          planes 2 (offset + i) % 256 % 2,
          planes 3 (offset + i) % 256 % 2] ++ []))) from rfl]
  rw [byteStep1 _ _ _ _ _ _ _ _ _ _ (by omega) (by omega) (by omega) (by omega)
        (by omega) (by omega) (by omega) (by omega),
      byteStep1 _ _ _ _ _ _ _ _ _ _ (by omega) (by omega) (by omega) (by omega)
        (by omega) (by omega) (by omega) (by omega),
      byteStep1 _ _ _ _ _ _ _ _ _ _ (by omega) (by omega) (by omega) (by omega)
        (by omega) (by omega) (by omega) (by omega),
      byteStep1 _ _ _ _ _ _ _ _ _ _ (by omega) (by omega) (by omega) (by omega)
        (by omega) (by omega) (by omega) (by omega)]
  have hB0 : planes 0 (offset + i) % 256 < 256 := Nat.mod_lt _ (by norm_num)
  have hB1 : planes 1 (offset + i) % 256 < 256 := Nat.mod_lt _ (by norm_num)
  have hB2 : planes 2 (offset + i) % 256 < 256 := Nat.mod_lt _ (by norm_num)
  have hB3 : planes 3 (offset + i) % 256 < 256 := Nat.mod_lt _ (by norm_num)
  have hlt : ∀ x c : Nat, c < 256 → x &&& c < 256 := fun x c hc =>
    Nat.and_lt_two_pow x (show c < 2 ^ 8 from hc)
  have horlt : ∀ x y : Nat, x < 256 → y < 256 → (x ||| y) < 256 := fun x y hx hy =>
    Nat.or_lt_two_pow (show x < 2 ^ 8 from hx) (show y < 2 ^ 8 from hy)
  have t12a : (transposeBits (planes 0 (offset + i) % 256)
      (planes 1 (offset + i) % 256) 0x55 1).1 =
      ((planes 0 (offset + i) % 256) &&& 0xAA) |||
        (((planes 1 (offset + i) % 256) >>> 1) &&& 0x55) := by
    rw [transpose_55 _ _ hB0 hB1]
  have t12b : (transposeBits (planes 0 (offset + i) % 256)
      (planes 1 (offset + i) % 256) 0x55 1).2 =
      ((planes 1 (offset + i) % 256) &&& 0x55) |||
        (((planes 0 (offset + i) % 256) <<< 1) &&& 0xAA) := by
    rw [transpose_55 _ _ hB0 hB1]
  have t34a : (transposeBits (planes 2 (offset + i) % 256)
      (planes 3 (offset + i) % 256) 0x55 1).1 =
      ((planes 2 (offset + i) % 256) &&& 0xAA) |||
        (((planes 3 (offset + i) % 256) >>> 1) &&& 0x55) := by
    rw [transpose_55 _ _ hB2 hB3]
  have t34b : (transposeBits (planes 2 (offset + i) % 256)
      (planes 3 (offset + i) % 256) 0x55 1).2 =
      ((planes 3 (offset + i) % 256) &&& 0x55) |||
        (((planes 2 (offset + i) % 256) <<< 1) &&& 0xAA) := by
    rw [transpose_55 _ _ hB2 hB3]
  have hc1 : (transposeBits (transposeBits (planes 0 (offset + i) % 256)
      (planes 1 (offset + i) % 256) 0x55 1).1
      (transposeBits (planes 2 (offset + i) % 256)
      (planes 3 (offset + i) % 256) 0x55 1).1 0x33 2).1 =
      (((planes 0 (offset + i) % 256) &&& 0x88) |||
        (((planes 1 (offset + i) % 256) >>> 1) &&& 0x44)) |||
      ((((planes 2 (offset + i) % 256) >>> 2) &&& 0x22) |||
        (((planes 3 (offset + i) % 256) >>> 3) &&& 0x11)) := by
    rw [t12a, t34a,
        transpose_33 _ _ (horlt _ _ (hlt _ _ (by norm_num)) (hlt _ _ (by norm_num)))
          (horlt _ _ (hlt _ _ (by norm_num)) (hlt _ _ (by norm_num)))]
    show ((((planes 0 (offset + i) % 256) &&& 0xAA) |||
        (((planes 1 (offset + i) % 256) >>> 1) &&& 0x55)) &&& 0xCC) |||
        (((((planes 2 (offset + i) % 256) &&& 0xAA) |||
        (((planes 3 (offset + i) % 256) >>> 1) &&& 0x55)) >>> 2) &&& 0x33) = _
    rw [Nat.and_distrib_right, or_shiftRight, and_shiftRight, and_shiftRight,
        ← Nat.shiftRight_add, Nat.and_distrib_right, Nat.and_assoc, Nat.and_assoc,
        Nat.and_assoc, Nat.and_assoc,
        show (0xAA &&& 0xCC : Nat) = 0x88 from rfl,
        show (0x55 &&& 0xCC : Nat) = 0x44 from rfl,
        show ((0xAA >>> 2 : Nat) &&& 0x33) = 0x22 from rfl,
        show ((0x55 >>> 2 : Nat) &&& 0x33) = 0x11 from rfl,
        show (1 + 2 : Nat) = 3 from rfl]
  have hc2 : (transposeBits (transposeBits (planes 0 (offset + i) % 256)
      (planes 1 (offset + i) % 256) 0x55 1).2
      (transposeBits (planes 2 (offset + i) % 256)
      (planes 3 (offset + i) % 256) 0x55 1).2 0x33 2).1 =
      (((planes 1 (offset + i) % 256) &&& 0x44) |||
        (((planes 0 (offset + i) % 256) <<< 1) &&& 0x88)) |||
      ((((planes 3 (offset + i) % 256) >>> 2) &&& 0x11) |||
        (((planes 2 (offset + i) % 256) >>> 1) &&& 0x22)) := by
    rw [t12b, t34b,
        transpose_33 _ _ (horlt _ _ (hlt _ _ (by norm_num)) (hlt _ _ (by norm_num)))
          (horlt _ _ (hlt _ _ (by norm_num)) (hlt _ _ (by norm_num)))]
    show ((((planes 1 (offset + i) % 256) &&& 0x55) |||
        (((planes 0 (offset + i) % 256) <<< 1) &&& 0xAA)) &&& 0xCC) |||
        (((((planes 3 (offset + i) % 256) &&& 0x55) |||
        (((planes 2 (offset + i) % 256) <<< 1) &&& 0xAA)) >>> 2) &&& 0x33) = _
    rw [Nat.and_distrib_right, or_shiftRight, and_shiftRight, and_shiftRight,
        shl_shr_le _ 1 2 (by norm_num), Nat.and_distrib_right, Nat.and_assoc,
        Nat.and_assoc, Nat.and_assoc, Nat.and_assoc,
        show (0x55 &&& 0xCC : Nat) = 0x44 from rfl,
        show (0xAA &&& 0xCC : Nat) = 0x88 from rfl,
        show ((0x55 >>> 2 : Nat) &&& 0x33) = 0x11 from rfl,
        show ((0xAA >>> 2 : Nat) &&& 0x33) = 0x22 from rfl,
        show (2 - 1 : Nat) = 1 from rfl]
  have hc3 : (transposeBits (transposeBits (planes 0 (offset + i) % 256)
      (planes 1 (offset + i) % 256) 0x55 1).1
      (transposeBits (planes 2 (offset + i) % 256)
      (planes 3 (offset + i) % 256) 0x55 1).1 0x33 2).2 =
      (((planes 2 (offset + i) % 256) &&& 0x22) |||
        (((planes 3 (offset + i) % 256) >>> 1) &&& 0x11)) |||
      ((((planes 0 (offset + i) % 256) <<< 2) &&& 0x88) |||
        ((((planes 1 (offset + i) % 256) >>> 1) <<< 2) &&& 0x44)) := by
    rw [t12a, t34a,
        transpose_33 _ _ (horlt _ _ (hlt _ _ (by norm_num)) (hlt _ _ (by norm_num)))
          (horlt _ _ (hlt _ _ (by norm_num)) (hlt _ _ (by norm_num)))]
    show ((((planes 2 (offset + i) % 256) &&& 0xAA) |||
        (((planes 3 (offset + i) % 256) >>> 1) &&& 0x55)) &&& 0x33) |||
        (((((planes 0 (offset + i) % 256) &&& 0xAA) |||
        (((planes 1 (offset + i) % 256) >>> 1) &&& 0x55)) <<< 2) &&& 0xCC) = _
    rw [Nat.and_distrib_right, or_shiftLeft, and_shiftLeft, and_shiftLeft,
        Nat.and_distrib_right, Nat.and_assoc, Nat.and_assoc, Nat.and_assoc,
        Nat.and_assoc,
        show (0xAA &&& 0x33 : Nat) = 0x22 from rfl,
        show (0x55 &&& 0x33 : Nat) = 0x11 from rfl,
        show ((0xAA <<< 2 : Nat) &&& 0xCC) = 0x88 from rfl,
        show ((0x55 <<< 2 : Nat) &&& 0xCC) = 0x44 from rfl]
  have hc4 : (transposeBits (transposeBits (planes 0 (offset + i) % 256)
      (planes 1 (offset + i) % 256) 0x55 1).2
      (transposeBits (planes 2 (offset + i) % 256)
      (planes 3 (offset + i) % 256) 0x55 1).2 0x33 2).2 =
      (((planes 3 (offset + i) % 256) &&& 0x11) |||
        (((planes 2 (offset + i) % 256) <<< 1) &&& 0x22)) |||
      ((((planes 1 (offset + i) % 256) <<< 2) &&& 0x44) |||
        (((planes 0 (offset + i) % 256) <<< 3) &&& 0x88)) := by
    rw [t12b, t34b,
        transpose_33 _ _ (horlt _ _ (hlt _ _ (by norm_num)) (hlt _ _ (by norm_num)))
          (horlt _ _ (hlt _ _ (by norm_num)) (hlt _ _ (by norm_num)))]
    show ((((planes 3 (offset + i) % 256) &&& 0x55) |||
        (((planes 2 (offset + i) % 256) <<< 1) &&& 0xAA)) &&& 0x33) |||
        (((((planes 1 (offset + i) % 256) &&& 0x55) |||
        (((planes 0 (offset + i) % 256) <<< 1) &&& 0xAA)) <<< 2) &&& 0xCC) = _
    rw [Nat.and_distrib_right, or_shiftLeft, and_shiftLeft, and_shiftLeft,
        ← Nat.shiftLeft_add, Nat.and_distrib_right, Nat.and_assoc, Nat.and_assoc,
        Nat.and_assoc, Nat.and_assoc,
        show (0x55 &&& 0x33 : Nat) = 0x11 from rfl,
        show (0xAA &&& 0x33 : Nat) = 0x22 from rfl,
        show ((0x55 <<< 2 : Nat) &&& 0xCC) = 0x44 from rfl,
        show ((0xAA <<< 2 : Nat) &&& 0xCC) = 0x88 from rfl,
        show (1 + 2 : Nat) = 3 from rfl]
  have e0 : ((transposeBits (transposeBits (planes 0 (offset + i) % 256)
      (planes 1 (offset + i) % 256) 0x55 1).1
      (transposeBits (planes 2 (offset + i) % 256)
      (planes 3 (offset + i) % 256) 0x55 1).1 0x33 2).1 &&& 0xf0) |||
      ((transposeBits (transposeBits (planes 0 (offset + i) % 256)
      (planes 1 (offset + i) % 256) 0x55 1).2
      (transposeBits (planes 2 (offset + i) % 256)
      (planes 3 (offset + i) % 256) 0x55 1).2 0x33 2).1 >>> 4) =
      planes 0 (offset + i) % 256 / 128 % 2 * 128 +
      planes 1 (offset + i) % 256 / 128 % 2 * 64 +
      planes 2 (offset + i) % 256 / 128 % 2 * 32 +
      planes 3 (offset + i) % 256 / 128 % 2 * 16 +
      planes 0 (offset + i) % 256 / 64 % 2 * 8 +
      planes 1 (offset + i) % 256 / 64 % 2 * 4 +
      planes 2 (offset + i) % 256 / 64 % 2 * 2 +
      planes 3 (offset + i) % 256 / 64 % 2 := by
    obtain ⟨a1, a2, a3, a4, a5, a6, a7, a8, a9, a10, a11, a12, a13, a14, a15,
            a16⟩ := atoms4x1_o0 _ hB0
    obtain ⟨b1, b2, b3, b4, b5, b6, b7, b8, b9, b10, b11, b12, b13, b14, b15,
            b16⟩ := atoms4x1_o0 _ hB1
    obtain ⟨c1, c2, c3, c4, c5, c6, c7, c8, c9, c10, c11, c12, c13, c14, c15,
            c16⟩ := atoms4x1_o0 _ hB2
    obtain ⟨d1, d2, d3, d4, d5, d6, d7, d8, d9, d10, d11, d12, d13, d14, d15,
            d16⟩ := atoms4x1_o0 _ hB3
    rw [hc1, hc2, Nat.and_distrib_right, Nat.and_distrib_right,
        Nat.and_distrib_right, or_shiftRight, or_shiftRight, or_shiftRight,
        or_eq_add_of_and _ _ (and_disjoint_masks _ _ _ _
          (or_subset_mask _ _ _ _ (or_subset_mask _ _ _ _ a2 b4)
            (or_subset_mask _ _ _ _ c6 d8))
          (or_subset_mask _ _ _ _ (or_subset_mask _ _ _ _ b10 a12)
            (or_subset_mask _ _ _ _ d14 c16))
          (by decide)),
        or22_add _ _ _ _ 0x80 0x40 0x20 0x10 a2 b4 c6 d8 (by decide) (by decide)
          (by decide) (by decide) (by decide) (by decide),
        or22_add _ _ _ _ 0x04 0x08 0x01 0x02 b10 a12 d14 c16 (by decide)
          (by decide) (by decide) (by decide) (by decide) (by decide),
        a1, b3, c5, d7, b9, a11, d13, c15]
    ring
  have e1 : ((transposeBits (transposeBits (planes 0 (offset + i) % 256)
      (planes 1 (offset + i) % 256) 0x55 1).1
      (transposeBits (planes 2 (offset + i) % 256)
      (planes 3 (offset + i) % 256) 0x55 1).1 0x33 2).2 &&& 0xf0) |||
      ((transposeBits (transposeBits (planes 0 (offset + i) % 256)
      (planes 1 (offset + i) % 256) 0x55 1).2
      (transposeBits (planes 2 (offset + i) % 256)
      (planes 3 (offset + i) % 256) 0x55 1).2 0x33 2).2 >>> 4) =
      planes 0 (offset + i) % 256 / 32 % 2 * 128 +
      planes 1 (offset + i) % 256 / 32 % 2 * 64 +
      planes 2 (offset + i) % 256 / 32 % 2 * 32 +
      planes 3 (offset + i) % 256 / 32 % 2 * 16 +
      planes 0 (offset + i) % 256 / 16 % 2 * 8 +
      planes 1 (offset + i) % 256 / 16 % 2 * 4 +
      planes 2 (offset + i) % 256 / 16 % 2 * 2 +
      planes 3 (offset + i) % 256 / 16 % 2 := by
    obtain ⟨a1, a2, a3, a4, a5, a6, a7, a8, a9, a10, a11, a12, a13, a14, a15,
            a16⟩ := atoms4x1_o1 _ hB0
    obtain ⟨b1, b2, b3, b4, b5, b6, b7, b8, b9, b10, b11, b12, b13, b14, b15,
            b16⟩ := atoms4x1_o1 _ hB1
    obtain ⟨c1, c2, c3, c4, c5, c6, c7, c8, c9, c10, c11, c12, c13, c14, c15,
            c16⟩ := atoms4x1_o1 _ hB2
    obtain ⟨d1, d2, d3, d4, d5, d6, d7, d8, d9, d10, d11, d12, d13, d14, d15,
            d16⟩ := atoms4x1_o1 _ hB3
    rw [hc3, hc4, Nat.and_distrib_right, Nat.and_distrib_right,
        Nat.and_distrib_right, or_shiftRight, or_shiftRight, or_shiftRight,
        or_eq_add_of_and _ _ (and_disjoint_masks _ _ _ _
          (or_subset_mask _ _ _ _ (or_subset_mask _ _ _ _ c2 d4)
            (or_subset_mask _ _ _ _ a6 b8))
          (or_subset_mask _ _ _ _ (or_subset_mask _ _ _ _ d10 c12)
            (or_subset_mask _ _ _ _ b14 a16))
          (by decide)),
        or22_add _ _ _ _ 0x20 0x10 0x80 0x40 c2 d4 a6 b8 (by decide) (by decide)
          (by decide) (by decide) (by decide) (by decide),
        or22_add _ _ _ _ 0x01 0x02 0x04 0x08 d10 c12 b14 a16 (by decide)
          (by decide) (by decide) (by decide) (by decide) (by decide),
        c1, d3, a5, b7, d9, c11, b13, a15]
    ring
  have e2 : (((transposeBits (transposeBits (planes 0 (offset + i) % 256)
      (planes 1 (offset + i) % 256) 0x55 1).1
      (transposeBits (planes 2 (offset + i) % 256)
      (planes 3 (offset + i) % 256) 0x55 1).1 0x33 2).1 <<< 4) |||
      ((transposeBits (transposeBits (planes 0 (offset + i) % 256)
      (planes 1 (offset + i) % 256) 0x55 1).2
      (transposeBits (planes 2 (offset + i) % 256)
      (planes 3 (offset + i) % 256) 0x55 1).2 0x33 2).1 &&& 0xf)) % 256 =
      planes 0 (offset + i) % 256 / 8 % 2 * 128 +
      planes 1 (offset + i) % 256 / 8 % 2 * 64 +
      planes 2 (offset + i) % 256 / 8 % 2 * 32 +
      planes 3 (offset + i) % 256 / 8 % 2 * 16 +
      planes 0 (offset + i) % 256 / 4 % 2 * 8 +
      planes 1 (offset + i) % 256 / 4 % 2 * 4 +
      planes 2 (offset + i) % 256 / 4 % 2 * 2 +
      planes 3 (offset + i) % 256 / 4 % 2 := by
    obtain ⟨a1, a2, a3, a4, a5, a6, a7, a8, a9, a10, a11, a12, a13, a14, a15,
            a16⟩ := atoms4x1_o2 _ hB0
    obtain ⟨b1, b2, b3, b4, b5, b6, b7, b8, b9, b10, b11, b12, b13, b14, b15,
            b16⟩ := atoms4x1_o2 _ hB1
    obtain ⟨c1, c2, c3, c4, c5, c6, c7, c8, c9, c10, c11, c12, c13, c14, c15,
            c16⟩ := atoms4x1_o2 _ hB2
    obtain ⟨d1, d2, d3, d4, d5, d6, d7, d8, d9, d10, d11, d12, d13, d14, d15,
            d16⟩ := atoms4x1_o2 _ hB3
    rw [hc1, hc2, or_mod256, or_shiftLeft, or_shiftLeft, or_shiftLeft,
        or_mod256, or_mod256, or_mod256, Nat.and_distrib_right,
        Nat.and_distrib_right, Nat.and_distrib_right, or_mod256, or_mod256,
        or_mod256,
        or_eq_add_of_and _ _ (and_disjoint_masks _ _ _ _
          (or_subset_mask _ _ _ _ (or_subset_mask _ _ _ _ a2 b4)
            (or_subset_mask _ _ _ _ c6 d8))
          (or_subset_mask _ _ _ _ (or_subset_mask _ _ _ _ b10 a12)
            (or_subset_mask _ _ _ _ d14 c16))
          (by decide)),
        or22_add _ _ _ _ 0x80 0x40 0x20 0x10 a2 b4 c6 d8 (by decide) (by decide)
          (by decide) (by decide) (by decide) (by decide),
        or22_add _ _ _ _ 0x04 0x08 0x01 0x02 b10 a12 d14 c16 (by decide)
          (by decide) (by decide) (by decide) (by decide) (by decide),
        a1, b3, c5, d7, b9, a11, d13, c15]
    ring
  have e3 : (((transposeBits (transposeBits (planes 0 (offset + i) % 256)
      (planes 1 (offset + i) % 256) 0x55 1).1
      (transposeBits (planes 2 (offset + i) % 256)
      (planes 3 (offset + i) % 256) 0x55 1).1 0x33 2).2 <<< 4) |||
      ((transposeBits (transposeBits (planes 0 (offset + i) % 256)
      (planes 1 (offset + i) % 256) 0x55 1).2
      (transposeBits (planes 2 (offset + i) % 256)
      (planes 3 (offset + i) % 256) 0x55 1).2 0x33 2).2 &&& 0xf)) % 256 =
      planes 0 (offset + i) % 256 / 2 % 2 * 128 +
      planes 1 (offset + i) % 256 / 2 % 2 * 64 +
      planes 2 (offset + i) % 256 / 2 % 2 * 32 +
      planes 3 (offset + i) % 256 / 2 % 2 * 16 +
      planes 0 (offset + i) % 256 % 2 * 8 +
      planes 1 (offset + i) % 256 % 2 * 4 +
      planes 2 (offset + i) % 256 % 2 * 2 +
      planes 3 (offset + i) % 256 % 2 := by
    obtain ⟨a1, a2, a3, a4, a5, a6, a7, a8, a9, a10, a11, a12, a13, a14, a15,
            a16⟩ := atoms4x1_o3 _ hB0
    obtain ⟨b1, b2, b3, b4, b5, b6, b7, b8, b9, b10, b11, b12, b13, b14, b15,
            b16⟩ := atoms4x1_o3 _ hB1
    obtain ⟨c1, c2, c3, c4, c5, c6, c7, c8, c9, c10, c11, c12, c13, c14, c15,
            c16⟩ := atoms4x1_o3 _ hB2
    obtain ⟨d1, d2, d3, d4, d5, d6, d7, d8, d9, d10, d11, d12, d13, d14, d15,
            d16⟩ := atoms4x1_o3 _ hB3
    rw [hc3, hc4, or_mod256, or_shiftLeft, or_shiftLeft, or_shiftLeft,
        or_mod256, or_mod256, or_mod256, Nat.and_distrib_right,
        Nat.and_distrib_right, Nat.and_distrib_right, or_mod256, or_mod256,
        or_mod256,
        or_eq_add_of_and _ _ (and_disjoint_masks _ _ _ _
          (or_subset_mask _ _ _ _ (or_subset_mask _ _ _ _ c2 d4)
            (or_subset_mask _ _ _ _ a6 b8))
          (or_subset_mask _ _ _ _ (or_subset_mask _ _ _ _ d10 c12)
            (or_subset_mask _ _ _ _ b14 a16))
          (by decide)),
        or22_add _ _ _ _ 0x20 0x10 0x80 0x40 c2 d4 a6 b8 (by decide) (by decide)
          (by decide) (by decide) (by decide) (by decide),
        or22_add _ _ _ _ 0x01 0x02 0x04 0x08 d10 c12 b14 a16 (by decide)
          (by decide) (by decide) (by decide) (by decide) (by decide),
        c1, d3, a5, b7, d9, c11, b13, a15]
    ring
  rw [e0, e1, e2, e3]
  simp [storeVals]

end GSFlip

namespace GSFlip

theorem loop4x1 (planes : Planes) (offset : Nat) :
    ∀ (n i : Nat) (out : List Nat),
      storeVals 1 (sampleVals planes offset 1 4 (8 * i) (8 * n)) ⟨out, 0, 0⟩ =
        .ok ⟨out ++ flip4x1_loop (planes 0) (planes 1) (planes 2) (planes 3)
              (offset + i) n, 0, 0⟩ := by
  intro n
  induction n with
  | zero => intro i out; simp [sampleVals, storeVals, flip4x1_loop]
  | succ n ih =>
    intro i out
    rw [show 8 * (n + 1) = 8 + 8 * n from by ring, sampleVals_add,
        storeVals_append_ok 1 _ _ _ _ (chunk4x1 planes offset i out),
        show 8 * i + 1 * 8 = 8 * (i + 1) from by ring, ih (i + 1)]
    simp only [flip4x1_loop, List.append_assoc, List.cons_append, List.nil_append,
               show offset + (i + 1) = offset + i + 1 from by ring]

theorem flipNx1to8_eq_flip4x1 (planes : Planes) (offset : Nat) (nbytes : Int) :
    flipNx1to8 planes offset nbytes 4 1 = flip4x1 planes offset nbytes := by
  unfold flipNx1to8
  rw [flipN_outer_eq_storeVals]
  have hcnt : (8 * nbytes.toNat + (1 - 1)) / 1 = 8 * nbytes.toNat := by omega
  rw [hcnt]
  have h := loop4x1 planes offset nbytes.toNat 0 []
  simp only [Nat.mul_zero, Nat.add_zero, List.nil_append] at h
  rw [h]
  simp [flip4x1, sample_store_flush]

/-- C2: for `num_planes ∈ {3,4}` and `bits_per_sample ∈ {1,2,4,8}`, the result
of `image_flip_planes` (which dispatches to the fixed fast-path routine for
that combination) is identical — same return code, same output bytes — to the
generic packer `flipNx1to8` invoked with the same planes, offset, nbytes,
plane count and depth, for every offset, every `nbytes` and all plane
contents. -/
theorem C2_fast_path_refines_generic (planes : Planes) (offset : Nat)
    (nbytes : Int) (np bps : Int)
    (hnp : np = 3 ∨ np = 4) (hbps : bps = 1 ∨ bps = 2 ∨ bps = 4 ∨ bps = 8) :
    image_flip_planes planes offset nbytes np bps =
      flipNx1to8 planes offset nbytes np.toNat bps.toNat := by
  rcases hnp with rfl | rfl <;> rcases hbps with rfl | rfl | rfl | rfl
  · exact (show image_flip_planes planes offset nbytes 3 1 =
        flip3x1 planes offset nbytes from rfl).trans
      (flipNx1to8_eq_flip3x1 planes offset nbytes).symm
  · exact (show image_flip_planes planes offset nbytes 3 2 =
        flip3x2 planes offset nbytes from rfl).trans
      (flipNx1to8_eq_flip3x2 planes offset nbytes).symm
  · exact (show image_flip_planes planes offset nbytes 3 4 =
        flip3x4 planes offset nbytes from rfl).trans
      (flipNx1to8_eq_flip3x4 planes offset nbytes).symm
  · exact (show image_flip_planes planes offset nbytes 3 8 =
        flip3x8 planes offset nbytes from rfl).trans
      (flipNx1to8_eq_flip3x8 planes offset nbytes).symm
  · exact (show image_flip_planes planes offset nbytes 4 1 =
        flip4x1 planes offset nbytes from rfl).trans
      (flipNx1to8_eq_flip4x1 planes offset nbytes).symm
  · exact (show image_flip_planes planes offset nbytes 4 2 =
        flip4x2 planes offset nbytes from rfl).trans
      (flipNx1to8_eq_flip4x2 planes offset nbytes).symm
  · exact (show image_flip_planes planes offset nbytes 4 4 =
        flip4x4 planes offset nbytes from rfl).trans
      (flipNx1to8_eq_flip4x4 planes offset nbytes).symm
  · exact (show image_flip_planes planes offset nbytes 4 8 =
        flip4x8 planes offset nbytes from rfl).trans
      (flipNx1to8_eq_flip4x8 planes offset nbytes).symm

/-- Witness for C2: the 4-plane depth-1 fast path agrees with the generic
packer on a concrete two-byte input. -/
theorem C2_fast_path_refines_generic_witness :
    image_flip_planes (fun pi j => pi + 2 * j) 0 2 4 1 =
      flipNx1to8 (fun pi j => pi + 2 * j) 0 2 4 1 :=
  C2_fast_path_refines_generic (fun pi j => pi + 2 * j) 0 2 4 1
    (Or.inr rfl) (Or.inl rfl)

end GSFlip
